import Mathlib

/-!
# Target and ABI configuration of cparser (`src/driver/target.c`)

A shallow embedding of the target resolver: ISA selection (`setup_firm_isa`),
operating-system support (`init_os_support`), option forwarding
(`pass_options_to_firm_be`), the orchestrator (`target_setup`) and the atomic
type adjustment (`target_adjust_types_and_dialect`).

The C globals are gathered in one record `State`; every C function becomes a
state transformer `Exec α := State → Outcome α`, where an `Outcome` is either a
normal return or a process abort (`panic(...)`, `exit(EXIT_FAILURE)`), both
carrying the globals as they stand at that point.  Calls into collaborators
that are not part of the file (the firm backend, the triple classifiers, the
type table initialiser) are parameters gathered in `Env`; the calls themselves
are recorded in the state (`be_log`, `errors`, `init_types_calls`, the flag
lists), so that "what was sent" can be stated.
-/

namespace CParser

/-! ## C strings and libc helpers -/

/-- `streq(a, b)` from `adt/strutil.h`: string equality. -/
def streq (a b : String) : Bool := decide (a = b)

/-- `strstr(hay, needle) != NULL`: `needle` occurs somewhere in `hay`. -/
def strstr (hay needle : String) : Bool :=
  hay.data.tails.any (fun t => needle.data.isPrefixOf t)

/-- `snprintf(buf, size, ...)`: the formatted text `text`, cut to what fits a
buffer of `size` bytes (at most `size - 1` characters and the terminator). -/
def snprintf (size : Nat) (text : String) : String :=
  ⟨text.data.take (size - 1)⟩

/-- The test `opt[0] < '0' || opt[0] > '9'` negated: the first character of
`opt` is a decimal digit (the first character of an empty C string is the
terminator, which is not a digit). -/
def starts_with_digit (opt : String) : Bool :=
  match opt.data with
  | [] => false
  | c :: _ => decide ('0' ≤ c) && decide (c ≤ '9')

/-- Value of a decimal digit character. -/
def digit_value (c : Char) : Nat := c.toNat - '0'.toNat

/-- The digit-accumulating loop of `atoi`. -/
def atoi_digits : List Char → Nat → Nat
  | [], acc => acc
  | c :: cs, acc =>
    if decide ('0' ≤ c) && decide (c ≤ '9') then atoi_digits cs (10 * acc + digit_value c)
    else acc

/-- Whitespace as `isspace` sees it in the C locale. -/
def c_isspace (c : Char) : Bool :=
  c = ' ' || c = '\t' || c = '\n' || c = '\x0b' || c = '\x0c' || c = '\r'

/-- `INT_MAX` of a 32-bit `int`. -/
def INT_MAX : Int := 2147483647

/-- `LONG_MAX` of a 64-bit `long`. -/
def LONG_MAX : Int := 9223372036854775807

/-- `LONG_MIN` of a 64-bit `long`. -/
def LONG_MIN : Int := -9223372036854775808

/-- The number a text writes as `strtol(s, NULL, 10)` reads it: white space is
skipped, then comes an optional sign and the longest run of decimal digits.
This is the exact value, before any limit of range. -/
def strtol_value (s : String) : Int :=
  match s.data.dropWhile c_isspace with
  | '-' :: cs => - (atoi_digits cs 0 : Int)
  | '+' :: cs => (atoi_digits cs 0 : Int)
  | cs => (atoi_digits cs 0 : Int)

/-- libc `strtol(s, NULL, 10)` with a 64-bit `long`: a value out of range is
replaced by `LONG_MAX` or `LONG_MIN`. -/
def strtol (s : String) : Int :=
  max LONG_MIN (min LONG_MAX (strtol_value s))

/-- Conversion of a `long` to an `int` of 32 bits: the low 32 bits, read as a
signed number. -/
def long_to_int (v : Int) : Int :=
  (v + 2147483648) % 4294967296 - 2147483648

/-- libc `atoi(s)`, which is `(int) strtol(s, NULL, 10)`.  A number that fits
an `int` is returned as it is written.  For a number that does not fit, C
leaves the result undefined; the value here is the one glibc computes with a
64-bit `long` (`strtol` saturates, the conversion to `int` keeps the low 32
bits), so that `18446744073709551680` gives -1 and `4294967360` gives 64. -/
def atoi (s : String) : Int :=
  long_to_int (strtol s)

/-- Conversion of an `int` to `unsigned` (32 bits): reduction modulo `2^32`. -/
def to_unsigned (v : Int) : Nat := (v % (2 ^ 32 : Int)).toNat

/-- `BITS_PER_BYTE` (from `adt/util.h`). -/
def BITS_PER_BYTE : Nat := 8

/-! ## Data model -/

/-- The machine triple `target.machine` points to (`machine_triple_t`). -/
structure machine_triple_t where
  cpu_type : String
  manufacturer : String
  operating_system : String
deriving DecidableEq

/-- Modelled from the spec: the enumeration of atomic type kinds (declared in
`ast/type.h`, which is not part of the sources at hand): "char, short, int,
long, long-long, their unsigned counterparts, float, double, long-double,
wchar-equivalent". -/
inductive atomic_type_kind_t where
  | ATOMIC_TYPE_BOOL
  | ATOMIC_TYPE_CHAR
  | ATOMIC_TYPE_SCHAR
  | ATOMIC_TYPE_UCHAR
  | ATOMIC_TYPE_SHORT
  | ATOMIC_TYPE_USHORT
  | ATOMIC_TYPE_INT
  | ATOMIC_TYPE_UINT
  | ATOMIC_TYPE_LONG
  | ATOMIC_TYPE_ULONG
  | ATOMIC_TYPE_LONGLONG
  | ATOMIC_TYPE_ULONGLONG
  | ATOMIC_TYPE_FLOAT
  | ATOMIC_TYPE_DOUBLE
  | ATOMIC_TYPE_LONG_DOUBLE
  | ATOMIC_TYPE_WCHAR_T
deriving DecidableEq

export atomic_type_kind_t (ATOMIC_TYPE_BOOL ATOMIC_TYPE_CHAR ATOMIC_TYPE_SCHAR
  ATOMIC_TYPE_UCHAR ATOMIC_TYPE_SHORT ATOMIC_TYPE_USHORT ATOMIC_TYPE_INT
  ATOMIC_TYPE_UINT ATOMIC_TYPE_LONG ATOMIC_TYPE_ULONG ATOMIC_TYPE_LONGLONG
  ATOMIC_TYPE_ULONGLONG ATOMIC_TYPE_FLOAT ATOMIC_TYPE_DOUBLE
  ATOMIC_TYPE_LONG_DOUBLE ATOMIC_TYPE_WCHAR_T)

/-- One record of the atomic type property table
(`atomic_type_properties_t`): the four fields `copy_typeprops` copies and the
integer conversion rank it leaves out. -/
structure atomic_type_properties_t where
  size : Nat
  alignment : Nat
  struct_alignment : Nat
  flags : Nat
  rank : Nat
deriving DecidableEq

/-- The table `atomic_type_properties[]`, indexed by atomic kind. -/
abbrev props_table := atomic_type_kind_t → atomic_type_properties_t

/-- Assignment to one slot of the table: `props[k] = v`. -/
def props_table.set (props : props_table) (k : atomic_type_kind_t)
    (v : atomic_type_properties_t) : props_table :=
  fun j => if j = k then v else props j

/-- A firm type as far as this file looks at it: `get_type_size_bytes` and
`get_type_alignment_bytes`. -/
structure ir_type where
  size_bytes : Nat
  alignment_bytes : Nat
deriving DecidableEq

/-- The record `be_get_backend_param()` returns, restricted to the fields read
here; an absent type is a `NULL` pointer. -/
structure backend_params where
  machine_size : Nat
  type_long_double : Option ir_type
  type_long_long : Option ir_type
  type_unsigned_long_long : Option ir_type
  byte_order_big_endian : Bool
  modulo_shift : Nat
  float_int_overflow : Nat
deriving DecidableEq

/-- The object file formats `target.object_format` ranges over. -/
inductive object_format_t where
  | OBJECT_FORMAT_ELF
  | OBJECT_FORMAT_MACH_O
  | OBJECT_FORMAT_PE_COFF
deriving DecidableEq

export object_format_t (OBJECT_FORMAT_ELF OBJECT_FORMAT_MACH_O OBJECT_FORMAT_PE_COFF)

/-- The functions a define can carry as `condition` (a function pointer in C:
here the name of the function pointed to). -/
inductive condition_func_t where
  | cond_not_strict
  | cond_is_little_endian
deriving DecidableEq

/-- A registered preprocessor define (`target_define_t`, without the `next`
link: the list `target.defines` is a Lean list, newest first). -/
structure target_define_t where
  name : String
  value : String
  condition : Option condition_func_t
deriving DecidableEq

/-- The linker-name creators `set_create_ld_ident` can install. -/
inductive create_ld_ident_t where
  | create_name_linux_elf
  | create_name_macho
  | create_name_win32
  | create_name_win64
deriving DecidableEq

/-- The two compiler-library manglers of this file. -/
inductive compilerlib_name_mangle_t where
  | compilerlib_name_mangle_default
  | compilerlib_name_mangle_underscore
deriving DecidableEq

/-- The global `target` (`target_t`), restricted to the fields this file
touches. -/
structure target_t where
  machine : Option machine_triple_t
  triple : Option String
  pic_mode : Int
  pic_no_plt : Bool
  defines : List target_define_t
  enable_main_collect2_hack : Bool
  biggest_alignment : Nat
  user_label_prefix : String
  object_format : object_format_t
  byte_order_big_endian : Bool
  modulo_shift : Nat
  float_int_overflow : Nat
deriving DecidableEq

/-- The global `dialect`, restricted to the fields this file touches. -/
structure dialect_t where
  gnu : Bool
  cpp : Bool
  char_is_signed : Bool
  wchar_atomic_kind : atomic_type_kind_t
  pointer_sized_int : atomic_type_kind_t
  pointer_sized_uint : atomic_type_kind_t
deriving DecidableEq

/-- All global state the file reads or writes, together with the record of
the calls made to collaborators. -/
structure State where
  /-- the global `target` -/
  target : target_t
  /-- the global `dialect` -/
  dialect : dialect_t
  /-- the buffer `firm_isa` -/
  firm_isa : String
  /-- the static `experimental_backend` (`NULL` is `none`) -/
  experimental_backend : Option String
  /-- the list `codegen_options`, in list order -/
  codegen_options : List String
  /-- the table `atomic_type_properties` -/
  props : props_table
  /-- `multilib_directory_target_triple` -/
  multilib_directory_target_triple : Option String
  /-- `driver_default_exe_output` -/
  driver_default_exe_output : String
  /-- what `set_create_ld_ident` installed last -/
  create_ld_ident : Option create_ld_ident_t
  /-- what `set_compilerlib_name_mangle` installed last -/
  compilerlib_name_mangle : Option compilerlib_name_mangle_t
  /-- `profile_generate` -/
  profile_generate : Bool
  /-- `profile_use` -/
  profile_use : Bool
  /-- the function-local static `had_cpp_warning` -/
  had_cpp_warning : Bool
  /-- every argument handed to `be_parse_arg`, oldest first -/
  be_log : List String
  /-- every message handed to `errorf`, oldest first -/
  errors : List String
  /-- every message handed to `warningf`, oldest first -/
  warnings : List String
  /-- the flags added to `cppflags_obst`, oldest first -/
  cppflags : List String
  /-- the flags added to `asflags_obst`, oldest first -/
  asflags : List String
  /-- the flags added to `ldflags_obst`, oldest first -/
  ldflags : List String
  /-- the arguments of every call of `init_types`, oldest first -/
  init_types_calls : List (Nat × Nat × Nat)

/-- The collaborators of the file, as parameters. -/
structure Env where
  /-- `be_parse_arg(arg) != 0`, which may depend on everything the backend was
  handed before -/
  be_accepts : List String → String → Bool
  /-- `be_get_backend_param()`, which may depend on everything the backend was
  handed before -/
  be_get_backend_param : List String → backend_params
  /-- `is_elf_os` -/
  is_elf_os : String → Bool
  /-- `is_darwin_os` -/
  is_darwin_os : String → Bool
  /-- `is_windows_os` -/
  is_windows_os : String → Bool
  /-- `is_ia32_cpu` -/
  is_ia32_cpu : String → Bool
  /-- `get_host_machine_triple()` -/
  get_host_machine_triple : machine_triple_t
  /-- the effect of `init_types(int_size, long_size, pointer_size)` on the
  property table -/
  init_types : Nat → Nat → Nat → props_table → props_table
  /-- the constant `ATOMIC_TYPE_FLAG_SIGNED` -/
  ATOMIC_TYPE_FLAG_SIGNED : Nat
  /-- `MULTILIB_M32_TRIPLE`, when the macro is defined -/
  MULTILIB_M32_TRIPLE : Option String
  /-- `MULTILIB_M64_TRIPLE`, when the macro is defined -/
  MULTILIB_M64_TRIPLE : Option String

/-! ## Execution: normal return or process abort -/

/-- How a call ends: it returns a value, or the process is terminated
(`panic`, `exit`); either way the globals are as the call left them. -/
inductive Outcome (α : Type) where
  | ret (a : α) (s : State)
  | abort (msg : String) (s : State)

/-- The globals at the end of the call. -/
def Outcome.state {α : Type} : Outcome α → State
  | .ret _ s => s
  | .abort _ s => s

/-- The value returned, when the call returned. -/
def Outcome.value? {α : Type} : Outcome α → Option α
  | .ret a _ => some a
  | .abort _ _ => none

/-- A C function over the globals. -/
def Exec (α : Type) : Type := State → Outcome α

/-- Sequencing: an abort ends everything that would follow. -/
def Exec.bind {α β : Type} (m : Exec α) (f : α → Exec β) : Exec β :=
  fun s =>
    match m s with
    | .ret a s1 => f a s1
    | .abort msg s1 => .abort msg s1

instance : Monad Exec where
  pure a := fun s => .ret a s
  bind := Exec.bind

/-- Read the globals. -/
def get_state : Exec State := fun s => .ret s s

/-- Write to the globals. -/
def modify_state (f : State → State) : Exec Unit := fun s => .ret () (f s)

/-- `panic(msg)` / `exit(EXIT_FAILURE)`: the process ends here. -/
def c_abort {α : Type} (msg : String) : Exec α := fun s => .abort msg s

/-- `target.machine->...`: the triple `target.machine` points to.  In C the
access through a `NULL` pointer is undefined; here it ends the process. -/
def get_machine : Exec machine_triple_t := fun s =>
  match s.target.machine with
  | some m => .ret m s
  | none => .abort "NULL dereference of target.machine" s

/-- `errorf(NULL, ...)` with the formatted message `msg`. -/
def errorf (msg : String) : Exec Unit :=
  modify_state fun s => { s with errors := s.errors ++ [msg] }

/-- `warningf(WARN_EXPERIMENTAL, NULL, ...)` with the formatted message. -/
def warningf (msg : String) : Exec Unit :=
  modify_state fun s => { s with warnings := s.warnings ++ [msg] }

/-- `be_parse_arg(arg)`: the backend is handed `arg` and says whether it took
it. -/
def be_parse_arg (env : Env) (arg : String) : Exec Bool := fun s =>
  .ret (env.be_accepts s.be_log arg) { s with be_log := s.be_log ++ [arg] }

/-! ## Atomic type properties (lines 27-133) -/

/-- `set_typeprops_type` (lines 30-35). -/
def set_typeprops_type (props : atomic_type_properties_t) (type : ir_type) :
    atomic_type_properties_t :=
  { props with
    size := type.size_bytes
    alignment := type.alignment_bytes
    struct_alignment := type.alignment_bytes }

/-- `copy_typeprops` (lines 40-47): everything but the conversion rank. -/
def copy_typeprops (dest src : atomic_type_properties_t) : atomic_type_properties_t :=
  { dest with
    size := src.size
    alignment := src.alignment
    struct_alignment := src.struct_alignment
    flags := src.flags }

/-- Lines 70-81: the types the backend reports overwrite the defaults. -/
def adjust_backend_types (be_params : backend_params) (props : props_table) : props_table :=
  let props :=
    match be_params.type_long_double with
    | some type_ld =>
      props.set ATOMIC_TYPE_LONG_DOUBLE (set_typeprops_type (props ATOMIC_TYPE_LONG_DOUBLE) type_ld)
    | none => props
  let props :=
    match be_params.type_long_long with
    | some type_ll =>
      props.set ATOMIC_TYPE_LONGLONG (set_typeprops_type (props ATOMIC_TYPE_LONGLONG) type_ll)
    | none => props
  match be_params.type_unsigned_long_long with
  | some type_ull =>
    props.set ATOMIC_TYPE_ULONGLONG (set_typeprops_type (props ATOMIC_TYPE_ULONGLONG) type_ull)
  | none => props

/-- Lines 83-111, the part that writes the property table: the operating
system and ISA exceptions. -/
def adjust_os_abi_props (env : Env) (operating_system firm_isa : String)
    (props : props_table) : props_table :=
  if env.is_darwin_os operating_system then
    let props :=
      if streq firm_isa "ia32" then
        let props := props.set ATOMIC_TYPE_LONGLONG
          { props ATOMIC_TYPE_LONGLONG with struct_alignment := 4 }
        let props := props.set ATOMIC_TYPE_ULONGLONG
          { props ATOMIC_TYPE_ULONGLONG with struct_alignment := 4 }
        props.set ATOMIC_TYPE_DOUBLE
          { props ATOMIC_TYPE_DOUBLE with struct_alignment := 4 }
      else props
    if streq firm_isa "ia32" || streq firm_isa "amd64" then
      let props := props.set ATOMIC_TYPE_LONG_DOUBLE
        { props ATOMIC_TYPE_LONG_DOUBLE with size := 16 }
      let props := props.set ATOMIC_TYPE_LONG_DOUBLE
        { props ATOMIC_TYPE_LONG_DOUBLE with alignment := 16 }
      props.set ATOMIC_TYPE_LONG_DOUBLE
        { props ATOMIC_TYPE_LONG_DOUBLE with struct_alignment := 16 }
    else props
  else if env.is_windows_os operating_system then
    let props := props.set ATOMIC_TYPE_LONGLONG
      { props ATOMIC_TYPE_LONGLONG with struct_alignment := 8 }
    let props := props.set ATOMIC_TYPE_ULONGLONG
      { props ATOMIC_TYPE_ULONGLONG with struct_alignment := 8 }
    let props := props.set ATOMIC_TYPE_DOUBLE
      { props ATOMIC_TYPE_DOUBLE with struct_alignment := 8 }
    props.set ATOMIC_TYPE_LONG_DOUBLE (props ATOMIC_TYPE_DOUBLE)
  else if streq firm_isa "ia32" then
    let props := props.set ATOMIC_TYPE_DOUBLE
      { props ATOMIC_TYPE_DOUBLE with struct_alignment := 4 }
    let props := props.set ATOMIC_TYPE_LONGLONG
      { props ATOMIC_TYPE_LONGLONG with struct_alignment := 4 }
    props.set ATOMIC_TYPE_ULONGLONG
      { props ATOMIC_TYPE_ULONGLONG with struct_alignment := 4 }
  else props

/-- Lines 65-66 and 100-106: the pointer-sized integer kinds (signed,
unsigned). -/
def adjust_pointer_sized (env : Env) (operating_system : String) (machine_size : Nat) :
    atomic_type_kind_t × atomic_type_kind_t :=
  if env.is_darwin_os operating_system then (ATOMIC_TYPE_LONG, ATOMIC_TYPE_ULONG)
  else if env.is_windows_os operating_system then
    if machine_size = 32 then (ATOMIC_TYPE_INT, ATOMIC_TYPE_UINT)
    else (ATOMIC_TYPE_LONGLONG, ATOMIC_TYPE_ULONGLONG)
  else (ATOMIC_TYPE_LONG, ATOMIC_TYPE_ULONG)

/-- The complement `~mask` of an `unsigned` (32 bits). -/
def bit_not32 (mask : Nat) : Nat := (2 ^ 32 - 1) ^^^ mask

/-- Lines 115-119: the signedness of plain `char`. -/
def adjust_char_signedness (env : Env) (char_is_signed : Bool) (props : props_table) :
    props_table :=
  if char_is_signed then
    props.set ATOMIC_TYPE_CHAR
      { props ATOMIC_TYPE_CHAR with
        flags := (props ATOMIC_TYPE_CHAR).flags ||| env.ATOMIC_TYPE_FLAG_SIGNED }
  else
    props.set ATOMIC_TYPE_CHAR
      { props ATOMIC_TYPE_CHAR with
        flags := (props ATOMIC_TYPE_CHAR).flags &&& bit_not32 env.ATOMIC_TYPE_FLAG_SIGNED }

/-- Line 121: `props[ATOMIC_TYPE_WCHAR_T] = props[dialect.wchar_atomic_kind]`. -/
def adjust_wchar (wchar_atomic_kind : atomic_type_kind_t) (props : props_table) : props_table :=
  props.set ATOMIC_TYPE_WCHAR_T (props wchar_atomic_kind)

/-- Lines 124-126: without a native long double, take the properties of
double. -/
def adjust_long_double_fallback (be_params : backend_params) (props : props_table) :
    props_table :=
  match be_params.type_long_double with
  | some _ => props
  | none =>
    props.set ATOMIC_TYPE_LONG_DOUBLE
      (copy_typeprops (props ATOMIC_TYPE_LONG_DOUBLE) (props ATOMIC_TYPE_DOUBLE))

/-- Lines 127-132: the one-time C++ warning. -/
def warn_cpp : Exec Unit := fun s =>
  if s.dialect.cpp && !s.had_cpp_warning then
    .ret () { s with
      warnings := s.warnings ++ ["C++ support is highly experimental and unfinished"]
      had_cpp_warning := true }
  else .ret () s

/-- The long size handed to `init_types` (lines 57-62). -/
def adjusted_long_size (env : Env) (operating_system : String) (pointer_size : Nat) : Nat :=
  let long_size := min pointer_size 8
  if env.is_windows_os operating_system && pointer_size == 8 then 4 else long_size

/-- `target_adjust_types_and_dialect` (lines 49-133). -/
def target_adjust_types_and_dialect (env : Env) : Exec Unit := do
  let s ← get_state
  let be_params := env.be_get_backend_param s.be_log
  let machine_size := be_params.machine_size
  if machine_size % BITS_PER_BYTE ≠ 0 then
    c_abort "Invalid target machine_size"
  else
    let pointer_size := machine_size / BITS_PER_BYTE
    let int_size := min pointer_size 4
    let operating_system := (← get_machine).operating_system
    let long_size := adjusted_long_size env operating_system pointer_size
    modify_state fun s =>
      { s with
        props := env.init_types int_size long_size pointer_size s.props
        init_types_calls := s.init_types_calls ++ [(int_size, long_size, pointer_size)] }
    modify_state fun s =>
      { s with
        dialect.pointer_sized_int := (adjust_pointer_sized env operating_system machine_size).1
        dialect.pointer_sized_uint := (adjust_pointer_sized env operating_system machine_size).2 }
    modify_state fun s => { s with props := adjust_backend_types be_params s.props }
    modify_state fun s =>
      { s with props := adjust_os_abi_props env operating_system s.firm_isa s.props }
    modify_state fun s =>
      { s with props := adjust_char_signedness env s.dialect.char_is_signed s.props }
    modify_state fun s => { s with props := adjust_wchar s.dialect.wchar_atomic_kind s.props }
    modify_state fun s => { s with props := adjust_long_double_fallback be_params s.props }
    warn_cpp

/-! ## Backend options and preprocessor defines (lines 147-183) -/

/-- `set_be_option` (lines 147-152): a rejected option is fatal. -/
def set_be_option (env : Env) (arg : String) : Exec Unit := do
  let res ← be_parse_arg env arg
  if !res then
    c_abort "setting firm backend option failed"

/-- `ppdef` (lines 155-163): the new define goes to the head of
`target.defines`. -/
def ppdef (name value : String) : Exec Unit :=
  modify_state fun s =>
    { s with target.defines := { name := name, value := value, condition := none } :: s.target.defines }

/-- `ppdefc` (lines 167-173): as `ppdef`, then the condition is stored in the
new define. -/
def ppdefc (name value : String) (condition_func : condition_func_t) : Exec Unit := do
  ppdef name value
  modify_state fun s =>
    match s.target.defines with
    | define :: rest =>
      { s with target.defines := { define with condition := some condition_func } :: rest }
    | [] => s

/-- `cond_not_strict` (lines 175-178). -/
def cond_not_strict (s : State) : Bool := s.dialect.gnu

/-- `cond_is_little_endian` (lines 180-183). -/
def cond_is_little_endian (s : State) : Bool := !s.target.byte_order_big_endian

/-- Calling the function a `condition` pointer points to. -/
def condition_func_t.call : condition_func_t → State → Bool
  | .cond_not_strict => CParser.cond_not_strict
  | .cond_is_little_endian => CParser.cond_is_little_endian

/-- `set_create_ld_ident(f)`. -/
def set_create_ld_ident (f : create_ld_ident_t) : Exec Unit :=
  modify_state fun s => { s with create_ld_ident := some f }

/-- `set_compilerlib_name_mangle(f)`. -/
def set_compilerlib_name_mangle (f : compilerlib_name_mangle_t) : Exec Unit :=
  modify_state fun s => { s with compilerlib_name_mangle := some f }

/-! ## Operating system support (lines 185-324) -/

/-- Lines 202-276 of `init_os_support`: the operating system part. -/
def init_os_support_os (env : Env) (os cpu : String) : Exec Unit := do
  if env.is_elf_os os then
    modify_state fun s => { s with driver_default_exe_output := "a.out" }
    set_create_ld_ident .create_name_linux_elf
    modify_state fun s => { s with target.user_label_prefix := "" }
    modify_state fun s => { s with target.object_format := OBJECT_FORMAT_ELF }
    set_be_option env "ia32-struct_in_reg=no"
    set_be_option env "amd64-x64abi=no"
    set_compilerlib_name_mangle .compilerlib_name_mangle_default
    ppdef "__unix" "1"
    ppdef "__unix__" "1"
    ppdefc "unix" "1" .cond_not_strict
    ppdef "__linux" "1"
    ppdef "__linux__" "1"
    ppdefc "linux" "1" .cond_not_strict
    if strstr os "gnu" then
      ppdef "__gnu_linux__" "1"
  else if env.is_darwin_os os then
    modify_state fun s => { s with driver_default_exe_output := "a.out" }
    set_create_ld_ident .create_name_macho
    modify_state fun s => { s with target.user_label_prefix := "_" }
    modify_state fun s => { s with target.object_format := OBJECT_FORMAT_MACH_O }
    set_be_option env "ia32-stackalign=4"
    set_be_option env "ia32-struct_in_reg=yes"
    set_be_option env "amd64-x64abi=no"
    set_compilerlib_name_mangle .compilerlib_name_mangle_underscore
    modify_state fun s =>
      if s.target.pic_mode = -1 then { s with target.pic_mode := 2 } else s
    ppdef "__MACH__" "1"
    ppdef "__APPLE__" "1"
    ppdef "__APPLE_CC__" "1"
    ppdef "__weak" ""
    ppdef "__strong" ""
    ppdef "__CONSTANT_CFSTRINGS__" "1"
    ppdef "__ENVIRONMENT_MAC_OS_X_VERSION_MIN_REQUIRED__" "1050"
    ppdef "__DYNAMIC__" "1"
    ppdefc "__LITTLE_ENDIAN__" "1" .cond_is_little_endian
  else if env.is_windows_os os then
    modify_state fun s => { s with dialect.wchar_atomic_kind := ATOMIC_TYPE_USHORT }
    modify_state fun s => { s with driver_default_exe_output := "a.exe" }
    modify_state fun s => { s with target.object_format := OBJECT_FORMAT_PE_COFF }
    set_be_option env "ia32-struct_in_reg=no"
    let is_mingw := strstr os "mingw"
    if is_mingw then
      modify_state fun s => { s with target.enable_main_collect2_hack := true }
      ppdef "__MINGW32__" "1"
    ppdef "__MSVCRT__" "1"
    ppdef "_WINNT" "1"
    ppdef "__WINNT" "1"
    ppdef "__WINNT__" "1"
    ppdefc "WINNT" "1" .cond_not_strict
    ppdef "_WIN32" "1"
    ppdef "__WIN32" "1"
    ppdef "__WIN32__" "1"
    ppdefc "WIN32" "1" .cond_not_strict
    if streq cpu "x86_64" then
      set_be_option env "amd64-x64abi=yes"
      set_create_ld_ident .create_name_win64
      modify_state fun s => { s with target.user_label_prefix := "" }
      set_compilerlib_name_mangle .compilerlib_name_mangle_default
      ppdef "_WIN64" "1"
      ppdef "__WIN64" "1"
      ppdef "__WIN64__" "1"
      ppdefc "WIN64" "1" .cond_not_strict
      if is_mingw then
        ppdef "__MINGW64__" "1"
    else
      set_create_ld_ident .create_name_win32
      modify_state fun s => { s with target.user_label_prefix := "_" }
      set_compilerlib_name_mangle .compilerlib_name_mangle_underscore
  else
    errorf ("unknown operating system \x27" ++ os ++ "\x27 in target-triple")
    c_abort "exit(EXIT_FAILURE)"

/-- Lines 278-320 of `init_os_support`: the CPU part. -/
def init_os_support_cpu (env : Env) (os cpu manufacturer : String) : Exec Unit := do
  if env.is_ia32_cpu cpu then
    ppdefc "i386" "1" .cond_not_strict
    ppdef "__i386" "1"
    ppdef "__i386__" "1"
    if streq cpu "i486" then
      ppdef "__i486" "1"
      ppdef "__i486__" "1"
    else if streq cpu "i586" then
      ppdef "__i586" "1"
      ppdef "__i586__" "1"
      ppdef "__pentium" "1"
      ppdef "__pentium__" "1"
    else if streq cpu "i686" then
      ppdef "__pentiumpro" "1"
      ppdef "__pentiumpro__" "1"
      ppdef "__i686" "1"
      ppdef "__i686__" "1"
    else if streq cpu "i786" then
      ppdef "__pentium4" "1"
      ppdef "__pentium4__" "1"
  else if streq cpu "sparc" then
    ppdefc "sparc" "1" .cond_not_strict
    ppdef "__sparc" "1"
    ppdef "__sparc__" "1"
    ppdef "__sparc_v8__" "1"
    if strstr manufacturer "leon" then
      ppdef "__leon__" "1"
  else if streq cpu "arm" then
    ppdef "__arm__" "1"
    if strstr os "eabi" then
      ppdef "__ARM_EABI__" "1"
  else if streq cpu "x86_64" then
    ppdef "__x86_64" "1"
    ppdef "__x86_64__" "1"
    ppdef "__amd64" "1"
    ppdef "__amd64__" "1"

/-- `init_os_support` (lines 185-324). -/
def init_os_support (env : Env) : Exec Unit := do
  let os := (← get_machine).operating_system
  let cpu := (← get_machine).cpu_type
  modify_state fun s => { s with target.enable_main_collect2_hack := false }
  modify_state fun s => { s with target.biggest_alignment := 16 }
  modify_state fun s => { s with dialect.wchar_atomic_kind := ATOMIC_TYPE_INT }
  init_os_support_os env os cpu
  let manufacturer := (← get_machine).manufacturer
  init_os_support_cpu env os cpu manufacturer
  modify_state fun s =>
    if s.target.pic_mode = -1 then { s with target.pic_mode := 0 } else s

/-! ## ISA selection (lines 326-416) -/

/-- The loop of `get_bitsize_codegen_opt` (lines 329-335), `size` being the
value of the local so far. -/
def get_bitsize_loop : List String → Nat → Nat
  | [], size => size
  | opt :: rest, size =>
    if !starts_with_digit opt then get_bitsize_loop rest size
    else get_bitsize_loop rest (to_unsigned (atoi opt))

/-- `get_bitsize_codegen_opt` (lines 326-337). -/
def get_bitsize_codegen_opt : Exec Nat := do
  let s ← get_state
  return get_bitsize_loop s.codegen_options 0

/-- `setup_isa` (lines 339-347).  The guard `firm_isa != isa` compares
addresses and only spares a copy of the buffer onto itself: in either case
`firm_isa` holds the text of `isa` afterwards. -/
def setup_isa (env : Env) (isa : String) : Exec Unit := do
  let buf := snprintf 64 ("isa=" ++ isa)
  set_be_option env buf
  modify_state fun s => { s with firm_isa := isa }

/-- `setup_x86_64` (lines 349-354). -/
def setup_x86_64 (env : Env) : Exec Unit := do
  modify_state fun s =>
    { s with
      experimental_backend :=
        some "the x86_64 backend is highly experimental and unfinished (consider the -m32 switch)" }
  setup_isa env "amd64"

/-- `setup_arm` (lines 356-361). -/
def setup_arm (env : Env) : Exec Unit := do
  modify_state fun s =>
    { s with
      experimental_backend :=
        some "the arm backend is highly experimental and unfinished" }
  setup_isa env "arm"

/-- `warn_experimental_target` (lines 363-367). -/
def warn_experimental_target : Exec Unit := do
  let s ← get_state
  match s.experimental_backend with
  | some msg => warningf msg
  | none => pure ()

/-- `setup_ia32` (lines 369-377). -/
def setup_ia32 (env : Env) (firm_arch : String) : Exec Unit := do
  set_be_option env "isa=ia32"
  let buf := snprintf 64 ("ia32-arch=" ++ firm_arch)
  set_be_option env buf
  modify_state fun s => { s with firm_isa := "ia32" }

/-- Storing a fresh copy of `cpu` as `target.machine->cpu_type` (the
`free` / `xstrdup` pairs of lines 390-391 and 398-399). -/
def set_cpu_type (cpu : String) : Exec Unit := do
  let m ← get_machine
  modify_state fun s => { s with target.machine := some { m with cpu_type := cpu } }

/-- `setup_firm_isa` (lines 379-416). -/
def setup_firm_isa (env : Env) : Exec Bool := do
  let s ← get_state
  if s.firm_isa ≠ "" then
    setup_isa env s.firm_isa
    return true
  let cpu := (← get_machine).cpu_type
  if streq cpu "i386" || streq cpu "i486" || streq cpu "i586" || streq cpu "i686" then
    if (← get_bitsize_codegen_opt) = 64 then
      set_cpu_type "x86_64"
      setup_x86_64 env
    else
      setup_ia32 env cpu
  else if streq cpu "x86_64" then
    if (← get_bitsize_codegen_opt) = 32 then
      set_cpu_type "i686"
      setup_ia32 env "i686"
    else
      setup_x86_64 env
  else if streq cpu "sparc" then
    setup_isa env "sparc"
    let manufacturer := (← get_machine).manufacturer
    if streq manufacturer "leon" || streq manufacturer "invasic" then
      set_be_option env "sparc-cpu=leon"
  else if streq cpu "arm" then
    setup_arm env
  else
    errorf ("unknown cpu \x27" ++ cpu ++ "\x27 in target-triple")
    return false
  return true

/-! ## Option forwarding (lines 418-484) -/

/-- `driver_add_flag(&cppflags_obst, flag)`. -/
def driver_add_cppflag (flag : String) : Exec Unit :=
  modify_state fun s => { s with cppflags := s.cppflags ++ [flag] }

/-- `driver_add_flag(&asflags_obst, flag)`. -/
def driver_add_asflag (flag : String) : Exec Unit :=
  modify_state fun s => { s with asflags := s.asflags ++ [flag] }

/-- `driver_add_flag(&ldflags_obst, flag)`. -/
def driver_add_ldflag (flag : String) : Exec Unit :=
  modify_state fun s => { s with ldflags := s.ldflags ++ [flag] }

/-- The table `pass_to_cpp_and_ld` (lines 469-471). -/
def pass_to_cpp_and_ld : List String := ["soft-float", "32", "64", "16"]

/-- The inner loop of lines 472-480 over the entries of the table still to
look at: the first entry equal to the option forwards it and ends the loop. -/
def pass_to_tools_loop : List String → String → Exec Unit
  | [], _ => pure ()
  | entry :: entries, option =>
    if streq entry option then do
      let buf := snprintf 256 ("-m" ++ option)
      driver_add_cppflag buf
      driver_add_asflag buf
      driver_add_ldflag buf
    else pass_to_tools_loop entries option

/-- The loop of lines 453-481 over the codegen options still to look at, `res`
being the value of the local so far. -/
def pass_codegen_options_loop (env : Env) : List String → Bool → Exec Bool
  | [], res => pure res
  | opt :: rest, res => do
    if !starts_with_digit opt then
      let buf := snprintf 256 ((← get_state).firm_isa ++ "-" ++ opt)
      if !(← be_parse_arg env buf) then
        errorf ("Unknown codegen option \x27-m" ++ opt ++ "\x27")
        pass_codegen_options_loop env rest false
      else
        pass_to_tools_loop pass_to_cpp_and_ld opt
        pass_codegen_options_loop env rest res
    else
      pass_to_tools_loop pass_to_cpp_and_ld opt
      pass_codegen_options_loop env rest res

/-- Lines 420-424 of `pass_options_to_firm_be`: the object format. -/
def pass_object_format (env : Env) : Exec Unit := do
  match (← get_state).target.object_format with
  | OBJECT_FORMAT_ELF => set_be_option env "objectformat=elf"
  | OBJECT_FORMAT_MACH_O => set_be_option env "objectformat=mach-o"
  | OBJECT_FORMAT_PE_COFF => set_be_option env "objectformat=coff"

/-- Lines 426-432 of `pass_options_to_firm_be`: profiling. -/
def pass_profile_options (env : Env) : Exec Unit := do
  if (← get_state).profile_generate then
    driver_add_ldflag "-lfirmprof"
    set_be_option env "profilegenerate"
  if (← get_state).profile_use then
    set_be_option env "profileuse"

/-- Lines 433-448 of `pass_options_to_firm_be`: position independent code. -/
def pass_pic_options (env : Env) : Exec Unit := do
  if (← get_state).target.pic_mode > 0 then
    set_be_option env "pic=true"
    if streq (← get_state).firm_isa "ia32" then
      let operating_system := (← get_machine).operating_system
      let pic_no_plt := (← get_state).target.pic_no_plt
      let option :=
        if env.is_darwin_os operating_system then "ia32-pic=mach-o"
        else if pic_no_plt then "ia32-pic=elf-noplt"
        else "ia32-pic=elf"
      set_be_option env option
  else
    set_be_option env "pic=false"
    set_be_option env "ia32-pic=none"

/-- `pass_options_to_firm_be` (lines 418-484). -/
def pass_options_to_firm_be (env : Env) : Exec Bool := do
  pass_object_format env
  pass_profile_options env
  pass_pic_options env
  pass_codegen_options_loop env (← get_state).codegen_options true

/-! ## The orchestrator (lines 486-512) -/

/-- Lines 496-506: the multilib directory hint, present only where the
`MULTILIB_M32_TRIPLE` / `MULTILIB_M64_TRIPLE` macros are defined. -/
def multilib_hint (env : Env) (triple : Option String) (machine_size : Nat) : Option String :=
  match triple with
  | some _ => none
  | none =>
    let hint : Option String := none
    let hint :=
      match env.MULTILIB_M32_TRIPLE with
      | some t => if machine_size = 32 then some t else hint
      | none => hint
    match env.MULTILIB_M64_TRIPLE with
    | some t => if machine_size = 64 then some t else hint
    | none => hint

/-- `target_setup` (lines 486-512). -/
def target_setup (env : Env) : Exec Bool := do
  if (← get_state).target.machine = none then
    modify_state fun s => { s with target.machine := some env.get_host_machine_triple }
  let res ← setup_firm_isa env
  init_os_support env
  let res_options ← pass_options_to_firm_be env
  let res := res && res_options
  let be_params := env.be_get_backend_param (← get_state).be_log
  modify_state fun s =>
    { s with
      multilib_directory_target_triple :=
        multilib_hint env s.target.triple be_params.machine_size }
  modify_state fun s => { s with target.byte_order_big_endian := be_params.byte_order_big_endian }
  modify_state fun s => { s with target.modulo_shift := be_params.modulo_shift }
  modify_state fun s => { s with target.float_int_overflow := be_params.float_int_overflow }
  return res

/-! ## Specification-side definitions -/

/-- The numeric value of a codegen option that starts with a digit: the number
its leading run of decimal digits writes. -/
def numeral_value (opt : String) : Nat := atoi_digits opt.data 0

/-- Every codegen option that starts with a digit writes a number that fits an
`int` (for any other, the result of `atoi` is undefined in C). -/
def numerals_fit_int (codegen_options : List String) : Prop :=
  ∀ opt ∈ codegen_options, starts_with_digit opt = true → numeral_value opt ≤ 2147483647

instance (codegen_options : List String) : Decidable (numerals_fit_int codegen_options) := by
  unfold numerals_fit_int
  infer_instance

/-- The bit-width override in the words of the specification: the numeric
value of the last codegen option whose first character is a digit, 0 if there
is none. -/
def numeric_override (codegen_options : List String) : Nat :=
  match (codegen_options.filter starts_with_digit).getLast? with
  | some opt => numeral_value opt
  | none => 0

/-- The bit-width override as `get_bitsize_codegen_opt` computes it: what
`atoi` makes of the last codegen option whose first character is a digit,
converted to `unsigned`, and 0 if there is none.  It is the numeric value of
that option whenever the value fits an `int`. -/
def bitsize_override (codegen_options : List String) : Nat :=
  match (codegen_options.filter starts_with_digit).getLast? with
  | some opt => to_unsigned (atoi opt)
  | none => 0

/-- The operating system of the triple is one `init_os_support` knows. -/
def Env.supported_os (env : Env) (os : String) : Prop :=
  env.is_elf_os os = true ∨ env.is_darwin_os os = true ∨ env.is_windows_os os = true

instance (env : Env) (os : String) : Decidable (env.supported_os os) := by
  unfold Env.supported_os
  infer_instance

/-- The options `init_os_support` and `pass_options_to_firm_be` hand to
`set_be_option` as literals. -/
def fixed_be_options : List String :=
  ["ia32-struct_in_reg=no", "amd64-x64abi=no", "ia32-stackalign=4", "ia32-struct_in_reg=yes",
   "amd64-x64abi=yes", "objectformat=elf", "objectformat=mach-o", "objectformat=coff",
   "profilegenerate", "profileuse", "pic=true", "pic=false", "ia32-pic=none",
   "ia32-pic=mach-o", "ia32-pic=elf-noplt", "ia32-pic=elf"]

/-- The backend takes each of the literal options, whatever it was handed
before (with a backend that does not, `set_be_option` ends the process). -/
def Env.takes_fixed_options (env : Env) : Prop :=
  ∀ (log : List String) (arg : String), arg ∈ fixed_be_options → env.be_accepts log arg = true

/-- An unconditional define, as `ppdef` creates it. -/
def plain_define (name value : String) : target_define_t :=
  { name := name, value := value, condition := none }

/-- A conditional define, as `ppdefc` creates it. -/
def conditional_define (name value : String) (condition_func : condition_func_t) :
    target_define_t :=
  { name := name, value := value, condition := some condition_func }

/-- The defines the operating system part of `init_os_support` registers, in
the order of registration. -/
def registered_os_defines (env : Env) (os cpu : String) : List target_define_t :=
  if env.is_elf_os os then
    [plain_define "__unix" "1", plain_define "__unix__" "1",
     conditional_define "unix" "1" .cond_not_strict,
     plain_define "__linux" "1", plain_define "__linux__" "1",
     conditional_define "linux" "1" .cond_not_strict]
      ++ (if strstr os "gnu" then [plain_define "__gnu_linux__" "1"] else [])
  else if env.is_darwin_os os then
    [plain_define "__MACH__" "1", plain_define "__APPLE__" "1",
     plain_define "__APPLE_CC__" "1", plain_define "__weak" "", plain_define "__strong" "",
     plain_define "__CONSTANT_CFSTRINGS__" "1",
     plain_define "__ENVIRONMENT_MAC_OS_X_VERSION_MIN_REQUIRED__" "1050",
     plain_define "__DYNAMIC__" "1",
     conditional_define "__LITTLE_ENDIAN__" "1" .cond_is_little_endian]
  else if env.is_windows_os os then
    (if strstr os "mingw" then [plain_define "__MINGW32__" "1"] else [])
      ++ [plain_define "__MSVCRT__" "1", plain_define "_WINNT" "1",
          plain_define "__WINNT" "1", plain_define "__WINNT__" "1",
          conditional_define "WINNT" "1" .cond_not_strict,
          plain_define "_WIN32" "1", plain_define "__WIN32" "1", plain_define "__WIN32__" "1",
          conditional_define "WIN32" "1" .cond_not_strict]
      ++ (if streq cpu "x86_64" then
            [plain_define "_WIN64" "1", plain_define "__WIN64" "1",
             plain_define "__WIN64__" "1", conditional_define "WIN64" "1" .cond_not_strict]
              ++ (if strstr os "mingw" then [plain_define "__MINGW64__" "1"] else [])
          else [])
  else []

/-- The defines the CPU part of `init_os_support` registers, in the order of
registration. -/
def registered_cpu_defines (env : Env) (os cpu manufacturer : String) : List target_define_t :=
  if env.is_ia32_cpu cpu then
    [conditional_define "i386" "1" .cond_not_strict, plain_define "__i386" "1",
     plain_define "__i386__" "1"]
      ++ (if streq cpu "i486" then [plain_define "__i486" "1", plain_define "__i486__" "1"]
          else if streq cpu "i586" then
            [plain_define "__i586" "1", plain_define "__i586__" "1",
             plain_define "__pentium" "1", plain_define "__pentium__" "1"]
          else if streq cpu "i686" then
            [plain_define "__pentiumpro" "1", plain_define "__pentiumpro__" "1",
             plain_define "__i686" "1", plain_define "__i686__" "1"]
          else if streq cpu "i786" then
            [plain_define "__pentium4" "1", plain_define "__pentium4__" "1"]
          else [])
  else if streq cpu "sparc" then
    [conditional_define "sparc" "1" .cond_not_strict, plain_define "__sparc" "1",
     plain_define "__sparc__" "1", plain_define "__sparc_v8__" "1"]
      ++ (if strstr manufacturer "leon" then [plain_define "__leon__" "1"] else [])
  else if streq cpu "arm" then
    [plain_define "__arm__" "1"]
      ++ (if strstr os "eabi" then [plain_define "__ARM_EABI__" "1"] else [])
  else if streq cpu "x86_64" then
    [plain_define "__x86_64" "1", plain_define "__x86_64__" "1", plain_define "__amd64" "1",
     plain_define "__amd64__" "1"]
  else []

/-- All defines `init_os_support` registers for a triple, in the order of
registration. -/
def registered_defines (env : Env) (m : machine_triple_t) : List target_define_t :=
  registered_os_defines env m.operating_system m.cpu_type
    ++ registered_cpu_defines env m.operating_system m.cpu_type m.manufacturer

/-- The state `s1` differs from `s` at most in the record of what was handed to
the backend, the diagnostics and the tool flags. -/
def State.same_but_logs (s s1 : State) : Prop :=
  s1 = { s with
    be_log := s1.be_log
    errors := s1.errors
    warnings := s1.warnings
    cppflags := s1.cppflags
    asflags := s1.asflags
    ldflags := s1.ldflags }

/-- The state `s1` differs from `s` at most in what `init_os_support` sets: the
defines, the PIC mode, the object format, the label prefix, the alignment
bound, the collect2 hack, the wide character kind, the default output name,
the two installed manglers and the record of backend options. -/
def State.same_but_os_support (s s1 : State) : Prop :=
  s1 = { s with
    target :=
      { s.target with
        pic_mode := s1.target.pic_mode
        defines := s1.target.defines
        enable_main_collect2_hack := s1.target.enable_main_collect2_hack
        biggest_alignment := s1.target.biggest_alignment
        user_label_prefix := s1.target.user_label_prefix
        object_format := s1.target.object_format }
    dialect := { s.dialect with wchar_atomic_kind := s1.dialect.wchar_atomic_kind }
    driver_default_exe_output := s1.driver_default_exe_output
    create_ld_ident := s1.create_ld_ident
    compilerlib_name_mangle := s1.compilerlib_name_mangle
    be_log := s1.be_log }

/-- The sizes `target_adjust_types_and_dialect` hands to `init_types` for a
machine size and an operating system: int size, long size, pointer size. -/
def init_types_arguments (env : Env) (operating_system : String) (machine_size : Nat) :
    Nat × Nat × Nat :=
  (min (machine_size / BITS_PER_BYTE) 4,
   adjusted_long_size env operating_system (machine_size / BITS_PER_BYTE),
   machine_size / BITS_PER_BYTE)

/-- The property table right after `init_types` (line 63), for the globals `s`
at the call and the triple `m`. -/
def props_after_init (env : Env) (s : State) (m : machine_triple_t) : props_table :=
  let args := init_types_arguments env m.operating_system
    (env.be_get_backend_param s.be_log).machine_size
  env.init_types args.1 args.2.1 args.2.2 s.props

/-- The property table after the backend types and the operating system and
ISA exceptions (line 111). -/
def props_after_os_abi (env : Env) (s : State) (m : machine_triple_t) : props_table :=
  adjust_os_abi_props env m.operating_system s.firm_isa
    (adjust_backend_types (env.be_get_backend_param s.be_log) (props_after_init env s m))

/-- The property table after the char signedness update (line 119). -/
def props_after_char (env : Env) (s : State) (m : machine_triple_t) : props_table :=
  adjust_char_signedness env s.dialect.char_is_signed (props_after_os_abi env s m)

/-- The property table after the copy onto the wchar_t slot (line 121), that is
right before the long double fallback. -/
def props_after_wchar (env : Env) (s : State) (m : machine_triple_t) : props_table :=
  adjust_wchar s.dialect.wchar_atomic_kind (props_after_char env s m)

/-- The property table at the end of `target_adjust_types_and_dialect`. -/
def props_at_end (env : Env) (s : State) (m : machine_triple_t) : props_table :=
  adjust_long_double_fallback (env.be_get_backend_param s.be_log) (props_after_wchar env s m)

/-- The backend option `pass_options_to_firm_be` sends for the object
format. -/
def object_format_option : object_format_t → String
  | OBJECT_FORMAT_ELF => "objectformat=elf"
  | OBJECT_FORMAT_MACH_O => "objectformat=mach-o"
  | OBJECT_FORMAT_PE_COFF => "objectformat=coff"

/-- The backend options `pass_options_to_firm_be` sends for profiling. -/
def profile_be_options (s : State) : List String :=
  (if s.profile_generate then ["profilegenerate"] else [])
    ++ (if s.profile_use then ["profileuse"] else [])

/-- The backend options for position independent code, in the words of the
specification: with PIC enabled `pic=true` and, for the ISA ia32 only, one
sub-mode (Mach-O on Darwin, otherwise ELF without or with PLT); with PIC
disabled `pic=false` and `ia32-pic=none`. -/
def pic_be_options (env : Env) (s : State) (operating_system : String) : List String :=
  if s.target.pic_mode > 0 then
    if s.firm_isa = "ia32" then
      ["pic=true",
       if env.is_darwin_os operating_system then "ia32-pic=mach-o"
       else if s.target.pic_no_plt then "ia32-pic=elf-noplt"
       else "ia32-pic=elf"]
    else ["pic=true"]
  else ["pic=false", "ia32-pic=none"]

/-- Everything `pass_options_to_firm_be` hands to the backend before it turns
to the codegen options. -/
def fixed_options_sent (env : Env) (s : State) (operating_system : String) : List String :=
  [object_format_option s.target.object_format] ++ profile_be_options s
    ++ pic_be_options env s operating_system

/-- The codegen options that go to the backend, in list order, as they are
written to the 256-byte buffer: those that do not start with a digit, each as
`<firm_isa>-<option>`. -/
def codegen_options_sent (firm_isa : String) (codegen_options : List String) : List String :=
  (codegen_options.filter fun opt => !starts_with_digit opt).map
    fun opt => snprintf 256 (firm_isa ++ "-" ++ opt)

/-- For each codegen option, in list order, whether it passes the backend: an
option that starts with a digit is not submitted and passes; any other passes
when the backend, having been handed `log` and the earlier options, takes
it. -/
def codegen_option_verdicts (env : Env) (firm_isa : String) :
    List String → List String → List Bool
  | _, [] => []
  | log, opt :: rest =>
    if starts_with_digit opt then
      true :: codegen_option_verdicts env firm_isa log rest
    else
      env.be_accepts log (snprintf 256 (firm_isa ++ "-" ++ opt))
        :: codegen_option_verdicts env firm_isa
            (log ++ [snprintf 256 (firm_isa ++ "-" ++ opt)]) rest

/-- The codegen options the backend rejected, in list order (an option
occurs as often as it was rejected). -/
def rejected_codegen_options (codegen_options : List String) (verdicts : List Bool) :
    List String :=
  ((codegen_options.zip verdicts).filter fun ov => !ov.2).map fun ov => ov.1

/-- The tool flags forwarded: `-m<opt>` for the options of the allow list
that passed the backend, in list order. -/
def forwarded_tool_flags (codegen_options : List String) (verdicts : List Bool) :
    List String :=
  ((codegen_options.zip verdicts).filter
      fun ov => ov.2 && pass_to_cpp_and_ld.contains ov.1).map
    fun ov => "-m" ++ ov.1

/-- The error message for a rejected codegen option. -/
def unknown_codegen_option_message (opt : String) : String :=
  "Unknown codegen option \x27-m" ++ opt ++ "\x27"

/-- The globals after `pass_options_to_firm_be`, for the triple's operating
system: the record of backend options, the errors and the tool flags have
grown, nothing else has changed. -/
def after_pass_options (env : Env) (s : State) (operating_system : String) : State :=
  let log := s.be_log ++ fixed_options_sent env s operating_system
  let verdicts := codegen_option_verdicts env s.firm_isa log s.codegen_options
  { s with
    be_log := log ++ codegen_options_sent s.firm_isa s.codegen_options
    errors := s.errors
      ++ (rejected_codegen_options s.codegen_options verdicts).map unknown_codegen_option_message
    cppflags := s.cppflags ++ forwarded_tool_flags s.codegen_options verdicts
    asflags := s.asflags ++ forwarded_tool_flags s.codegen_options verdicts
    ldflags := s.ldflags ++ (if s.profile_generate then ["-lfirmprof"] else [])
      ++ forwarded_tool_flags s.codegen_options verdicts }

/-- The globals when `target_setup` turns to the ISA selection: a missing
triple has been replaced by the triple of the host (lines 488-489). -/
def with_host_machine (env : Env) (s : State) : State :=
  if s.target.machine = none then
    { s with target.machine := some env.get_host_machine_triple }
  else s

/-- What `target_setup` stores after its three phases (lines 495-510): the
multilib hint and the byte order, modulo shift and overflow style the backend
reports. -/
def store_backend_params (env : Env) (s : State) : State :=
  { s with
    multilib_directory_target_triple :=
      multilib_hint env s.target.triple (env.be_get_backend_param s.be_log).machine_size
    target :=
      { s.target with
        byte_order_big_endian := (env.be_get_backend_param s.be_log).byte_order_big_endian
        modulo_shift := (env.be_get_backend_param s.be_log).modulo_shift
        float_int_overflow := (env.be_get_backend_param s.be_log).float_int_overflow } }

/-- The names of the macros whose presence depends on an option (the GNU
dialect, the byte order). -/
def option_dependent_macros : List String :=
  ["unix", "linux", "WINNT", "WIN32", "WIN64", "i386", "sparc", "__LITTLE_ENDIAN__"]

/-- The size of the kinds that serve as pointer-sized integers, given the int
and long sizes handed to `init_types` and a long long of 8 bytes. -/
def alias_size (int_size long_size : Nat) : atomic_type_kind_t → Option Nat
  | ATOMIC_TYPE_INT => some int_size
  | ATOMIC_TYPE_UINT => some int_size
  | ATOMIC_TYPE_LONG => some long_size
  | ATOMIC_TYPE_ULONG => some long_size
  | ATOMIC_TYPE_LONGLONG => some 8
  | ATOMIC_TYPE_ULONGLONG => some 8
  | _ => none

/-- The unsigned counterpart of a signed integer kind. -/
def unsigned_counterpart : atomic_type_kind_t → Option atomic_type_kind_t
  | ATOMIC_TYPE_SCHAR => some ATOMIC_TYPE_UCHAR
  | ATOMIC_TYPE_SHORT => some ATOMIC_TYPE_USHORT
  | ATOMIC_TYPE_INT => some ATOMIC_TYPE_UINT
  | ATOMIC_TYPE_LONG => some ATOMIC_TYPE_ULONG
  | ATOMIC_TYPE_LONGLONG => some ATOMIC_TYPE_ULONGLONG
  | _ => none

/-! ## Sample collaborators and inputs -/

/-- `strstart(s, start)`: `s` begins with `start`. -/
def strstart (s start : String) : Bool := start.data.isPrefixOf s.data

/-- Modelled from the spec: the triple classifiers, the type table initialiser
and the backend, none of which is part of the sources at hand.  The
classifiers work "by substring/prefix classification" and tell apart
"ELF-family Unix/Linux variants", "Darwin/macOS" and the "Windows family
(including a MinGW sub-variant)"; `init_types` "sets int size" and "long size"
from its arguments; the backend takes every option but those listed in
`rejected` and reports the parameters `be_params`. -/
def sample_env (be_params : backend_params) (rejected : List String) : Env where
  be_accepts := fun _ arg => !rejected.contains arg
  be_get_backend_param := fun _ => be_params
  is_elf_os := fun os => strstart os "linux" || streq os "elf"
  is_darwin_os := fun os => strstart os "darwin"
  is_windows_os := fun os => strstart os "mingw" || streq os "win32"
  is_ia32_cpu := fun cpu =>
    streq cpu "i386" || streq cpu "i486" || streq cpu "i586" || streq cpu "i686"
      || streq cpu "i786"
  get_host_machine_triple :=
    { cpu_type := "i686", manufacturer := "pc", operating_system := "linux-gnu" }
  init_types := fun int_size long_size _ props =>
    let props := props.set ATOMIC_TYPE_INT
      { props ATOMIC_TYPE_INT with size := int_size, alignment := int_size, struct_alignment := int_size }
    let props := props.set ATOMIC_TYPE_UINT
      { props ATOMIC_TYPE_UINT with size := int_size, alignment := int_size, struct_alignment := int_size }
    let props := props.set ATOMIC_TYPE_LONG
      { props ATOMIC_TYPE_LONG with size := long_size, alignment := long_size, struct_alignment := long_size }
    props.set ATOMIC_TYPE_ULONG
      { props ATOMIC_TYPE_ULONG with size := long_size, alignment := long_size, struct_alignment := long_size }
  ATOMIC_TYPE_FLAG_SIGNED := 1
  MULTILIB_M32_TRIPLE := none
  MULTILIB_M64_TRIPLE := none

/-- Backend parameters of a 32-bit machine that reports no long double type. -/
def sample_params32_no_long_double : backend_params where
  machine_size := 32
  type_long_double := none
  type_long_long := some { size_bytes := 8, alignment_bytes := 8 }
  type_unsigned_long_long := some { size_bytes := 8, alignment_bytes := 8 }
  byte_order_big_endian := false
  modulo_shift := 32
  float_int_overflow := 0

/-- Backend parameters of a 64-bit machine. -/
def sample_params64 : backend_params where
  machine_size := 64
  type_long_double := some { size_bytes := 16, alignment_bytes := 16 }
  type_long_long := some { size_bytes := 8, alignment_bytes := 8 }
  type_unsigned_long_long := some { size_bytes := 8, alignment_bytes := 8 }
  byte_order_big_endian := false
  modulo_shift := 64
  float_int_overflow := 0

/-- Backend parameters of a 32-bit machine with an x87 long double. -/
def sample_params32 : backend_params where
  machine_size := 32
  type_long_double := some { size_bytes := 12, alignment_bytes := 4 }
  type_long_long := some { size_bytes := 8, alignment_bytes := 8 }
  type_unsigned_long_long := some { size_bytes := 8, alignment_bytes := 8 }
  byte_order_big_endian := false
  modulo_shift := 32
  float_int_overflow := 0

/-- A property table to start from: every kind is as wide as its name says on a
32-bit machine; the flags are 1 for signed, 2 for integer, 4 for floating. -/
def sample_props : props_table
  | ATOMIC_TYPE_BOOL => { size := 1, alignment := 1, struct_alignment := 1, flags := 2, rank := 1 }
  | ATOMIC_TYPE_CHAR => { size := 1, alignment := 1, struct_alignment := 1, flags := 3, rank := 2 }
  | ATOMIC_TYPE_SCHAR => { size := 1, alignment := 1, struct_alignment := 1, flags := 3, rank := 2 }
  | ATOMIC_TYPE_UCHAR => { size := 1, alignment := 1, struct_alignment := 1, flags := 2, rank := 2 }
  | ATOMIC_TYPE_SHORT => { size := 2, alignment := 2, struct_alignment := 2, flags := 3, rank := 3 }
  | ATOMIC_TYPE_USHORT => { size := 2, alignment := 2, struct_alignment := 2, flags := 2, rank := 3 }
  | ATOMIC_TYPE_INT => { size := 4, alignment := 4, struct_alignment := 4, flags := 3, rank := 4 }
  | ATOMIC_TYPE_UINT => { size := 4, alignment := 4, struct_alignment := 4, flags := 2, rank := 4 }
  | ATOMIC_TYPE_LONG => { size := 4, alignment := 4, struct_alignment := 4, flags := 3, rank := 5 }
  | ATOMIC_TYPE_ULONG => { size := 4, alignment := 4, struct_alignment := 4, flags := 2, rank := 5 }
  | ATOMIC_TYPE_LONGLONG => { size := 8, alignment := 8, struct_alignment := 8, flags := 3, rank := 6 }
  | ATOMIC_TYPE_ULONGLONG => { size := 8, alignment := 8, struct_alignment := 8, flags := 2, rank := 6 }
  | ATOMIC_TYPE_FLOAT => { size := 4, alignment := 4, struct_alignment := 4, flags := 5, rank := 0 }
  | ATOMIC_TYPE_DOUBLE => { size := 8, alignment := 8, struct_alignment := 8, flags := 5, rank := 0 }
  | ATOMIC_TYPE_LONG_DOUBLE => { size := 12, alignment := 4, struct_alignment := 4, flags := 5, rank := 7 }
  | ATOMIC_TYPE_WCHAR_T => { size := 4, alignment := 4, struct_alignment := 4, flags := 3, rank := 4 }

/-- The globals at program start (`target = { .pic_mode = -1 }`, everything
else zero), with the triple `machine` already stored and the codegen options
`codegen_options` already collected. -/
def sample_state (machine : machine_triple_t) (codegen_options : List String) : State where
  target :=
    { machine := some machine
      triple := none
      pic_mode := -1
      pic_no_plt := false
      defines := []
      enable_main_collect2_hack := false
      biggest_alignment := 0
      user_label_prefix := ""
      object_format := OBJECT_FORMAT_ELF
      byte_order_big_endian := false
      modulo_shift := 0
      float_int_overflow := 0 }
  dialect :=
    { gnu := false
      cpp := false
      char_is_signed := false
      wchar_atomic_kind := ATOMIC_TYPE_BOOL
      pointer_sized_int := ATOMIC_TYPE_BOOL
      pointer_sized_uint := ATOMIC_TYPE_BOOL }
  firm_isa := ""
  experimental_backend := none
  codegen_options := codegen_options
  props := sample_props
  multilib_directory_target_triple := none
  driver_default_exe_output := ""
  create_ld_ident := none
  compilerlib_name_mangle := none
  profile_generate := false
  profile_use := false
  had_cpp_warning := false
  be_log := []
  errors := []
  warnings := []
  cppflags := []
  asflags := []
  ldflags := []
  init_types_calls := []

/-! ## Basic facts about execution -/

@[simp] theorem Exec.bind_apply {α β : Type} (m : Exec α) (f : α → Exec β) (s : State) :
    (m >>= f) s = (match m s with
      | .ret a s1 => f a s1
      | .abort msg s1 => .abort msg s1) := rfl

@[simp] theorem Exec.pure_apply {α : Type} (a : α) (s : State) :
    (pure a : Exec α) s = .ret a s := rfl

@[simp] theorem get_state_apply (s : State) : get_state s = .ret s s := rfl

@[simp] theorem modify_state_apply (f : State → State) (s : State) :
    modify_state f s = .ret () (f s) := rfl

@[simp] theorem c_abort_apply {α : Type} (msg : String) (s : State) :
    (c_abort msg : Exec α) s = .abort msg s := rfl

theorem get_machine_some {s : State} {m : machine_triple_t} (hm : s.target.machine = some m) :
    get_machine s = .ret m s := by
  simp [get_machine, hm]

/-- A text shorter than the buffer is not cut. -/
theorem snprintf_of_lt (size : Nat) (text : String) (h : text.length < size) :
    snprintf size text = text := by
  unfold snprintf
  have hlen : text.data.length ≤ size - 1 := by
    have : text.data.length = text.length := rfl
    omega
  rw [List.take_of_length_le hlen]

/-- An option the backend takes is logged and the call returns. -/
theorem set_be_option_accepted (env : Env) (arg : String) (s : State)
    (h : env.be_accepts s.be_log arg = true) :
    set_be_option env arg s = .ret () { s with be_log := s.be_log ++ [arg] } := by
  simp [set_be_option, be_parse_arg, h]

/-- An option the backend rejects ends the process. -/
theorem set_be_option_rejected (env : Env) (arg : String) (s : State)
    (h : env.be_accepts s.be_log arg = false) :
    set_be_option env arg s =
      .abort "setting firm backend option failed" { s with be_log := s.be_log ++ [arg] } := by
  simp [set_be_option, be_parse_arg, h]

/-- The loop of `get_bitsize_codegen_opt` keeps the value of the last option
that starts with a digit, and its start value when there is none. -/
theorem get_bitsize_loop_eq (opts : List String) (size : Nat) :
    get_bitsize_loop opts size =
      match (opts.filter starts_with_digit).getLast? with
      | some opt => to_unsigned (atoi opt)
      | none => size := by
  induction opts generalizing size with
  | nil => simp [get_bitsize_loop]
  | cons opt rest ih =>
    by_cases h : starts_with_digit opt = true
    · simp only [get_bitsize_loop, h, Bool.not_true, Bool.false_eq_true, if_false,
        List.filter_cons_of_pos, ih]
      cases hrest : List.filter starts_with_digit rest with
      | nil => simp
      | cons a l =>
        cases hl : (a :: l).getLast? with
        | none => simp at hl
        | some x => rw [List.getLast?_cons_cons, hl]
    · simp [get_bitsize_loop, h, ih]

/-- The code computes the override the specification describes. -/
theorem get_bitsize_codegen_opt_eq (s : State) :
    get_bitsize_codegen_opt s = .ret (bitsize_override s.codegen_options) s := by
  simp [get_bitsize_codegen_opt, bitsize_override, get_bitsize_loop_eq]

/-- A decimal digit is not white space. -/
theorem c_isspace_of_digit (c : Char) (h0 : '0' ≤ c) : c_isspace c = false := by
  have h1 : c ≠ ' ' := by rintro rfl; exact absurd h0 (by decide)
  have h2 : c ≠ '\t' := by rintro rfl; exact absurd h0 (by decide)
  have h3 : c ≠ '\n' := by rintro rfl; exact absurd h0 (by decide)
  have h4 : c ≠ '\x0b' := by rintro rfl; exact absurd h0 (by decide)
  have h5 : c ≠ '\x0c' := by rintro rfl; exact absurd h0 (by decide)
  have h6 : c ≠ '\r' := by rintro rfl; exact absurd h0 (by decide)
  simp [c_isspace, h1, h2, h3, h4, h5, h6]

/-- For an option that starts with a digit, `strtol` reads the numeric value
of the option. -/
theorem strtol_value_of_digit (opt : String) (hd : starts_with_digit opt = true) :
    strtol_value opt = (numeral_value opt : Int) := by
  unfold starts_with_digit at hd
  unfold strtol_value numeral_value
  cases hdata : opt.data with
  | nil => simp [hdata] at hd
  | cons c cs =>
    simp only [hdata, Bool.and_eq_true, decide_eq_true_eq] at hd
    have hsp := c_isspace_of_digit c hd.1
    have hdrop : List.dropWhile c_isspace (c :: cs) = c :: cs := by
      simp [List.dropWhile, hsp]
    rw [hdrop]
    split
    · rename_i cs1 heq
      injection heq with hc _
      subst hc
      exact absurd hd.1 (by decide)
    · rename_i cs1 heq
      injection heq with hc _
      subst hc
      exact absurd hd.1 (by decide)
    · rfl

/-- For an option that starts with a digit and writes a number that fits an
`int`, `atoi` converted to `unsigned` is the numeric value of the option. -/
theorem atoi_of_numeral (opt : String) (hd : starts_with_digit opt = true)
    (hfit : numeral_value opt ≤ 2147483647) :
    to_unsigned (atoi opt) = numeral_value opt := by
  unfold to_unsigned atoi strtol long_to_int LONG_MIN LONG_MAX
  rw [strtol_value_of_digit opt hd]
  have h0 : (0 : Int) ≤ (numeral_value opt : Int) := Int.ofNat_nonneg _
  have h1 : (numeral_value opt : Int) ≤ 2147483647 := by exact_mod_cast hfit
  have hmin : min (9223372036854775807 : Int) (numeral_value opt : Int) = numeral_value opt := by
    apply min_eq_right
    omega
  have hmax : max (-9223372036854775808 : Int) (numeral_value opt : Int) = numeral_value opt := by
    apply max_eq_right
    omega
  rw [hmin, hmax]
  have hpow : (2 ^ 32 : Int) = 4294967296 := by norm_num
  rw [hpow]
  omega

/-- Outside the range of `int` the override the code computes is not the
numeric value of the option: `atoi` saturates at `18446744073709551680` and
keeps the low 32 bits at `4294967360`. -/
theorem bitsize_override_out_of_range :
    bitsize_override ["18446744073709551680"] = 4294967295 ∧
    bitsize_override ["4294967360"] = 64 ∧
    bitsize_override ["64"] = 64 ∧
    ¬ numerals_fit_int ["18446744073709551680"] ∧
    ¬ numerals_fit_int ["4294967360"] := by
  decide!

/-- When the numbers fit an `int`, the override the code computes is the
numeric value the specification speaks of. -/
theorem bitsize_override_eq_numeric (opts : List String) (hfit : numerals_fit_int opts) :
    bitsize_override opts = numeric_override opts := by
  unfold bitsize_override numeric_override
  cases hlast : (opts.filter starts_with_digit).getLast? with
  | none => rfl
  | some opt =>
    have hmem : opt ∈ opts.filter starts_with_digit := List.mem_of_getLast?_eq_some hlast
    have hmem' := List.mem_filter.mp hmem
    exact atoi_of_numeral opt hmem'.2 (hfit opt hmem'.1 hmem'.2)

/-! ## ISA selection: the x86 families, unknown CPUs, the sticky ISA -/

/-- `setup_isa` with an ISA name that fits the buffer and that the backend
takes. -/
theorem setup_isa_accepted (env : Env) (isa : String) (s : State)
    (hfit : ("isa=" ++ isa).length < 64)
    (h : env.be_accepts s.be_log ("isa=" ++ isa) = true) :
    setup_isa env isa s =
      .ret () { s with firm_isa := isa, be_log := s.be_log ++ ["isa=" ++ isa] } := by
  simp [setup_isa, snprintf_of_lt _ _ hfit, set_be_option, be_parse_arg, h]

/-- `setup_x86_64` with a backend that takes `isa=amd64`. -/
theorem setup_x86_64_accepted (env : Env) (s : State)
    (h : env.be_accepts s.be_log "isa=amd64" = true) :
    setup_x86_64 env s =
      .ret ()
        { s with
          experimental_backend :=
            some "the x86_64 backend is highly experimental and unfinished (consider the -m32 switch)"
          firm_isa := "amd64"
          be_log := s.be_log ++ ["isa=amd64"] } := by
  have hfit : snprintf 64 "isa=amd64" = "isa=amd64" := by decide
  simp [setup_x86_64, setup_isa, hfit, set_be_option, be_parse_arg, h]

/-- `setup_ia32` with an architecture name that fits the buffer, and a backend
that takes both options. -/
theorem setup_ia32_accepted (env : Env) (firm_arch : String) (s : State)
    (hfit : ("ia32-arch=" ++ firm_arch).length < 64)
    (h1 : env.be_accepts s.be_log "isa=ia32" = true)
    (h2 : env.be_accepts (s.be_log ++ ["isa=ia32"]) ("ia32-arch=" ++ firm_arch) = true) :
    setup_ia32 env firm_arch s =
      .ret ()
        { s with
          firm_isa := "ia32"
          be_log := s.be_log ++ ["isa=ia32", "ia32-arch=" ++ firm_arch] } := by
  simp [setup_ia32, snprintf_of_lt _ _ hfit, set_be_option, be_parse_arg, h1, h2]

/-- C1: with no ISA selected and a cpu_type among i386, i486, i586, i686,
`setup_firm_isa` returns true; when the bit-width override (the numeric value
of the last codegen option starting with a digit, 0 without one) is 64, the
stored cpu_type becomes x86_64, firm_isa becomes amd64 and the
experimental-backend note is set; for every other override the backend is sent
`isa=ia32` and `ia32-arch=<cpu_type>`, firm_isa becomes ia32, and cpu_type and
the experimental-backend note stay as they were.  The numbers written by the
options that start with a digit are assumed to fit an `int` (`atoi` is
undefined in C otherwise), and the backend to take the options it is sent (a
rejected option ends the process). -/
theorem setup_firm_isa_ia32_family (env : Env) (s : State) (m : machine_triple_t)
    (hisa : s.firm_isa = "") (hm : s.target.machine = some m)
    (hcpu : m.cpu_type ∈ ["i386", "i486", "i586", "i686"])
    (hfit : numerals_fit_int s.codegen_options) :
    (numeric_override s.codegen_options = 64 →
      env.be_accepts s.be_log "isa=amd64" = true →
      setup_firm_isa env s =
        .ret true
          { s with
            target.machine := some { m with cpu_type := "x86_64" }
            experimental_backend :=
              some "the x86_64 backend is highly experimental and unfinished (consider the -m32 switch)"
            firm_isa := "amd64"
            be_log := s.be_log ++ ["isa=amd64"] }) ∧
    (numeric_override s.codegen_options ≠ 64 →
      env.be_accepts s.be_log "isa=ia32" = true →
      env.be_accepts (s.be_log ++ ["isa=ia32"]) ("ia32-arch=" ++ m.cpu_type) = true →
      setup_firm_isa env s =
        .ret true
          { s with
            firm_isa := "ia32"
            be_log := s.be_log ++ ["isa=ia32", "ia32-arch=" ++ m.cpu_type] }) := by
  have hov := bitsize_override_eq_numeric s.codegen_options hfit
  obtain ⟨cpu, manufacturer, os⟩ := m
  simp only [List.mem_cons, List.mem_singleton, List.not_mem_nil, or_false] at hcpu
  have hamd : snprintf 64 "isa=amd64" = "isa=amd64" := by decide
  constructor
  · intro h64 hbe
    rw [← hov] at h64
    rcases hcpu with rfl | rfl | rfl | rfl <;>
      simp [setup_firm_isa, hisa, get_machine, hm, streq, get_bitsize_codegen_opt_eq, h64,
        set_cpu_type, setup_x86_64, setup_isa, set_be_option, be_parse_arg, hbe, hamd]
  · intro h64 hbe1 hbe2
    rw [← hov] at h64
    rcases hcpu with rfl | rfl | rfl | rfl
    · have hfit : snprintf 64 "ia32-arch=i386" = "ia32-arch=i386" := by decide
      simp at hbe2
      simp [setup_firm_isa, hisa, get_machine, hm, streq, get_bitsize_codegen_opt_eq, h64,
        setup_ia32, set_be_option, be_parse_arg, hbe1, hbe2, hfit]
    · have hfit : snprintf 64 "ia32-arch=i486" = "ia32-arch=i486" := by decide
      simp at hbe2
      simp [setup_firm_isa, hisa, get_machine, hm, streq, get_bitsize_codegen_opt_eq, h64,
        setup_ia32, set_be_option, be_parse_arg, hbe1, hbe2, hfit]
    · have hfit : snprintf 64 "ia32-arch=i586" = "ia32-arch=i586" := by decide
      simp at hbe2
      simp [setup_firm_isa, hisa, get_machine, hm, streq, get_bitsize_codegen_opt_eq, h64,
        setup_ia32, set_be_option, be_parse_arg, hbe1, hbe2, hfit]
    · have hfit : snprintf 64 "ia32-arch=i686" = "ia32-arch=i686" := by decide
      simp at hbe2
      simp [setup_firm_isa, hisa, get_machine, hm, streq, get_bitsize_codegen_opt_eq, h64,
        setup_ia32, set_be_option, be_parse_arg, hbe1, hbe2, hfit]

/-- C1, at an i586 triple: with the options 32, soft-float, 64 the override is
64; with the options 64, 16 it is 16. -/
theorem setup_firm_isa_ia32_family_witness :
    setup_firm_isa (sample_env sample_params32 [])
        (sample_state ⟨"i586", "pc", "linux-gnu"⟩ ["32", "soft-float", "64"]) =
      .ret true
        { sample_state ⟨"i586", "pc", "linux-gnu"⟩ ["32", "soft-float", "64"] with
          target.machine := some ⟨"x86_64", "pc", "linux-gnu"⟩
          experimental_backend :=
            some "the x86_64 backend is highly experimental and unfinished (consider the -m32 switch)"
          firm_isa := "amd64"
          be_log := ["isa=amd64"] } ∧
    setup_firm_isa (sample_env sample_params32 [])
        (sample_state ⟨"i586", "pc", "linux-gnu"⟩ ["64", "16"]) =
      .ret true
        { sample_state ⟨"i586", "pc", "linux-gnu"⟩ ["64", "16"] with
          firm_isa := "ia32"
          be_log := ["isa=ia32", "ia32-arch=i586"] } :=
  ⟨(setup_firm_isa_ia32_family (sample_env sample_params32 [])
      (sample_state ⟨"i586", "pc", "linux-gnu"⟩ ["32", "soft-float", "64"])
      ⟨"i586", "pc", "linux-gnu"⟩ rfl rfl (by decide) (by decide)).1 (by decide) rfl,
   (setup_firm_isa_ia32_family (sample_env sample_params32 [])
      (sample_state ⟨"i586", "pc", "linux-gnu"⟩ ["64", "16"])
      ⟨"i586", "pc", "linux-gnu"⟩ rfl rfl (by decide) (by decide)).2 (by decide) rfl rfl⟩

/-- C2: with no ISA selected and the cpu_type x86_64, `setup_firm_isa` returns
true; when the bit-width override (the numeric value of the last codegen option
starting with a digit, 0 without one) is 32, the stored cpu_type becomes i686,
firm_isa becomes ia32 and the backend is sent `isa=ia32` and `ia32-arch=i686`;
for every other override cpu_type stays x86_64, firm_isa becomes amd64 and the
experimental-backend note is set.  The numbers written by the options that
start with a digit are assumed to fit an `int` (`atoi` is undefined in C
otherwise), and the backend to take the options it is sent (a rejected option
ends the process). -/
theorem setup_firm_isa_x86_64 (env : Env) (s : State) (m : machine_triple_t)
    (hisa : s.firm_isa = "") (hm : s.target.machine = some m)
    (hcpu : m.cpu_type = "x86_64")
    (hfit : numerals_fit_int s.codegen_options) :
    (numeric_override s.codegen_options = 32 →
      env.be_accepts s.be_log "isa=ia32" = true →
      env.be_accepts (s.be_log ++ ["isa=ia32"]) "ia32-arch=i686" = true →
      setup_firm_isa env s =
        .ret true
          { s with
            target.machine := some { m with cpu_type := "i686" }
            firm_isa := "ia32"
            be_log := s.be_log ++ ["isa=ia32", "ia32-arch=i686"] }) ∧
    (numeric_override s.codegen_options ≠ 32 →
      env.be_accepts s.be_log "isa=amd64" = true →
      setup_firm_isa env s =
        .ret true
          { s with
            experimental_backend :=
              some "the x86_64 backend is highly experimental and unfinished (consider the -m32 switch)"
            firm_isa := "amd64"
            be_log := s.be_log ++ ["isa=amd64"] }) := by
  have hov := bitsize_override_eq_numeric s.codegen_options hfit
  obtain ⟨cpu, manufacturer, os⟩ := m
  simp only at hcpu
  subst hcpu
  have hamd : snprintf 64 "isa=amd64" = "isa=amd64" := by decide
  have hfit : snprintf 64 "ia32-arch=i686" = "ia32-arch=i686" := by decide
  constructor
  · intro h32 hbe1 hbe2
    rw [← hov] at h32
    simp [setup_firm_isa, hisa, get_machine, hm, streq, get_bitsize_codegen_opt_eq, h32,
      set_cpu_type, setup_ia32, set_be_option, be_parse_arg, hbe1, hbe2, hfit]
  · intro h32 hbe
    rw [← hov] at h32
    simp [setup_firm_isa, hisa, get_machine, hm, streq, get_bitsize_codegen_opt_eq, h32,
      setup_x86_64, setup_isa, set_be_option, be_parse_arg, hbe, hamd]

/-- C2, at an x86_64 triple: with the options 64, 32 the override is 32; with
no option at all it is 0. -/
theorem setup_firm_isa_x86_64_witness :
    setup_firm_isa (sample_env sample_params32 [])
        (sample_state ⟨"x86_64", "pc", "linux-gnu"⟩ ["64", "32"]) =
      .ret true
        { sample_state ⟨"x86_64", "pc", "linux-gnu"⟩ ["64", "32"] with
          target.machine := some ⟨"i686", "pc", "linux-gnu"⟩
          firm_isa := "ia32"
          be_log := ["isa=ia32", "ia32-arch=i686"] } ∧
    setup_firm_isa (sample_env sample_params32 [])
        (sample_state ⟨"x86_64", "pc", "linux-gnu"⟩ []) =
      .ret true
        { sample_state ⟨"x86_64", "pc", "linux-gnu"⟩ [] with
          experimental_backend :=
            some "the x86_64 backend is highly experimental and unfinished (consider the -m32 switch)"
          firm_isa := "amd64"
          be_log := ["isa=amd64"] } :=
  ⟨(setup_firm_isa_x86_64 (sample_env sample_params32 [])
      (sample_state ⟨"x86_64", "pc", "linux-gnu"⟩ ["64", "32"])
      ⟨"x86_64", "pc", "linux-gnu"⟩ rfl rfl rfl (by decide)).1 (by decide) rfl rfl,
   (setup_firm_isa_x86_64 (sample_env sample_params32 [])
      (sample_state ⟨"x86_64", "pc", "linux-gnu"⟩ [])
      ⟨"x86_64", "pc", "linux-gnu"⟩ rfl rfl rfl (by decide)).2 (by decide) rfl⟩

/-- C5: with an ISA already selected (firm_isa not empty), whatever the
cpu_type (there need not even be a triple) and the codegen options,
`setup_firm_isa` returns true, sends the backend the one option
`isa=<firm_isa>` and changes nothing else: firm_isa, the stored cpu_type and
the experimental-backend note are as before.  The option is assumed to fit
the 64-byte buffer it is written to (firm_isa is a short fixed-size buffer) and
to be taken by the backend (a rejected option ends the process). -/
theorem setup_firm_isa_sticky (env : Env) (s : State)
    (hisa : s.firm_isa ≠ "")
    (hfit : ("isa=" ++ s.firm_isa).length < 64)
    (hbe : env.be_accepts s.be_log ("isa=" ++ s.firm_isa) = true) :
    setup_firm_isa env s =
      .ret true { s with be_log := s.be_log ++ ["isa=" ++ s.firm_isa] } := by
  simp [setup_firm_isa, hisa, setup_isa, snprintf_of_lt _ _ hfit, set_be_option, be_parse_arg, hbe]

/-- C5, with the ISA sparc selected beforehand, a cpu_type the classifier
does not know and a 64-bit override among the options. -/
theorem setup_firm_isa_sticky_witness :
    setup_firm_isa (sample_env sample_params32 [])
        { sample_state ⟨"weird-cpu", "pc", "linux-gnu"⟩ ["64"] with firm_isa := "sparc" } =
      .ret true
        { sample_state ⟨"weird-cpu", "pc", "linux-gnu"⟩ ["64"] with
          firm_isa := "sparc"
          be_log := ["isa=sparc"] } :=
  setup_firm_isa_sticky (sample_env sample_params32 [])
    { sample_state ⟨"weird-cpu", "pc", "linux-gnu"⟩ ["64"] with firm_isa := "sparc" }
    (by decide) (by decide) rfl

/-! ## Operating system support and option forwarding return -/

theorem State.same_but_logs_refl (s : State) : s.same_but_logs s := rfl

theorem State.same_but_logs_trans {s s1 s2 : State} (h1 : s.same_but_logs s1)
    (h2 : s1.same_but_logs s2) : s.same_but_logs s2 := by
  unfold State.same_but_logs at *
  rw [h2, h1]

/-- The inner loop of the option forwarding returns and touches the tool flags
only. -/
theorem pass_to_tools_loop_returns (entries : List String) (option : String) (s : State) :
    ∃ s1, pass_to_tools_loop entries option s = .ret () s1 ∧ s.same_but_logs s1 := by
  induction entries with
  | nil => exact ⟨s, rfl, rfl⟩
  | cons entry entries ih =>
    by_cases h : streq entry option = true
    · simp [pass_to_tools_loop, h, driver_add_cppflag, driver_add_asflag, driver_add_ldflag,
        State.same_but_logs]
    · simpa [pass_to_tools_loop, h] using ih

/-- The loop over the codegen options always returns (a rejected option is an
error, not an abort) and touches the logs only. -/
theorem pass_codegen_options_loop_returns (env : Env) (opts : List String) (res : Bool)
    (s : State) :
    ∃ r s1, pass_codegen_options_loop env opts res s = .ret r s1 ∧ s.same_but_logs s1 := by
  induction opts generalizing res s with
  | nil => exact ⟨res, s, rfl, rfl⟩
  | cons opt rest ih =>
    by_cases hd : starts_with_digit opt = true
    · obtain ⟨s1, h1, hs1⟩ := pass_to_tools_loop_returns pass_to_cpp_and_ld opt s
      obtain ⟨r, s2, h2, hs2⟩ := ih res s1
      refine ⟨r, s2, ?_, State.same_but_logs_trans hs1 hs2⟩
      simp [pass_codegen_options_loop, hd, h1, h2]
    · by_cases hacc : env.be_accepts s.be_log (snprintf 256 (s.firm_isa ++ "-" ++ opt)) = true
      · obtain ⟨s1, h1, hs1⟩ := pass_to_tools_loop_returns pass_to_cpp_and_ld opt
          { s with be_log := s.be_log ++ [snprintf 256 (s.firm_isa ++ "-" ++ opt)] }
        obtain ⟨r, s2, h2, hs2⟩ := ih res s1
        refine ⟨r, s2, ?_, State.same_but_logs_trans (State.same_but_logs_trans ?_ hs1) hs2⟩
        · simp [pass_codegen_options_loop, hd, be_parse_arg, hacc, h1, h2]
        · simp [State.same_but_logs]
      · obtain ⟨r, s2, h2, hs2⟩ := ih false
          { s with
            be_log := s.be_log ++ [snprintf 256 (s.firm_isa ++ "-" ++ opt)]
            errors := s.errors ++ ["Unknown codegen option \x27-m" ++ opt ++ "\x27"] }
        refine ⟨r, s2, ?_, State.same_but_logs_trans ?_ hs2⟩
        · simp [pass_codegen_options_loop, hd, be_parse_arg, hacc, errorf, h2]
        · simp [State.same_but_logs]

/-- The loop over the codegen options, started in a state that differs from
`s` in the logs only. -/
theorem pass_codegen_options_loop_returns_from (env : Env) (opts : List String) (res : Bool)
    {s s0 : State} (h : s.same_but_logs s0) :
    ∃ r s1, pass_codegen_options_loop env opts res s0 = .ret r s1 ∧ s.same_but_logs s1 := by
  obtain ⟨r, s1, h1, hs1⟩ := pass_codegen_options_loop_returns env opts res s0
  exact ⟨r, s1, h1, State.same_but_logs_trans h hs1⟩

/-- Each literal option is taken. -/
theorem Env.takes_fixed_options.accepts {env : Env} (h : env.takes_fixed_options)
    (log : List String) (arg : String) (hmem : arg ∈ fixed_be_options) :
    env.be_accepts log arg = true := h log arg hmem

/-- The object format is forwarded. -/
theorem pass_object_format_returns (env : Env) (s : State) (hfix : env.takes_fixed_options) :
    ∃ s1, pass_object_format env s = .ret () s1 ∧ s.same_but_logs s1 := by
  cases hof : s.target.object_format <;>
    simp [pass_object_format, hof, set_be_option, be_parse_arg, State.same_but_logs,
      hfix.accepts _ "objectformat=elf" (by decide),
      hfix.accepts _ "objectformat=mach-o" (by decide),
      hfix.accepts _ "objectformat=coff" (by decide)]

/-- The profiling options are forwarded. -/
theorem pass_profile_options_returns (env : Env) (s : State) (hfix : env.takes_fixed_options) :
    ∃ s1, pass_profile_options env s = .ret () s1 ∧ s.same_but_logs s1 := by
  cases hpg : s.profile_generate <;> cases hpu : s.profile_use <;>
    simp [pass_profile_options, hpg, hpu, set_be_option, be_parse_arg, driver_add_ldflag,
      State.same_but_logs,
      hfix.accepts _ "profilegenerate" (by decide), hfix.accepts _ "profileuse" (by decide)]
  cases s
  simp_all

/-- The PIC options are forwarded. -/
theorem pass_pic_options_returns (env : Env) (s : State) (m : machine_triple_t)
    (hm : s.target.machine = some m) (hfix : env.takes_fixed_options) :
    ∃ s1, pass_pic_options env s = .ret () s1 ∧ s.same_but_logs s1 := by
  by_cases hpic : s.target.pic_mode > 0 <;> by_cases hia : s.firm_isa = "ia32" <;>
    cases hdar : env.is_darwin_os m.operating_system <;>
    cases hplt : s.target.pic_no_plt <;>
    simp [pass_pic_options, hpic, hia, hdar, hplt, streq, get_machine, hm, set_be_option,
      be_parse_arg, State.same_but_logs,
      hfix.accepts _ "pic=true" (by decide), hfix.accepts _ "pic=false" (by decide),
      hfix.accepts _ "ia32-pic=none" (by decide), hfix.accepts _ "ia32-pic=mach-o" (by decide),
      hfix.accepts _ "ia32-pic=elf-noplt" (by decide), hfix.accepts _ "ia32-pic=elf" (by decide)]

/-- A state that differs in the logs only has the same triple. -/
theorem State.same_but_logs.logs_machine {s s1 : State} (h : s.same_but_logs s1) :
    s1.target.machine = s.target.machine := by
  unfold State.same_but_logs at h
  rw [h]

/-- With a triple in place and a backend that takes the literal options,
`pass_options_to_firm_be` returns, and it touches the logs only. -/
theorem pass_options_to_firm_be_returns (env : Env) (s : State) (m : machine_triple_t)
    (hm : s.target.machine = some m) (hfix : env.takes_fixed_options) :
    ∃ r s1, pass_options_to_firm_be env s = .ret r s1 ∧ s.same_but_logs s1 := by
  obtain ⟨s1, h1, f1⟩ := pass_object_format_returns env s hfix
  obtain ⟨s2, h2, f2⟩ := pass_profile_options_returns env s1 hfix
  obtain ⟨s3, h3, f3⟩ := pass_pic_options_returns env s2 m
    (by rw [f2.logs_machine, f1.logs_machine, hm]) hfix
  obtain ⟨r, s4, h4, f4⟩ := pass_codegen_options_loop_returns env s3.codegen_options true s3
  refine ⟨r, s4, ?_, State.same_but_logs_trans (State.same_but_logs_trans
    (State.same_but_logs_trans f1 f2) f3) f4⟩
  simp [pass_options_to_firm_be, h1, h2, h3, h4]

theorem State.same_but_os_support_refl (s : State) : s.same_but_os_support s := rfl

theorem State.same_but_os_support_trans {s s1 s2 : State} (h1 : s.same_but_os_support s1)
    (h2 : s1.same_but_os_support s2) : s.same_but_os_support s2 := by
  unfold State.same_but_os_support at *
  rw [h2, h1]

/-- The operating system part of `init_os_support` returns for a known
operating system, registers the defines of `registered_os_defines` and leaves
alone what is outside its frame. -/
theorem init_os_support_os_returns (env : Env) (os cpu : String) (s : State)
    (hos : env.supported_os os) (hfix : env.takes_fixed_options) :
    ∃ s1, init_os_support_os env os cpu s = .ret () s1 ∧
      s1.target.defines = (registered_os_defines env os cpu).reverse ++ s.target.defines ∧
      s.same_but_os_support s1 := by
  by_cases helf : env.is_elf_os os = true
  · by_cases hgnu : strstr os "gnu" = true <;>
      simp [init_os_support_os, registered_os_defines, helf, hgnu, set_be_option, be_parse_arg,
        ppdef, ppdefc, set_create_ld_ident, set_compilerlib_name_mangle, plain_define,
        conditional_define, State.same_but_os_support,
        hfix.accepts _ "ia32-struct_in_reg=no" (by decide),
        hfix.accepts _ "amd64-x64abi=no" (by decide)]
  · by_cases hdar : env.is_darwin_os os = true
    · by_cases hpic : s.target.pic_mode = -1 <;>
        simp [init_os_support_os, registered_os_defines, helf, hdar, hpic, set_be_option,
          be_parse_arg, ppdef, ppdefc, set_create_ld_ident, set_compilerlib_name_mangle,
          plain_define, conditional_define, State.same_but_os_support,
          hfix.accepts _ "ia32-stackalign=4" (by decide),
          hfix.accepts _ "ia32-struct_in_reg=yes" (by decide),
          hfix.accepts _ "amd64-x64abi=no" (by decide)]
    · have hwin : env.is_windows_os os = true := by
        rcases hos with h | h | h
        · exact absurd h helf
        · exact absurd h hdar
        · exact h
      by_cases hmingw : strstr os "mingw" = true <;> by_cases hcpu : cpu = "x86_64" <;>
        simp [init_os_support_os, registered_os_defines, helf, hdar, hwin, hmingw, hcpu, streq,
          set_be_option, be_parse_arg, ppdef, ppdefc, set_create_ld_ident,
          set_compilerlib_name_mangle, plain_define, conditional_define,
          State.same_but_os_support,
          hfix.accepts _ "ia32-struct_in_reg=no" (by decide),
          hfix.accepts _ "amd64-x64abi=yes" (by decide)]

/-- The CPU part of `init_os_support` always returns, registers the defines of
`registered_cpu_defines` and touches nothing but the defines. -/
theorem init_os_support_cpu_returns (env : Env) (os cpu manufacturer : String) (s : State) :
    ∃ s1, init_os_support_cpu env os cpu manufacturer s = .ret () s1 ∧
      s1.target.defines =
        (registered_cpu_defines env os cpu manufacturer).reverse ++ s.target.defines ∧
      s.same_but_os_support s1 := by
  by_cases hia : env.is_ia32_cpu cpu = true
  · by_cases h4 : cpu = "i486"
    · subst h4
      simp [init_os_support_cpu, registered_cpu_defines, hia, streq, ppdef, ppdefc,
        plain_define, conditional_define, State.same_but_os_support]
    · by_cases h5 : cpu = "i586"
      · subst h5
        simp [init_os_support_cpu, registered_cpu_defines, hia, streq, ppdef, ppdefc,
          plain_define, conditional_define, State.same_but_os_support]
      · by_cases h6 : cpu = "i686"
        · subst h6
          simp [init_os_support_cpu, registered_cpu_defines, hia, streq, ppdef, ppdefc,
            plain_define, conditional_define, State.same_but_os_support]
        · by_cases h7 : cpu = "i786"
          · subst h7
            simp [init_os_support_cpu, registered_cpu_defines, hia, streq, ppdef, ppdefc,
              plain_define, conditional_define, State.same_but_os_support]
          · simp [init_os_support_cpu, registered_cpu_defines, hia, h4, h5, h6, h7, streq,
              ppdef, ppdefc, plain_define, conditional_define, State.same_but_os_support]
  · by_cases hsparc : cpu = "sparc"
    · subst hsparc
      by_cases hleon : strstr manufacturer "leon" = true <;>
        simp [init_os_support_cpu, registered_cpu_defines, hia, hleon, streq, ppdef,
          ppdefc, plain_define, conditional_define, State.same_but_os_support]
    · by_cases harm : cpu = "arm"
      · subst harm
        by_cases heabi : strstr os "eabi" = true <;>
          simp [init_os_support_cpu, registered_cpu_defines, hia, heabi, streq,
            ppdef, ppdefc, plain_define, conditional_define, State.same_but_os_support]
      · by_cases hx : cpu = "x86_64"
        · subst hx
          simp [init_os_support_cpu, registered_cpu_defines, hia, streq,
            ppdef, ppdefc, plain_define, conditional_define, State.same_but_os_support]
        · simp [init_os_support_cpu, registered_cpu_defines, hia, hsparc, harm, hx, streq,
            ppdef, ppdefc, plain_define, conditional_define, State.same_but_os_support]

/-- A state that differs in the frame of `init_os_support` only has the same
triple. -/
theorem State.same_but_os_support.os_machine {s s1 : State} (h : s.same_but_os_support s1) :
    s1.target.machine = s.target.machine := by
  unfold State.same_but_os_support at h
  rw [h]

/-- With a triple whose operating system is known and a backend that takes the
literal options, `init_os_support` returns, registers the defines of
`registered_defines` (the newest at the head of the list) and leaves alone what
is outside its frame. -/
theorem init_os_support_returns (env : Env) (s : State) (m : machine_triple_t)
    (hm : s.target.machine = some m) (hos : env.supported_os m.operating_system)
    (hfix : env.takes_fixed_options) :
    ∃ s1, init_os_support env s = .ret () s1 ∧
      s1.target.defines = (registered_defines env m).reverse ++ s.target.defines ∧
      s.same_but_os_support s1 := by
  obtain ⟨s1, h1, d1, f1⟩ := init_os_support_os_returns env m.operating_system m.cpu_type
    { s with
      target :=
        { s.target with enable_main_collect2_hack := false, biggest_alignment := 16 }
      dialect := { s.dialect with wchar_atomic_kind := ATOMIC_TYPE_INT } } hos hfix
  obtain ⟨s2, h2, d2, f2⟩ :=
    init_os_support_cpu_returns env m.operating_system m.cpu_type m.manufacturer s1
  have hm1 : s1.target.machine = some m := by rw [f1.os_machine]; exact hm
  have f0 : s.same_but_os_support s1 := by
    refine State.same_but_os_support_trans ?_ f1
    simp [State.same_but_os_support]
  have hd : s2.target.defines = (registered_defines env m).reverse ++ s.target.defines := by
    simp [d2, d1, registered_defines]
  simp only [hm] at h1
  by_cases hpic : s2.target.pic_mode = -1
  · refine ⟨{ s2 with target.pic_mode := 0 }, ?_, hd, ?_⟩
    · simp [init_os_support, get_machine, hm, h1, hm1, h2, hpic]
    · refine State.same_but_os_support_trans (State.same_but_os_support_trans f0 f2) ?_
      simp [State.same_but_os_support]
  · refine ⟨s2, ?_, hd, State.same_but_os_support_trans f0 f2⟩
    simp [init_os_support, get_machine, hm, h1, hm1, h2, hpic]

/-! ## Unknown CPUs -/

/-- The CPU names `setup_firm_isa` knows. -/
theorem setup_firm_isa_unknown_cpu (env : Env) (s : State) (m : machine_triple_t)
    (hisa : s.firm_isa = "") (hm : s.target.machine = some m)
    (hcpu : m.cpu_type ∉ ["i386", "i486", "i586", "i686", "x86_64", "sparc", "arm"]) :
    setup_firm_isa env s =
      .ret false
        { s with
          errors := s.errors ++ ["unknown cpu \x27" ++ m.cpu_type ++ "\x27 in target-triple"] } := by
  simp only [List.mem_cons, List.mem_singleton, List.not_mem_nil, or_false, not_or] at hcpu
  obtain ⟨h1, h2, h3, h4, h5, h6, h7⟩ := hcpu
  simp [setup_firm_isa, hisa, get_machine, hm, streq, h1, h2, h3, h4, h5, h6, h7, errorf]

/-- A state that differs in the frame of `init_os_support` only has the same
selected ISA. -/
theorem State.same_but_os_support.os_firm_isa {s s1 : State} (h : s.same_but_os_support s1) :
    s1.firm_isa = s.firm_isa := by
  unfold State.same_but_os_support at h
  rw [h]

/-- A state that differs in the logs only has the same defines. -/
theorem State.same_but_logs.logs_defines {s s1 : State} (h : s.same_but_logs s1) :
    s1.target.defines = s.target.defines := by
  unfold State.same_but_logs at h
  rw [h]

/-- With an unknown CPU, a known operating system and a backend that takes the
literal options, `target_setup` runs to its end, returns false, and the
defines of `init_os_support` are registered all the same. -/
theorem target_setup_unknown_cpu (env : Env) (s : State) (m : machine_triple_t)
    (hisa : s.firm_isa = "") (hm : s.target.machine = some m)
    (hcpu : m.cpu_type ∉ ["i386", "i486", "i586", "i686", "x86_64", "sparc", "arm"])
    (hos : env.supported_os m.operating_system) (hfix : env.takes_fixed_options) :
    ∃ s1, target_setup env s = .ret false s1 ∧
      s1.target.defines = (registered_defines env m).reverse ++ s.target.defines := by
  have h0 := setup_firm_isa_unknown_cpu env s m hisa hm hcpu
  obtain ⟨s1, h1, d1, f1⟩ := init_os_support_returns env
    { s with
      errors := s.errors ++ ["unknown cpu \x27" ++ m.cpu_type ++ "\x27 in target-triple"] }
    m hm hos hfix
  obtain ⟨r, s2, h2, f2⟩ := pass_options_to_firm_be_returns env s1 m
    (by rw [f1.os_machine]; exact hm) hfix
  have d2 : s2.target.defines = (registered_defines env m).reverse ++ s.target.defines := by
    rw [f2.logs_defines, d1]
  simp [target_setup, hm, h0, h1, h2, d2]

/-- C3: with no ISA selected and a cpu_type that is none of i386, i486, i586,
i686, x86_64, sparc, arm, `setup_firm_isa` returns false, reports exactly one
error, sends the backend nothing and leaves firm_isa and cpu_type (and
everything else) as they were; hence `target_setup` returns false, whatever the
codegen options (for a triple whose operating system is known and a backend
that takes the literal options: otherwise the process ends before
`target_setup` returns). -/
theorem unknown_cpu_is_rejected (env : Env) (s : State) (m : machine_triple_t)
    (hisa : s.firm_isa = "") (hm : s.target.machine = some m)
    (hcpu : m.cpu_type ∉ ["i386", "i486", "i586", "i686", "x86_64", "sparc", "arm"]) :
    setup_firm_isa env s =
      .ret false
        { s with
          errors := s.errors ++ ["unknown cpu \x27" ++ m.cpu_type ++ "\x27 in target-triple"] } ∧
    (env.supported_os m.operating_system → env.takes_fixed_options →
      ∃ s1, target_setup env s = .ret false s1) := by
  refine ⟨setup_firm_isa_unknown_cpu env s m hisa hm hcpu, fun hos hfix => ?_⟩
  obtain ⟨s1, h1, _⟩ := target_setup_unknown_cpu env s m hisa hm hcpu hos hfix
  exact ⟨s1, h1⟩

/-- The sample backend without rejections takes the literal options. -/
theorem sample_env_takes_fixed_options (be_params : backend_params) :
    (sample_env be_params []).takes_fixed_options := by
  intro log arg _
  rfl

/-- C3, at the triple weird-cpu-pc-linux-gnu with the options 64 and
soft-float. -/
theorem unknown_cpu_is_rejected_witness :
    setup_firm_isa (sample_env sample_params32 [])
        (sample_state ⟨"weird-cpu", "pc", "linux-gnu"⟩ ["64", "soft-float"]) =
      .ret false
        { sample_state ⟨"weird-cpu", "pc", "linux-gnu"⟩ ["64", "soft-float"] with
          errors := ["unknown cpu \x27weird-cpu\x27 in target-triple"] } ∧
    ∃ s1, target_setup (sample_env sample_params32 [])
        (sample_state ⟨"weird-cpu", "pc", "linux-gnu"⟩ ["64", "soft-float"]) = .ret false s1 :=
  ⟨(unknown_cpu_is_rejected (sample_env sample_params32 [])
      (sample_state ⟨"weird-cpu", "pc", "linux-gnu"⟩ ["64", "soft-float"])
      ⟨"weird-cpu", "pc", "linux-gnu"⟩ rfl rfl (by decide)).1,
   (unknown_cpu_is_rejected (sample_env sample_params32 [])
      (sample_state ⟨"weird-cpu", "pc", "linux-gnu"⟩ ["64", "soft-float"])
      ⟨"weird-cpu", "pc", "linux-gnu"⟩ rfl rfl (by decide)).2 (by decide)
      (sample_env_takes_fixed_options sample_params32)⟩

/-- C4 does not hold as stated: at the triple weird-cpu-pc-linux-gnu, with no
ISA selected and no define registered before, `target_setup` returns false and
leaves seven defines registered. -/
theorem target_setup_unknown_cpu_registers_defines :
    (target_setup (sample_env sample_params32 [])
        (sample_state ⟨"weird-cpu", "pc", "linux-gnu"⟩ [])).value? = some false ∧
    (target_setup (sample_env sample_params32 [])
        (sample_state ⟨"weird-cpu", "pc", "linux-gnu"⟩ [])).state.target.defines =
      [plain_define "__gnu_linux__" "1",
       conditional_define "linux" "1" .cond_not_strict,
       plain_define "__linux__" "1", plain_define "__linux" "1",
       conditional_define "unix" "1" .cond_not_strict,
       plain_define "__unix__" "1", plain_define "__unix" "1"] ∧
    (target_setup (sample_env sample_params32 [])
        (sample_state ⟨"weird-cpu", "pc", "linux-gnu"⟩ [])).state.target.defines ≠
      (sample_state ⟨"weird-cpu", "pc", "linux-gnu"⟩ []).target.defines := by
  decide!

/-- The operating system part registers at least one define for every known
operating system. -/
theorem registered_os_defines_ne_nil (env : Env) (os cpu : String)
    (hos : env.supported_os os) : registered_os_defines env os cpu ≠ [] := by
  unfold registered_os_defines
  by_cases helf : env.is_elf_os os = true
  · simp [helf]
  · by_cases hdar : env.is_darwin_os os = true
    · simp [helf, hdar]
    · have hwin : env.is_windows_os os = true := by
        rcases hos with h | h | h
        · exact absurd h helf
        · exact absurd h hdar
        · exact h
      simp [helf, hdar, hwin]

/-- C4, amended: with an unknown cpu_type and no ISA selected, `target_setup`
reports failure (for a known operating system and a backend that takes the
literal options), and macros are registered all the same: `target.defines`
after the call is the list before the call with the defines `init_os_support`
registers for the triple put in front of it, newest first; these are never
none, so the list is never what it was before. -/
theorem target_setup_unknown_cpu_defines (env : Env) (s : State) (m : machine_triple_t)
    (hisa : s.firm_isa = "") (hm : s.target.machine = some m)
    (hcpu : m.cpu_type ∉ ["i386", "i486", "i586", "i686", "x86_64", "sparc", "arm"])
    (hos : env.supported_os m.operating_system) (hfix : env.takes_fixed_options) :
    ∃ s1, target_setup env s = .ret false s1 ∧
      s1.target.defines = (registered_defines env m).reverse ++ s.target.defines ∧
      registered_defines env m ≠ [] ∧
      s1.target.defines ≠ s.target.defines := by
  obtain ⟨s1, h1, d1⟩ := target_setup_unknown_cpu env s m hisa hm hcpu hos hfix
  have hne : registered_defines env m ≠ [] := by
    unfold registered_defines
    intro h
    exact registered_os_defines_ne_nil env m.operating_system m.cpu_type hos
      (List.append_eq_nil.mp h).1
  refine ⟨s1, h1, d1, hne, ?_⟩
  rw [d1]
  intro h
  have hlen := congrArg List.length h
  have hpos : 0 < (registered_defines env m).length := List.length_pos.mpr hne
  simp only [List.length_append, List.length_reverse] at hlen
  omega

/-- C4 amended, at the triple weird-cpu-pc-mingw32 with one define registered
before. -/
theorem target_setup_unknown_cpu_defines_witness :
    ∃ s1, target_setup (sample_env sample_params32 [])
        { sample_state ⟨"weird-cpu", "pc", "mingw32"⟩ ["32"] with
          target.defines := [plain_define "EARLIER" "1"] } = .ret false s1 ∧
      s1.target.defines =
        (registered_defines (sample_env sample_params32 [])
          ⟨"weird-cpu", "pc", "mingw32"⟩).reverse ++ [plain_define "EARLIER" "1"] ∧
      registered_defines (sample_env sample_params32 []) ⟨"weird-cpu", "pc", "mingw32"⟩ ≠ [] ∧
      s1.target.defines ≠ [plain_define "EARLIER" "1"] :=
  target_setup_unknown_cpu_defines (sample_env sample_params32 [])
    { sample_state ⟨"weird-cpu", "pc", "mingw32"⟩ ["32"] with
      target.defines := [plain_define "EARLIER" "1"] }
    ⟨"weird-cpu", "pc", "mingw32"⟩ rfl rfl (by decide) (by decide)
    (sample_env_takes_fixed_options sample_params32)

/-! ## Atomic type adjustment -/

/-- With a triple in place and a machine size that is a multiple of 8,
`target_adjust_types_and_dialect` returns; `init_types` was called once, the
property table went through the stages up to `props_at_end`, and the pointer
sized kinds are those of `adjust_pointer_sized`. -/
theorem target_adjust_types_and_dialect_returns (env : Env) (s : State) (m : machine_triple_t)
    (hm : s.target.machine = some m)
    (hms : (env.be_get_backend_param s.be_log).machine_size % 8 = 0) :
    ∃ s1, target_adjust_types_and_dialect env s = .ret () s1 ∧
      s1.props = props_at_end env s m ∧
      s1.init_types_calls = s.init_types_calls ++
        [init_types_arguments env m.operating_system
          (env.be_get_backend_param s.be_log).machine_size] ∧
      s1.dialect =
        { s.dialect with
          pointer_sized_int := (adjust_pointer_sized env m.operating_system
            (env.be_get_backend_param s.be_log).machine_size).1
          pointer_sized_uint := (adjust_pointer_sized env m.operating_system
            (env.be_get_backend_param s.be_log).machine_size).2 } ∧
      s1.target = s.target ∧ s1.firm_isa = s.firm_isa ∧ s1.be_log = s.be_log := by
  by_cases hw : (s.dialect.cpp && !s.had_cpp_warning) = true
  · simp [target_adjust_types_and_dialect, BITS_PER_BYTE, hms, get_machine, hm, warn_cpp,
      props_at_end, props_after_wchar, props_after_char, props_after_os_abi, props_after_init,
      init_types_arguments]
    simp at hw
    simp [hw]
  · simp [target_adjust_types_and_dialect, BITS_PER_BYTE, hms, get_machine, hm, warn_cpp,
      props_at_end, props_after_wchar, props_after_char, props_after_os_abi, props_after_init,
      init_types_arguments]
    simp at hw
    split <;> simp_all

@[simp] theorem props_table.set_apply (props : props_table) (k j : atomic_type_kind_t)
    (v : atomic_type_properties_t) :
    props.set k v j = if j = k then v else props j := rfl

/-- C6 does not hold as stated: on Darwin with the ISA ia32 and a backend that
reports no native long double, the long double record ends as 8/8/4 (the
fallback copy of double comes after the Darwin exception), not 16/16/16. -/
theorem darwin_ia32_long_double_without_native_type :
    (sample_env sample_params32_no_long_double []).is_darwin_os "darwin9" = true ∧
    ((target_adjust_types_and_dialect (sample_env sample_params32_no_long_double [])
        { sample_state ⟨"i686", "apple", "darwin9"⟩ [] with firm_isa := "ia32" }).state.props
      ATOMIC_TYPE_LONG_DOUBLE) =
      { size := 8, alignment := 8, struct_alignment := 4, flags := 5, rank := 7 } := by
  decide!

/-- C6, amended: on every Darwin operating system with the ISA ia32, for every
backend parameter record with a valid machine size, long long, unsigned long
long and double end with struct_alignment 4; the long double record ends with
size 16, alignment 16 and struct_alignment 16 when the backend reports a native
long double type, and with the size, alignment and struct_alignment (4) of
double when it reports none. -/
theorem darwin_ia32_type_properties (env : Env) (s : State) (m : machine_triple_t)
    (hm : s.target.machine = some m)
    (hms : (env.be_get_backend_param s.be_log).machine_size % 8 = 0)
    (hdarwin : env.is_darwin_os m.operating_system = true) (hisa : s.firm_isa = "ia32") :
    ∃ s1, target_adjust_types_and_dialect env s = .ret () s1 ∧
      (s1.props ATOMIC_TYPE_LONGLONG).struct_alignment = 4 ∧
      (s1.props ATOMIC_TYPE_ULONGLONG).struct_alignment = 4 ∧
      (s1.props ATOMIC_TYPE_DOUBLE).struct_alignment = 4 ∧
      (match (env.be_get_backend_param s.be_log).type_long_double with
       | some _ =>
         (s1.props ATOMIC_TYPE_LONG_DOUBLE).size = 16 ∧
         (s1.props ATOMIC_TYPE_LONG_DOUBLE).alignment = 16 ∧
         (s1.props ATOMIC_TYPE_LONG_DOUBLE).struct_alignment = 16
       | none =>
         (s1.props ATOMIC_TYPE_LONG_DOUBLE).size = (s1.props ATOMIC_TYPE_DOUBLE).size ∧
         (s1.props ATOMIC_TYPE_LONG_DOUBLE).alignment = (s1.props ATOMIC_TYPE_DOUBLE).alignment ∧
         (s1.props ATOMIC_TYPE_LONG_DOUBLE).struct_alignment = 4) := by
  obtain ⟨s1, h1, hp, -⟩ := target_adjust_types_and_dialect_returns env s m hm hms
  refine ⟨s1, h1, ?_⟩
  rw [hp]
  cases hld : (env.be_get_backend_param s.be_log).type_long_double <;>
    cases hll : (env.be_get_backend_param s.be_log).type_long_long <;>
    cases hull : (env.be_get_backend_param s.be_log).type_unsigned_long_long <;>
    cases hcs : s.dialect.char_is_signed <;>
    simp [props_at_end, props_after_wchar, props_after_char, props_after_os_abi,
      adjust_long_double_fallback, adjust_wchar, adjust_char_signedness, adjust_os_abi_props,
      adjust_backend_types, copy_typeprops, set_typeprops_type, hld, hll, hull, hcs, hdarwin, hisa,
      streq]

/-- C6 amended, at the triple i686-apple-darwin9 with a native long double. -/
theorem darwin_ia32_type_properties_witness :
    ∃ s1, target_adjust_types_and_dialect (sample_env sample_params32 [])
        { sample_state ⟨"i686", "apple", "darwin9"⟩ [] with firm_isa := "ia32" } = .ret () s1 ∧
      (s1.props ATOMIC_TYPE_LONGLONG).struct_alignment = 4 ∧
      (s1.props ATOMIC_TYPE_ULONGLONG).struct_alignment = 4 ∧
      (s1.props ATOMIC_TYPE_DOUBLE).struct_alignment = 4 ∧
      (s1.props ATOMIC_TYPE_LONG_DOUBLE).size = 16 ∧
      (s1.props ATOMIC_TYPE_LONG_DOUBLE).alignment = 16 ∧
      (s1.props ATOMIC_TYPE_LONG_DOUBLE).struct_alignment = 16 :=
  darwin_ia32_type_properties (sample_env sample_params32 [])
    { sample_state ⟨"i686", "apple", "darwin9"⟩ [] with firm_isa := "ia32" }
    ⟨"i686", "apple", "darwin9"⟩ rfl (by decide) (by decide) rfl

/-- C7: on every Windows operating system that is not Darwin, for every ISA and
every backend parameter record with a valid machine size, the long double
record ends equal to the double record in every field (size, alignment,
struct_alignment, flags and rank), and double, long long and unsigned long long
end with struct_alignment 8. -/
theorem windows_type_properties (env : Env) (s : State) (m : machine_triple_t)
    (hm : s.target.machine = some m)
    (hms : (env.be_get_backend_param s.be_log).machine_size % 8 = 0)
    (hdarwin : env.is_darwin_os m.operating_system = false)
    (hwindows : env.is_windows_os m.operating_system = true) :
    ∃ s1, target_adjust_types_and_dialect env s = .ret () s1 ∧
      s1.props ATOMIC_TYPE_LONG_DOUBLE = s1.props ATOMIC_TYPE_DOUBLE ∧
      (s1.props ATOMIC_TYPE_DOUBLE).struct_alignment = 8 ∧
      (s1.props ATOMIC_TYPE_LONGLONG).struct_alignment = 8 ∧
      (s1.props ATOMIC_TYPE_ULONGLONG).struct_alignment = 8 := by
  obtain ⟨s1, h1, hp, -⟩ := target_adjust_types_and_dialect_returns env s m hm hms
  refine ⟨s1, h1, ?_⟩
  rw [hp]
  cases hld : (env.be_get_backend_param s.be_log).type_long_double <;>
    cases hll : (env.be_get_backend_param s.be_log).type_long_long <;>
    cases hull : (env.be_get_backend_param s.be_log).type_unsigned_long_long <;>
    cases hcs : s.dialect.char_is_signed <;>
    simp [props_at_end, props_after_wchar, props_after_char, props_after_os_abi,
      adjust_long_double_fallback, adjust_wchar, adjust_char_signedness, adjust_os_abi_props,
      adjust_backend_types, copy_typeprops, set_typeprops_type, hld, hll, hull, hcs, hdarwin,
      hwindows]

/-- C7, at the triple i686-pc-mingw32 with the ISA ia32 and a backend without
a native long double. -/
theorem windows_type_properties_witness :
    ∃ s1, target_adjust_types_and_dialect (sample_env sample_params32_no_long_double [])
        { sample_state ⟨"i686", "pc", "mingw32"⟩ [] with firm_isa := "ia32" } = .ret () s1 ∧
      s1.props ATOMIC_TYPE_LONG_DOUBLE = s1.props ATOMIC_TYPE_DOUBLE ∧
      (s1.props ATOMIC_TYPE_DOUBLE).struct_alignment = 8 ∧
      (s1.props ATOMIC_TYPE_LONGLONG).struct_alignment = 8 ∧
      (s1.props ATOMIC_TYPE_ULONGLONG).struct_alignment = 8 :=
  windows_type_properties (sample_env sample_params32_no_long_double [])
    { sample_state ⟨"i686", "pc", "mingw32"⟩ [] with firm_isa := "ia32" }
    ⟨"i686", "pc", "mingw32"⟩ rfl (by decide) (by decide) (by decide)

/-- C8 does not hold as stated: on a Windows triple with a 64-bit machine,
`init_types` is handed the long size 4, not min(pointer_size, 8) = 8. -/
theorem windows64_long_size_is_4 :
    (sample_env sample_params64 []).is_windows_os "mingw32" = true ∧
    (target_adjust_types_and_dialect (sample_env sample_params64 [])
        (sample_state ⟨"x86_64", "pc", "mingw32"⟩ [])).state.init_types_calls = [(4, 4, 8)] ∧
    (4 : Nat) ≠ min (sample_params64.machine_size / 8) 8 := by
  decide!

/-- C8, amended: for every operating system, when the machine size is a
multiple of 8, `target_adjust_types_and_dialect` initialises the type table
(one call of `init_types`, applied to the table as it was) with pointer_size =
machine_size / 8, int size = min(pointer_size, 4) and long size =
min(pointer_size, 8), except that the long size is 4 on a Windows operating
system with pointer_size 8; when the machine size is not a multiple of 8, the
function panics and every global is as it was. -/
theorem init_types_sizes (env : Env) (s : State) :
    (∀ m : machine_triple_t, s.target.machine = some m →
      (env.be_get_backend_param s.be_log).machine_size % 8 = 0 →
      ∃ s1, target_adjust_types_and_dialect env s = .ret () s1 ∧
        s1.init_types_calls = s.init_types_calls ++
          [(min ((env.be_get_backend_param s.be_log).machine_size / 8) 4,
            (if env.is_windows_os m.operating_system = true ∧
                (env.be_get_backend_param s.be_log).machine_size / 8 = 8 then 4
             else min ((env.be_get_backend_param s.be_log).machine_size / 8) 8),
            (env.be_get_backend_param s.be_log).machine_size / 8)] ∧
        props_after_init env s m =
          env.init_types (min ((env.be_get_backend_param s.be_log).machine_size / 8) 4)
            (if env.is_windows_os m.operating_system = true ∧
                (env.be_get_backend_param s.be_log).machine_size / 8 = 8 then 4
             else min ((env.be_get_backend_param s.be_log).machine_size / 8) 8)
            ((env.be_get_backend_param s.be_log).machine_size / 8) s.props ∧
        s1.props = props_at_end env s m) ∧
    ((env.be_get_backend_param s.be_log).machine_size % 8 ≠ 0 →
      target_adjust_types_and_dialect env s = .abort "Invalid target machine_size" s) := by
  constructor
  · intro m hm hms
    obtain ⟨s1, h1, hp, hc, -⟩ := target_adjust_types_and_dialect_returns env s m hm hms
    refine ⟨s1, h1, ?_, ?_, hp⟩
    · rw [hc]
      simp [init_types_arguments, adjusted_long_size, BITS_PER_BYTE]
    · simp [props_after_init, init_types_arguments, adjusted_long_size, BITS_PER_BYTE]
  · intro hms
    simp [target_adjust_types_and_dialect, BITS_PER_BYTE, hms]

/-- C8 amended, on a 32-bit Linux triple, and with a backend that reports a
machine size of 12 bits. -/
theorem init_types_sizes_witness :
    (∃ s1, target_adjust_types_and_dialect (sample_env sample_params32 [])
        (sample_state ⟨"i686", "pc", "linux-gnu"⟩ []) = .ret () s1 ∧
      s1.init_types_calls = [(4, 4, 4)]) ∧
    target_adjust_types_and_dialect (sample_env { sample_params32 with machine_size := 12 } [])
        (sample_state ⟨"i686", "pc", "linux-gnu"⟩ []) =
      .abort "Invalid target machine_size" (sample_state ⟨"i686", "pc", "linux-gnu"⟩ []) := by
  constructor
  · obtain ⟨s1, h1, hc, -⟩ := (init_types_sizes (sample_env sample_params32 [])
      (sample_state ⟨"i686", "pc", "linux-gnu"⟩ [])).1 ⟨"i686", "pc", "linux-gnu"⟩ rfl
      (by decide)
    exact ⟨s1, h1, hc⟩
  · exact (init_types_sizes (sample_env { sample_params32 with machine_size := 12 } [])
      (sample_state ⟨"i686", "pc", "linux-gnu"⟩ [])).2 (by decide)

/-- C9: when the backend reports no native long double type, then for every
operating system, ISA and dialect setting, the long double record ends with the
size, alignment, struct_alignment and flags of the double record as it stands
at the end of the function; the conversion rank of long double is the one it
had right before the fallback copy (the rank of double on a Windows operating
system that is not Darwin, where the whole double record was assigned before,
and the rank `init_types` left otherwise). -/
theorem long_double_fallback (env : Env) (s : State) (m : machine_triple_t)
    (hm : s.target.machine = some m)
    (hms : (env.be_get_backend_param s.be_log).machine_size % 8 = 0)
    (hld : (env.be_get_backend_param s.be_log).type_long_double = none) :
    ∃ s1, target_adjust_types_and_dialect env s = .ret () s1 ∧
      (s1.props ATOMIC_TYPE_LONG_DOUBLE).size = (s1.props ATOMIC_TYPE_DOUBLE).size ∧
      (s1.props ATOMIC_TYPE_LONG_DOUBLE).alignment = (s1.props ATOMIC_TYPE_DOUBLE).alignment ∧
      (s1.props ATOMIC_TYPE_LONG_DOUBLE).struct_alignment =
        (s1.props ATOMIC_TYPE_DOUBLE).struct_alignment ∧
      (s1.props ATOMIC_TYPE_LONG_DOUBLE).flags = (s1.props ATOMIC_TYPE_DOUBLE).flags ∧
      (s1.props ATOMIC_TYPE_LONG_DOUBLE).rank =
        (props_after_wchar env s m ATOMIC_TYPE_LONG_DOUBLE).rank ∧
      (s1.props ATOMIC_TYPE_LONG_DOUBLE).rank =
        (if env.is_darwin_os m.operating_system = false ∧
            env.is_windows_os m.operating_system = true then
          (props_after_init env s m ATOMIC_TYPE_DOUBLE).rank
         else (props_after_init env s m ATOMIC_TYPE_LONG_DOUBLE).rank) := by
  obtain ⟨s1, h1, hp, -⟩ := target_adjust_types_and_dialect_returns env s m hm hms
  refine ⟨s1, h1, ?_⟩
  rw [hp]
  cases hll : (env.be_get_backend_param s.be_log).type_long_long <;>
    cases hull : (env.be_get_backend_param s.be_log).type_unsigned_long_long <;>
    cases hcs : s.dialect.char_is_signed <;>
    cases hdarwin : env.is_darwin_os m.operating_system <;>
    cases hwindows : env.is_windows_os m.operating_system <;>
    by_cases hia : s.firm_isa = "ia32" <;> by_cases hamd : s.firm_isa = "amd64" <;>
    simp [props_at_end, props_after_wchar, props_after_char, props_after_os_abi,
      adjust_long_double_fallback, adjust_wchar, adjust_char_signedness, adjust_os_abi_props,
      adjust_backend_types, copy_typeprops, set_typeprops_type, hld, hll, hull, hcs, hdarwin,
      hwindows, hia, hamd, streq]

/-- C9, at the triple i686-pc-linux-gnu with the ISA ia32. -/
theorem long_double_fallback_witness :
    ∃ s1, target_adjust_types_and_dialect (sample_env sample_params32_no_long_double [])
        { sample_state ⟨"i686", "pc", "linux-gnu"⟩ [] with firm_isa := "ia32" } = .ret () s1 ∧
      (s1.props ATOMIC_TYPE_LONG_DOUBLE).size = (s1.props ATOMIC_TYPE_DOUBLE).size ∧
      (s1.props ATOMIC_TYPE_LONG_DOUBLE).alignment = (s1.props ATOMIC_TYPE_DOUBLE).alignment ∧
      (s1.props ATOMIC_TYPE_LONG_DOUBLE).struct_alignment =
        (s1.props ATOMIC_TYPE_DOUBLE).struct_alignment ∧
      (s1.props ATOMIC_TYPE_LONG_DOUBLE).flags = (s1.props ATOMIC_TYPE_DOUBLE).flags ∧
      (s1.props ATOMIC_TYPE_LONG_DOUBLE).rank = 7 := by
  obtain ⟨s1, h1, hs, ha, hsa, hf, hr, -⟩ :=
    long_double_fallback (sample_env sample_params32_no_long_double [])
      { sample_state ⟨"i686", "pc", "linux-gnu"⟩ [] with firm_isa := "ia32" }
      ⟨"i686", "pc", "linux-gnu"⟩ rfl (by decide) rfl
  refine ⟨s1, h1, hs, ha, hsa, hf, ?_⟩
  rw [hr]
  decide!

/-! ## Char signedness and the wide character record -/

/-- A bit of a number below `2 ^ 32` at a position from 32 on is clear. -/
theorem testBit_false_of_lt_two_pow_32 {mask i : Nat} (hmask : mask < 2 ^ 32) (hi : 32 ≤ i) :
    mask.testBit i = false := by
  apply Nat.testBit_lt_two_pow
  calc mask < 2 ^ 32 := hmask
    _ ≤ 2 ^ i := Nat.pow_le_pow_right (by decide) hi

/-- Setting the bits of `mask` makes the flag word carry `mask`. -/
theorem or_mask_carries (flags mask : Nat) : (flags ||| mask) &&& mask = mask := by
  apply Nat.eq_of_testBit_eq
  intro i
  simp only [Nat.testBit_and, Nat.testBit_or]
  cases flags.testBit i <;> cases mask.testBit i <;> rfl

/-- Clearing the bits of a 32-bit `mask` leaves none of them. -/
theorem and_not_mask_clears (flags mask : Nat) (hmask : mask < 2 ^ 32) :
    (flags &&& bit_not32 mask) &&& mask = 0 := by
  apply Nat.eq_of_testBit_eq
  intro i
  simp only [bit_not32, Nat.testBit_and, Nat.testBit_xor, Nat.testBit_two_pow_sub_one,
    Nat.zero_testBit]
  by_cases hi : i < 32
  · simp only [hi, decide_True]
    cases flags.testBit i <;> cases mask.testBit i <;> rfl
  · rw [testBit_false_of_lt_two_pow_32 hmask (Nat.le_of_not_lt hi)]
    simp

/-- Setting the bits of `mask` leaves the other bits alone. -/
theorem or_mask_other_bits (flags mask i : Nat) (hbit : mask.testBit i = false) :
    (flags ||| mask).testBit i = flags.testBit i := by
  simp [Nat.testBit_or, hbit]

/-- Clearing the bits of `mask` leaves the other bits of a 32-bit word alone. -/
theorem and_not_mask_other_bits (flags mask i : Nat) (hi : i < 32)
    (hbit : mask.testBit i = false) :
    (flags &&& bit_not32 mask).testBit i = flags.testBit i := by
  simp only [bit_not32, Nat.testBit_and, Nat.testBit_xor, Nat.testBit_two_pow_sub_one, hi, hbit,
    decide_True, Bool.xor_false, Bool.and_true]

/-- The char record after the signedness update, in terms of the record
before it. -/
theorem adjust_char_signedness_char (env : Env) (char_is_signed : Bool) (props : props_table) :
    adjust_char_signedness env char_is_signed props ATOMIC_TYPE_CHAR =
      { props ATOMIC_TYPE_CHAR with
        flags :=
          if char_is_signed then (props ATOMIC_TYPE_CHAR).flags ||| env.ATOMIC_TYPE_FLAG_SIGNED
          else (props ATOMIC_TYPE_CHAR).flags &&& bit_not32 env.ATOMIC_TYPE_FLAG_SIGNED } := by
  cases char_is_signed <;> simp [adjust_char_signedness]

/-- The steps after the signedness update do not write the char record. -/
theorem props_at_end_char (env : Env) (s : State) (m : machine_triple_t) :
    props_at_end env s m ATOMIC_TYPE_CHAR = props_after_char env s m ATOMIC_TYPE_CHAR := by
  cases hld : (env.be_get_backend_param s.be_log).type_long_double <;>
    simp [props_at_end, props_after_wchar, adjust_long_double_fallback, adjust_wchar, hld]

/-- The long double fallback does not write the wchar_t record. -/
theorem props_at_end_wchar (env : Env) (s : State) (m : machine_triple_t) :
    props_at_end env s m ATOMIC_TYPE_WCHAR_T =
      props_after_char env s m s.dialect.wchar_atomic_kind := by
  cases hld : (env.be_get_backend_param s.be_log).type_long_double <;>
    simp [props_at_end, props_after_wchar, adjust_long_double_fallback, adjust_wchar, hld]

/-- C10: after `target_adjust_types_and_dialect` the char record carries the
SIGNED flag if and only if `dialect.char_is_signed` is true; every other bit of
the 32-bit flag word and every other field of the char record is as it was
before that step (after the operating system and ISA exceptions); and the
wchar_t record equals, field for field including the rank, the record of
`dialect.wchar_atomic_kind` as it stands after the char signedness update.
`ATOMIC_TYPE_FLAG_SIGNED` is any non-zero constant of 32 bits. -/
theorem char_signedness_and_wchar (env : Env) (s : State) (m : machine_triple_t)
    (hm : s.target.machine = some m)
    (hms : (env.be_get_backend_param s.be_log).machine_size % 8 = 0)
    (hflag : 0 < env.ATOMIC_TYPE_FLAG_SIGNED) (hflag32 : env.ATOMIC_TYPE_FLAG_SIGNED < 2 ^ 32) :
    ∃ s1, target_adjust_types_and_dialect env s = .ret () s1 ∧
      ((s1.props ATOMIC_TYPE_CHAR).flags &&& env.ATOMIC_TYPE_FLAG_SIGNED =
          env.ATOMIC_TYPE_FLAG_SIGNED ↔ s.dialect.char_is_signed = true) ∧
      (∀ i, i < 32 → env.ATOMIC_TYPE_FLAG_SIGNED.testBit i = false →
        (s1.props ATOMIC_TYPE_CHAR).flags.testBit i =
          (props_after_os_abi env s m ATOMIC_TYPE_CHAR).flags.testBit i) ∧
      (s1.props ATOMIC_TYPE_CHAR).size = (props_after_os_abi env s m ATOMIC_TYPE_CHAR).size ∧
      (s1.props ATOMIC_TYPE_CHAR).alignment =
        (props_after_os_abi env s m ATOMIC_TYPE_CHAR).alignment ∧
      (s1.props ATOMIC_TYPE_CHAR).struct_alignment =
        (props_after_os_abi env s m ATOMIC_TYPE_CHAR).struct_alignment ∧
      (s1.props ATOMIC_TYPE_CHAR).rank = (props_after_os_abi env s m ATOMIC_TYPE_CHAR).rank ∧
      s1.props ATOMIC_TYPE_WCHAR_T = props_after_char env s m s.dialect.wchar_atomic_kind ∧
      (s.dialect.wchar_atomic_kind = ATOMIC_TYPE_CHAR →
        s1.props ATOMIC_TYPE_WCHAR_T = s1.props ATOMIC_TYPE_CHAR) := by
  obtain ⟨s1, h1, hp, -⟩ := target_adjust_types_and_dialect_returns env s m hm hms
  refine ⟨s1, h1, ?_⟩
  rw [hp, props_at_end_char, props_at_end_wchar]
  unfold props_after_char
  rw [adjust_char_signedness_char]
  refine ⟨?_, ?_, rfl, rfl, rfl, rfl, rfl, ?_⟩
  · cases hcs : s.dialect.char_is_signed
    · simp only [Bool.false_eq_true, if_false, iff_false]
      rw [and_not_mask_clears _ _ hflag32]
      omega
    · simp only [if_true, iff_true]
      exact or_mask_carries _ _
  · intro i hi hbit
    cases hcs : s.dialect.char_is_signed
    · simp only [Bool.false_eq_true, if_false]
      exact and_not_mask_other_bits _ _ i hi hbit
    · simp only [if_true]
      exact or_mask_other_bits _ _ i hbit
  · intro hw
    rw [hw, adjust_char_signedness_char]

/-- C10, at the triple i686-pc-linux-gnu with a signed char that is also the
wide character kind. -/
theorem char_signedness_and_wchar_witness :
    ∃ s1, target_adjust_types_and_dialect (sample_env sample_params32 [])
        { sample_state ⟨"i686", "pc", "linux-gnu"⟩ [] with
          dialect.char_is_signed := true
          dialect.wchar_atomic_kind := ATOMIC_TYPE_CHAR } = .ret () s1 ∧
      (s1.props ATOMIC_TYPE_CHAR).flags &&& 1 = 1 ∧
      s1.props ATOMIC_TYPE_WCHAR_T = s1.props ATOMIC_TYPE_CHAR := by
  obtain ⟨s1, h1, hsigned, -, -, -, -, -, -, hw⟩ :=
    char_signedness_and_wchar (sample_env sample_params32 [])
      { sample_state ⟨"i686", "pc", "linux-gnu"⟩ [] with
        dialect.char_is_signed := true
        dialect.wchar_atomic_kind := ATOMIC_TYPE_CHAR }
      ⟨"i686", "pc", "linux-gnu"⟩ rfl (by decide) (by decide) (by decide)
  exact ⟨s1, h1, hsigned.mpr rfl, hw rfl⟩

/-! ## Option forwarding, exactly -/

/-- The inner loop over the allow list: an option of the list is forwarded once
to each of the three tools, any other option to none. -/
theorem pass_to_tools_loop_allow_list (opt : String) (s : State) :
    pass_to_tools_loop pass_to_cpp_and_ld opt s =
      .ret ()
        (if pass_to_cpp_and_ld.contains opt then
          { s with
            cppflags := s.cppflags ++ ["-m" ++ opt]
            asflags := s.asflags ++ ["-m" ++ opt]
            ldflags := s.ldflags ++ ["-m" ++ opt] }
         else s) := by
  have h1 : snprintf 256 "-msoft-float" = "-msoft-float" := by decide
  have h2 : snprintf 256 "-m32" = "-m32" := by decide
  have h3 : snprintf 256 "-m64" = "-m64" := by decide
  have h4 : snprintf 256 "-m16" = "-m16" := by decide
  by_cases e1 : opt = "soft-float"
  · subst e1
    simp [pass_to_tools_loop, pass_to_cpp_and_ld, streq, driver_add_cppflag, driver_add_asflag,
      driver_add_ldflag, h1]
  · by_cases e2 : opt = "32"
    · subst e2
      simp [pass_to_tools_loop, pass_to_cpp_and_ld, streq, driver_add_cppflag,
        driver_add_asflag, driver_add_ldflag, h2]
    · by_cases e3 : opt = "64"
      · subst e3
        simp [pass_to_tools_loop, pass_to_cpp_and_ld, streq, driver_add_cppflag,
          driver_add_asflag, driver_add_ldflag, h3]
      · by_cases e4 : opt = "16"
        · subst e4
          simp [pass_to_tools_loop, pass_to_cpp_and_ld, streq, driver_add_cppflag,
            driver_add_asflag, driver_add_ldflag, h4]
        · have e1' : ¬ "soft-float" = opt := fun h => e1 h.symm
          have e2' : ¬ "32" = opt := fun h => e2 h.symm
          have e3' : ¬ "64" = opt := fun h => e3 h.symm
          have e4' : ¬ "16" = opt := fun h => e4 h.symm
          simp [pass_to_tools_loop, pass_to_cpp_and_ld, streq, e1, e2, e3, e4, e1', e2', e3', e4']

/-- The loop over the codegen options, exactly: what is submitted, which errors
are reported, which flags are forwarded, and the result. -/
theorem pass_codegen_options_loop_exact (env : Env) (opts : List String) (res : Bool)
    (s : State) :
    pass_codegen_options_loop env opts res s =
      .ret (res && (codegen_option_verdicts env s.firm_isa s.be_log opts).all id)
        { s with
          be_log := s.be_log ++ codegen_options_sent s.firm_isa opts
          errors := s.errors ++
            (rejected_codegen_options opts
              (codegen_option_verdicts env s.firm_isa s.be_log opts)).map
              unknown_codegen_option_message
          cppflags := s.cppflags ++
            forwarded_tool_flags opts (codegen_option_verdicts env s.firm_isa s.be_log opts)
          asflags := s.asflags ++
            forwarded_tool_flags opts (codegen_option_verdicts env s.firm_isa s.be_log opts)
          ldflags := s.ldflags ++
            forwarded_tool_flags opts (codegen_option_verdicts env s.firm_isa s.be_log opts) } := by
  induction opts generalizing res s with
  | nil =>
    simp [pass_codegen_options_loop, codegen_option_verdicts, codegen_options_sent,
      rejected_codegen_options, forwarded_tool_flags]
  | cons opt rest ih =>
    by_cases hd : starts_with_digit opt = true
    · by_cases hal : opt ∈ pass_to_cpp_and_ld
      · simp [pass_codegen_options_loop, hd, pass_to_tools_loop_allow_list, hal, ih,
          codegen_option_verdicts, codegen_options_sent, rejected_codegen_options,
          forwarded_tool_flags]
      · simp [pass_codegen_options_loop, hd, pass_to_tools_loop_allow_list, hal, ih,
          codegen_option_verdicts, codegen_options_sent, rejected_codegen_options,
          forwarded_tool_flags]
    · by_cases hacc : env.be_accepts s.be_log (snprintf 256 (s.firm_isa ++ "-" ++ opt)) = true
      · by_cases hal : opt ∈ pass_to_cpp_and_ld
        · simp [pass_codegen_options_loop, hd, be_parse_arg, hacc,
            pass_to_tools_loop_allow_list, hal, ih, codegen_option_verdicts,
            codegen_options_sent, rejected_codegen_options, forwarded_tool_flags]
        · simp [pass_codegen_options_loop, hd, be_parse_arg, hacc,
            pass_to_tools_loop_allow_list, hal, ih, codegen_option_verdicts,
            codegen_options_sent, rejected_codegen_options, forwarded_tool_flags]
      · simp [pass_codegen_options_loop, hd, be_parse_arg, hacc, errorf, ih,
          codegen_option_verdicts, codegen_options_sent, rejected_codegen_options,
          forwarded_tool_flags, unknown_codegen_option_message]

/-- The object format option goes to the backend. -/
theorem pass_object_format_exact (env : Env) (s : State) (hfix : env.takes_fixed_options) :
    pass_object_format env s =
      .ret () { s with be_log := s.be_log ++ [object_format_option s.target.object_format] } := by
  cases hof : s.target.object_format <;>
    simp [pass_object_format, hof, set_be_option, be_parse_arg, object_format_option,
      hfix.accepts _ "objectformat=elf" (by decide),
      hfix.accepts _ "objectformat=mach-o" (by decide),
      hfix.accepts _ "objectformat=coff" (by decide)]

/-- The profiling options go to the backend, and `-lfirmprof` to the linker
flags. -/
theorem pass_profile_options_exact (env : Env) (s : State) (hfix : env.takes_fixed_options) :
    pass_profile_options env s =
      .ret ()
        { s with
          be_log := s.be_log ++ profile_be_options s
          ldflags := s.ldflags ++ (if s.profile_generate then ["-lfirmprof"] else []) } := by
  obtain ⟨target, dialect, firm_isa, eb, co, props, ml, ddo, cli, cnm, pg, pu, hcw, bl, er, wa,
    cf, af, lf, itc⟩ := s
  cases pg <;> cases pu <;>
    simp [pass_profile_options, set_be_option, be_parse_arg, driver_add_ldflag,
      profile_be_options,
      hfix.accepts _ "profilegenerate" (by decide), hfix.accepts _ "profileuse" (by decide)]

/-- The PIC options go to the backend. -/
theorem pass_pic_options_exact (env : Env) (s : State) (m : machine_triple_t)
    (hm : s.target.machine = some m) (hfix : env.takes_fixed_options) :
    pass_pic_options env s =
      .ret () { s with be_log := s.be_log ++ pic_be_options env s m.operating_system } := by
  by_cases hpic : s.target.pic_mode > 0 <;> by_cases hia : s.firm_isa = "ia32" <;>
    cases hdar : env.is_darwin_os m.operating_system <;>
    cases hplt : s.target.pic_no_plt <;>
    simp [pass_pic_options, pic_be_options, hpic, hia, hdar, hplt, streq, get_machine, hm,
      set_be_option, be_parse_arg,
      hfix.accepts _ "pic=true" (by decide), hfix.accepts _ "pic=false" (by decide),
      hfix.accepts _ "ia32-pic=none" (by decide), hfix.accepts _ "ia32-pic=mach-o" (by decide),
      hfix.accepts _ "ia32-pic=elf-noplt" (by decide), hfix.accepts _ "ia32-pic=elf" (by decide)]

/-- With a triple in place and a backend that takes the literal options,
`pass_options_to_firm_be` returns; the result is true exactly when every
codegen option passed the backend, and the globals are those of
`after_pass_options`. -/
theorem pass_options_to_firm_be_exact (env : Env) (s : State) (m : machine_triple_t)
    (hm : s.target.machine = some m) (hfix : env.takes_fixed_options) :
    pass_options_to_firm_be env s =
      .ret
        ((codegen_option_verdicts env s.firm_isa
          (s.be_log ++ fixed_options_sent env s m.operating_system) s.codegen_options).all id)
        (after_pass_options env s m.operating_system) := by
  have h2 := fun s0 => pass_profile_options_exact env s0 hfix
  have h3 := fun s0 h => pass_pic_options_exact env s0 m h hfix
  simp [pass_options_to_firm_be, pass_object_format_exact env s hfix, h2, h3, hm,
    pass_codegen_options_loop_exact, after_pass_options, fixed_options_sent,
    profile_be_options, pic_be_options]

/-- There is one verdict for each codegen option. -/
theorem codegen_option_verdicts_length (env : Env) (firm_isa : String) (log opts : List String) :
    (codegen_option_verdicts env firm_isa log opts).length = opts.length := by
  induction opts generalizing log with
  | nil => rfl
  | cons opt rest ih =>
    by_cases hd : starts_with_digit opt = true <;> simp [codegen_option_verdicts, hd, ih]

/-- As many options are listed as rejected as there are failing verdicts. -/
theorem rejected_codegen_options_length (opts : List String) (verdicts : List Bool)
    (hlen : verdicts.length = opts.length) :
    (rejected_codegen_options opts verdicts).length = verdicts.count false := by
  induction opts generalizing verdicts with
  | nil =>
    cases verdicts with
    | nil => rfl
    | cons v vs => simp at hlen
  | cons opt rest ih =>
    cases verdicts with
    | nil => simp at hlen
    | cons v vs =>
      have hlen1 : vs.length = rest.length := by simpa using hlen
      have := ih vs hlen1
      unfold rejected_codegen_options at this ⊢
      cases v <;> simp_all [List.count_cons]

/-- The result of the option loop is false exactly when a verdict is. -/
theorem all_id_eq_false_iff (verdicts : List Bool) :
    verdicts.all id = false ↔ false ∈ verdicts := by
  induction verdicts with
  | nil => simp
  | cons v vs ih => cases v <;> simp_all


/-- The sample backend takes the literal options when none of them is among
those it is told to reject. -/
theorem sample_env_takes_fixed_options_unless (be_params : backend_params)
    (rejected : List String) (h : ∀ arg ∈ fixed_be_options, arg ∉ rejected) :
    (sample_env be_params rejected).takes_fixed_options := by
  intro log arg harg
  simp [sample_env, h arg harg]

/-- C12 does not hold as stated: the text `<firm_isa>-<option>` is written to a
buffer of 256 bytes, so with the ISA ia32 an option of 300 characters reaches
the backend cut to 255 characters, not as `ia32-<option>`. -/
theorem long_codegen_option_is_cut :
    (pass_options_to_firm_be (sample_env sample_params32 [])
        { sample_state ⟨"i686", "pc", "linux-gnu"⟩ [String.mk (List.replicate 300 'a')] with
          firm_isa := "ia32" }).state.be_log =
      ["objectformat=elf", "pic=false", "ia32-pic=none",
       "ia32-" ++ String.mk (List.replicate 250 'a')] ∧
    "ia32-" ++ String.mk (List.replicate 300 'a') ∉
      (pass_options_to_firm_be (sample_env sample_params32 [])
        { sample_state ⟨"i686", "pc", "linux-gnu"⟩ [String.mk (List.replicate 300 'a')] with
          firm_isa := "ia32" }).state.be_log := by
  decide!

/-- C12, amended: `pass_options_to_firm_be` is fail-soft.  For every list of
codegen options (with a triple in place and a backend that takes the literal
options) it returns; after the fixed options every option that does not start
with a digit was submitted exactly once, in list order and whatever was
rejected before, as `<firm_isa>-<option>` cut to the 255 characters that fit the
buffer (uncut when it fits); one error was reported for each rejected option,
so the number of new errors is the number of rejections; and the result is
false if and only if an option was rejected. -/
theorem pass_options_is_fail_soft (env : Env) (s : State) (m : machine_triple_t)
    (hm : s.target.machine = some m) (hfix : env.takes_fixed_options) :
    ∃ r s1, pass_options_to_firm_be env s = .ret r s1 ∧
      s1.be_log = s.be_log ++ fixed_options_sent env s m.operating_system ++
        (s.codegen_options.filter fun opt => !starts_with_digit opt).map
          (fun opt => snprintf 256 (s.firm_isa ++ "-" ++ opt)) ∧
      (∀ opt, (s.firm_isa ++ "-" ++ opt).length < 256 →
        snprintf 256 (s.firm_isa ++ "-" ++ opt) = s.firm_isa ++ "-" ++ opt) ∧
      s1.errors = s.errors ++
        (rejected_codegen_options s.codegen_options
          (codegen_option_verdicts env s.firm_isa
            (s.be_log ++ fixed_options_sent env s m.operating_system) s.codegen_options)).map
          unknown_codegen_option_message ∧
      s1.errors.length = s.errors.length +
        (codegen_option_verdicts env s.firm_isa
          (s.be_log ++ fixed_options_sent env s m.operating_system) s.codegen_options).count
          false ∧
      (r = false ↔
        false ∈ codegen_option_verdicts env s.firm_isa
          (s.be_log ++ fixed_options_sent env s m.operating_system) s.codegen_options) := by
  refine ⟨_, _, pass_options_to_firm_be_exact env s m hm hfix, ?_, ?_, ?_, ?_, ?_⟩
  · simp [after_pass_options, codegen_options_sent]
  · intro opt hfit
    exact snprintf_of_lt _ _ hfit
  · simp [after_pass_options]
  · simp [after_pass_options, rejected_codegen_options_length _ _
      (codegen_option_verdicts_length env _ _ _)]
  · exact all_id_eq_false_iff _

/-- C12 amended, with one unknown option among three: with the ISA ia32 and the
options omit-fp, bogus, soft-float, of which the backend rejects `ia32-bogus`,
all three are submitted, exactly one error is reported and the result is
false. -/
theorem pass_options_is_fail_soft_witness :
    ∃ r s1, pass_options_to_firm_be (sample_env sample_params32 ["ia32-bogus"])
        { sample_state ⟨"i686", "pc", "linux-gnu"⟩ ["omit-fp", "bogus", "soft-float"] with
          firm_isa := "ia32" } = .ret r s1 ∧
      s1.be_log = ["objectformat=elf", "pic=false", "ia32-pic=none",
        "ia32-omit-fp", "ia32-bogus", "ia32-soft-float"] ∧
      s1.errors = ["Unknown codegen option \x27-mbogus\x27"] ∧
      s1.errors.length = 1 ∧
      r = false := by
  have hfix := sample_env_takes_fixed_options_unless sample_params32 ["ia32-bogus"] (by decide)
  obtain ⟨r, s1, h1, hlog, -, herr, hcount, hres⟩ :=
    pass_options_is_fail_soft (sample_env sample_params32 ["ia32-bogus"])
      { sample_state ⟨"i686", "pc", "linux-gnu"⟩ ["omit-fp", "bogus", "soft-float"] with
        firm_isa := "ia32" }
      ⟨"i686", "pc", "linux-gnu"⟩ rfl hfix
  refine ⟨r, s1, h1, ?_, ?_, ?_, ?_⟩
  · rw [hlog]
    decide!
  · rw [herr]
    decide!
  · rw [hcount]
    decide!
  · rw [hres]
    decide!

/-- C16: PIC forwarding in `pass_options_to_firm_be` (with a triple in place
and a backend that takes the literal options).  The block of lines 433-448
sends the backend exactly `pic_be_options`, between the object format and
profiling options and the codegen options: with `target.pic_mode > 0` that is
`pic=true`, followed for the ISA ia32 only by one sub-mode option
(`ia32-pic=mach-o` on Darwin, otherwise `ia32-pic=elf-noplt` when
`target.pic_no_plt` is set and `ia32-pic=elf` when it is not); with
`target.pic_mode <= 0` it is `pic=false` and `ia32-pic=none` for every ISA,
whatever `pic_no_plt` is. -/
theorem pic_forwarding (env : Env) (s : State) (m : machine_triple_t)
    (hm : s.target.machine = some m) (hfix : env.takes_fixed_options) :
    pass_pic_options env s =
      .ret () { s with be_log := s.be_log ++ pic_be_options env s m.operating_system } ∧
    (∃ r s1, pass_options_to_firm_be env s = .ret r s1 ∧
      s1.be_log = s.be_log ++ [object_format_option s.target.object_format] ++
        profile_be_options s ++ pic_be_options env s m.operating_system ++
        codegen_options_sent s.firm_isa s.codegen_options) ∧
    pic_be_options env s m.operating_system =
      (if s.target.pic_mode > 0 then
        (if s.firm_isa = "ia32" then
          (if env.is_darwin_os m.operating_system = true then ["pic=true", "ia32-pic=mach-o"]
           else if s.target.pic_no_plt = true then ["pic=true", "ia32-pic=elf-noplt"]
           else ["pic=true", "ia32-pic=elf"])
         else ["pic=true"])
       else ["pic=false", "ia32-pic=none"]) := by
  refine ⟨pass_pic_options_exact env s m hm hfix,
    ⟨_, _, pass_options_to_firm_be_exact env s m hm hfix, ?_⟩, ?_⟩
  · simp [after_pass_options, fixed_options_sent]
  · unfold pic_be_options
    by_cases hpic : s.target.pic_mode > 0 <;> by_cases hia : s.firm_isa = "ia32" <;>
      cases hdar : env.is_darwin_os m.operating_system <;>
      cases hplt : s.target.pic_no_plt <;> simp [hpic, hia]

/-- C16, on Linux with the ISA ia32, PIC enabled and `pic_no_plt` set. -/
theorem pic_forwarding_witness :
    pass_pic_options (sample_env sample_params32 [])
        { sample_state ⟨"i686", "pc", "linux-gnu"⟩ [] with
          firm_isa := "ia32"
          target.pic_mode := 1
          target.pic_no_plt := true } =
      .ret ()
        { sample_state ⟨"i686", "pc", "linux-gnu"⟩ [] with
          firm_isa := "ia32"
          target.pic_mode := 1
          target.pic_no_plt := true
          be_log := ["pic=true", "ia32-pic=elf-noplt"] } :=
  (pic_forwarding (sample_env sample_params32 [])
    { sample_state ⟨"i686", "pc", "linux-gnu"⟩ [] with
      firm_isa := "ia32"
      target.pic_mode := 1
      target.pic_no_plt := true }
    ⟨"i686", "pc", "linux-gnu"⟩ rfl (sample_env_takes_fixed_options sample_params32)).1

/-- The operating system part of `init_os_support` changes the PIC mode only
in the Darwin branch, and there only when it is unset. -/
theorem init_os_support_os_pic_mode (env : Env) (os cpu : String) (s : State)
    (hos : env.supported_os os) (hfix : env.takes_fixed_options) :
    ∃ s1, init_os_support_os env os cpu s = .ret () s1 ∧
      s1.target.pic_mode =
        (if s.target.pic_mode = -1 ∧ env.is_elf_os os = false ∧ env.is_darwin_os os = true
         then 2 else s.target.pic_mode) := by
  by_cases helf : env.is_elf_os os = true
  · by_cases hgnu : strstr os "gnu" = true <;>
      simp [init_os_support_os, helf, hgnu, set_be_option, be_parse_arg,
        ppdef, ppdefc, set_create_ld_ident, set_compilerlib_name_mangle,
        hfix.accepts _ "ia32-struct_in_reg=no" (by decide),
        hfix.accepts _ "amd64-x64abi=no" (by decide)]
  · by_cases hdar : env.is_darwin_os os = true
    · by_cases hpic : s.target.pic_mode = -1 <;>
        simp [init_os_support_os, helf, hdar, hpic, set_be_option,
          be_parse_arg, ppdef, ppdefc, set_create_ld_ident, set_compilerlib_name_mangle,
          hfix.accepts _ "ia32-stackalign=4" (by decide),
          hfix.accepts _ "ia32-struct_in_reg=yes" (by decide),
          hfix.accepts _ "amd64-x64abi=no" (by decide)]
    · have hwin : env.is_windows_os os = true := by
        rcases hos with h | h | h
        · exact absurd h helf
        · exact absurd h hdar
        · exact h
      by_cases hmingw : strstr os "mingw" = true <;> by_cases hcpu : cpu = "x86_64" <;>
        simp [init_os_support_os, helf, hdar, hwin, hmingw, hcpu, streq,
          set_be_option, be_parse_arg, ppdef, ppdefc, set_create_ld_ident,
          set_compilerlib_name_mangle,
          hfix.accepts _ "ia32-struct_in_reg=no" (by decide),
          hfix.accepts _ "amd64-x64abi=yes" (by decide)]

/-- The CPU part of `init_os_support` leaves the PIC mode alone. -/
theorem init_os_support_cpu_pic_mode (env : Env) (os cpu manufacturer : String) (s : State) :
    ∃ s1, init_os_support_cpu env os cpu manufacturer s = .ret () s1 ∧
      s1.target.pic_mode = s.target.pic_mode := by
  by_cases hia : env.is_ia32_cpu cpu = true
  · by_cases h4 : cpu = "i486"
    · subst h4
      simp [init_os_support_cpu, hia, streq, ppdef, ppdefc]
    · by_cases h5 : cpu = "i586"
      · subst h5
        simp [init_os_support_cpu, hia, streq, ppdef, ppdefc]
      · by_cases h6 : cpu = "i686"
        · subst h6
          simp [init_os_support_cpu, hia, streq, ppdef, ppdefc]
        · by_cases h7 : cpu = "i786"
          · subst h7
            simp [init_os_support_cpu, hia, streq, ppdef, ppdefc]
          · simp [init_os_support_cpu, hia, h4, h5, h6, h7, streq, ppdef, ppdefc]
  · by_cases hsparc : cpu = "sparc"
    · subst hsparc
      by_cases hleon : strstr manufacturer "leon" = true <;>
        simp [init_os_support_cpu, hia, hleon, streq, ppdef, ppdefc]
    · by_cases harm : cpu = "arm"
      · subst harm
        by_cases heabi : strstr os "eabi" = true <;>
          simp [init_os_support_cpu, hia, heabi, streq, ppdef, ppdefc]
      · by_cases hx : cpu = "x86_64"
        · subst hx
          simp [init_os_support_cpu, hia, streq, ppdef, ppdefc]
        · simp [init_os_support_cpu, hia, hsparc, harm, hx, streq, ppdef, ppdefc]

/-- C11: in `init_os_support` (for a triple whose operating system is known and
a backend that takes the literal options), when the PIC mode is unset (-1) on
entry, the resulting PIC mode is 2 on Darwin (an operating system the ELF test,
which comes first, does not claim) and 0 on every ELF or Windows operating
system, whatever cpu_type and manufacturer are; when the PIC mode is set on
entry, it is left as it is. -/
theorem pic_mode_default (env : Env) (s : State) (m : machine_triple_t)
    (hm : s.target.machine = some m) (hos : env.supported_os m.operating_system)
    (hfix : env.takes_fixed_options) :
    ∃ s1, init_os_support env s = .ret () s1 ∧
      s1.target.pic_mode =
        (if s.target.pic_mode = -1 then
          (if env.is_elf_os m.operating_system = false ∧
              env.is_darwin_os m.operating_system = true then 2 else 0)
         else s.target.pic_mode) := by
  obtain ⟨s1, h1, p1⟩ := init_os_support_os_pic_mode env m.operating_system m.cpu_type
    { s with
      target :=
        { s.target with enable_main_collect2_hack := false, biggest_alignment := 16 }
      dialect := { s.dialect with wchar_atomic_kind := ATOMIC_TYPE_INT } } hos hfix
  obtain ⟨s1', h1', -, f1⟩ := init_os_support_os_returns env m.operating_system m.cpu_type
    { s with
      target :=
        { s.target with enable_main_collect2_hack := false, biggest_alignment := 16 }
      dialect := { s.dialect with wchar_atomic_kind := ATOMIC_TYPE_INT } } hos hfix
  have hs1 : s1' = s1 := by
    rw [h1] at h1'
    injection h1' with _ h
    exact h.symm
  subst hs1
  obtain ⟨s2, h2, p2⟩ :=
    init_os_support_cpu_pic_mode env m.operating_system m.cpu_type m.manufacturer s1'
  have hm1 : s1'.target.machine = some m := by rw [f1.os_machine]; exact hm
  simp only [hm] at h1
  simp only at p1
  by_cases hpic : s.target.pic_mode = -1
  · by_cases hd : env.is_elf_os m.operating_system = false ∧
        env.is_darwin_os m.operating_system = true
    · have hp2 : s2.target.pic_mode = 2 := by rw [p2, p1]; simp [hpic, hd]
      refine ⟨s2, ?_, ?_⟩
      · simp [init_os_support, get_machine, hm, h1, hm1, h2, hp2]
      · simp [hpic, hd, hp2]
    · have hp2 : s2.target.pic_mode = -1 := by rw [p2, p1]; simp [hpic, hd]
      refine ⟨{ s2 with target.pic_mode := 0 }, ?_, ?_⟩
      · simp [init_os_support, get_machine, hm, h1, hm1, h2, hp2]
      · simp [hpic, hd]
  · have hp2 : s2.target.pic_mode = s.target.pic_mode := by rw [p2, p1]; simp [hpic]
    refine ⟨s2, ?_, ?_⟩
    · simp [init_os_support, get_machine, hm, h1, hm1, h2, hp2, hpic]
    · simp [hpic, hp2]

/-- C11, on Darwin and on Linux with the PIC mode unset, and on Darwin with the
PIC mode set to 1 beforehand. -/
theorem pic_mode_default_witness :
    (∃ s1, init_os_support (sample_env sample_params32 [])
        (sample_state ⟨"i686", "apple", "darwin9"⟩ []) = .ret () s1 ∧
      s1.target.pic_mode = 2) ∧
    (∃ s1, init_os_support (sample_env sample_params32 [])
        (sample_state ⟨"i686", "pc", "linux-gnu"⟩ []) = .ret () s1 ∧
      s1.target.pic_mode = 0) ∧
    (∃ s1, init_os_support (sample_env sample_params32 [])
        { sample_state ⟨"i686", "apple", "darwin9"⟩ [] with target.pic_mode := 1 } =
          .ret () s1 ∧
      s1.target.pic_mode = 1) := by
  refine ⟨?_, ?_, ?_⟩
  · obtain ⟨s1, h1, hp⟩ := pic_mode_default (sample_env sample_params32 [])
      (sample_state ⟨"i686", "apple", "darwin9"⟩ []) ⟨"i686", "apple", "darwin9"⟩ rfl
      (by decide) (sample_env_takes_fixed_options sample_params32)
    exact ⟨s1, h1, by rw [hp]; decide⟩
  · obtain ⟨s1, h1, hp⟩ := pic_mode_default (sample_env sample_params32 [])
      (sample_state ⟨"i686", "pc", "linux-gnu"⟩ []) ⟨"i686", "pc", "linux-gnu"⟩ rfl
      (by decide) (sample_env_takes_fixed_options sample_params32)
    exact ⟨s1, h1, by rw [hp]; decide⟩
  · obtain ⟨s1, h1, hp⟩ := pic_mode_default (sample_env sample_params32 [])
      { sample_state ⟨"i686", "apple", "darwin9"⟩ [] with target.pic_mode := 1 }
      ⟨"i686", "apple", "darwin9"⟩ rfl
      (by decide) (sample_env_takes_fixed_options sample_params32)
    exact ⟨s1, h1, by rw [hp]; decide⟩


/-! ## The orchestrator -/

/-- When the three phases return, `target_setup` returns the conjunction of the
results of the first and the third, with the backend parameters stored. -/
theorem target_setup_of_phases (env : Env) (s s1 s2 s3 : State) (a b : Bool)
    (hA : setup_firm_isa env (with_host_machine env s) = .ret a s1)
    (hB : init_os_support env s1 = .ret () s2)
    (hC : pass_options_to_firm_be env s2 = .ret b s3) :
    target_setup env s = .ret (a && b) (store_backend_params env s3) := by
  unfold with_host_machine at hA
  by_cases hnone : s.target.machine = none
  · simp only [hnone, if_true] at hA
    simp [target_setup, hnone, hA, hB, hC, store_backend_params]
  · simp only [hnone, if_false] at hA
    simp [target_setup, hnone, hA, hB, hC, store_backend_params]

/-- When the ISA selection returns, for a triple whose operating system is
known and a backend that takes the literal options, the other two phases
return as well and `target_setup` returns. -/
theorem target_setup_after_isa (env : Env) (s s1 : State) (a : Bool) (m1 : machine_triple_t)
    (hA : setup_firm_isa env (with_host_machine env s) = .ret a s1)
    (hm1 : s1.target.machine = some m1) (hos : env.supported_os m1.operating_system)
    (hfix : env.takes_fixed_options) :
    ∃ s2 s3 b, init_os_support env s1 = .ret () s2 ∧
      pass_options_to_firm_be env s2 = .ret b s3 ∧
      target_setup env s = .ret (a && b) (store_backend_params env s3) ∧
      s2.target.defines = (registered_defines env m1).reverse ++ s1.target.defines ∧
      s3 = after_pass_options env s2 m1.operating_system ∧
      (store_backend_params env s3).target.defines =
        (registered_defines env m1).reverse ++ s1.target.defines ∧
      (store_backend_params env s3).target.machine = some m1 := by
  obtain ⟨s2, hB, d2, f2⟩ := init_os_support_returns env s1 m1 hm1 hos hfix
  have hm2 : s2.target.machine = some m1 := by rw [f2.os_machine]; exact hm1
  have hC := pass_options_to_firm_be_exact env s2 m1 hm2 hfix
  refine ⟨s2, _, _, hB, hC, target_setup_of_phases env s s1 s2 _ a _ hA hB hC, d2, rfl, ?_, ?_⟩
  · simp [store_backend_params, after_pass_options, d2]
  · simp [store_backend_params, after_pass_options, hm2]

/-- C13: `target_setup` returns true if and only if both `setup_firm_isa` and
`pass_options_to_firm_be` return true: whenever the three phases return (the
ISA selection `a`, then `init_os_support`, then the option forwarding `b`, each
started where the one before ended), `target_setup` returns `a && b`.  The
conjunction is not short-circuited: with an unknown cpu_type (no ISA selected,
a known operating system, a backend that takes the literal options) the ISA
selection returns false, and still `init_os_support` runs and registers its
defines, `pass_options_to_firm_be` runs and hands the backend its options, and
`target_setup` returns false. -/
theorem target_setup_is_conjunction (env : Env) (s : State) :
    (∀ (a b : Bool) (s1 s2 s3 : State),
      setup_firm_isa env (with_host_machine env s) = .ret a s1 →
      init_os_support env s1 = .ret () s2 →
      pass_options_to_firm_be env s2 = .ret b s3 →
      target_setup env s = .ret (a && b) (store_backend_params env s3) ∧
      ((a && b) = true ↔ a = true ∧ b = true)) ∧
    (∀ m : machine_triple_t, s.firm_isa = "" → s.target.machine = some m →
      m.cpu_type ∉ ["i386", "i486", "i586", "i686", "x86_64", "sparc", "arm"] →
      env.supported_os m.operating_system → env.takes_fixed_options →
      ∃ (b : Bool) (s1 s2 s3 : State),
        setup_firm_isa env s = .ret false s1 ∧
        init_os_support env s1 = .ret () s2 ∧
        pass_options_to_firm_be env s2 = .ret b s3 ∧
        target_setup env s = .ret false (store_backend_params env s3) ∧
        s2.target.defines = (registered_defines env m).reverse ++ s.target.defines ∧
        s3.be_log = s2.be_log ++ fixed_options_sent env s2 m.operating_system ++
          codegen_options_sent s2.firm_isa s2.codegen_options) := by
  constructor
  · intro a b s1 s2 s3 hA hB hC
    exact ⟨target_setup_of_phases env s s1 s2 s3 a b hA hB hC, by simp⟩
  · intro m hisa hm hcpu hos hfix
    have h0 := setup_firm_isa_unknown_cpu env s m hisa hm hcpu
    have hs : with_host_machine env s = s := by simp [with_host_machine, hm]
    obtain ⟨s2, s3, b, hB, hC, hT, d2, h3, -, -⟩ := target_setup_after_isa env s
      { s with
        errors := s.errors ++ ["unknown cpu \x27" ++ m.cpu_type ++ "\x27 in target-triple"] }
      false m (by rw [hs]; exact h0) hm hos hfix
    refine ⟨b, _, s2, s3, h0, hB, hC, ?_, d2, ?_⟩
    · simpa using hT
    · rw [h3]
      simp [after_pass_options]

/-- C13, at the triple weird-cpu-pc-linux-gnu (the ISA selection fails, the
other phases run, the result is false) and at the triple sparc-leon-elf (all
phases succeed, the result is true). -/
theorem target_setup_is_conjunction_witness :
    (∃ s4, target_setup (sample_env sample_params32 [])
        (sample_state ⟨"weird-cpu", "pc", "linux-gnu"⟩ ["32"]) = .ret false s4) ∧
    (target_setup (sample_env sample_params32 [])
        (sample_state ⟨"sparc", "leon", "elf"⟩ ["soft-float"])).value? = some true := by
  constructor
  · obtain ⟨b, s1, s2, s3, hA, hB, hC, -, -, -⟩ :=
      (target_setup_is_conjunction (sample_env sample_params32 [])
        (sample_state ⟨"weird-cpu", "pc", "linux-gnu"⟩ ["32"])).2
        ⟨"weird-cpu", "pc", "linux-gnu"⟩ rfl rfl (by decide) (by decide)
        (sample_env_takes_fixed_options sample_params32)
    have h := ((target_setup_is_conjunction (sample_env sample_params32 [])
        (sample_state ⟨"weird-cpu", "pc", "linux-gnu"⟩ ["32"])).1 false b s1 s2 s3 hA hB hC).1
    exact ⟨_, by simpa using h⟩
  · decide!


/-! ## The rewritten CPU string and the defines -/

/-- The names of the x86_64 defines. -/
theorem x86_64_define_names_not_os (env : Env) (os cpu : String) :
    ∀ d ∈ registered_os_defines env os cpu,
      d.name ∉ ["__x86_64", "__x86_64__", "__amd64", "__amd64__", "i386", "__i386",
        "__i386__", "__i486", "__i486__", "__i586", "__i586__", "__pentium", "__pentium__",
        "__pentiumpro", "__pentiumpro__", "__i686", "__i686__", "__pentium4",
        "__pentium4__"] := by
  unfold registered_os_defines
  by_cases helf : env.is_elf_os os = true
  · by_cases hgnu : strstr os "gnu" = true <;>
      simp [helf, hgnu, plain_define, conditional_define]
  · by_cases hdar : env.is_darwin_os os = true
    · simp [helf, hdar, plain_define, conditional_define]
    · by_cases hwin : env.is_windows_os os = true
      · by_cases hmingw : strstr os "mingw" = true <;> by_cases hcpu : streq cpu "x86_64" = true <;>
          simp [helf, hdar, hwin, hmingw, hcpu, plain_define, conditional_define]
      · simp [helf, hdar, hwin]

/-- With no ISA selected, the cpu_type x86_64 and the override 32,
`setup_firm_isa` rewrites the cpu_type to i686 and selects ia32. -/
theorem setup_firm_isa_x86_64_to_ia32 (env : Env) (s : State) (m : machine_triple_t)
    (hisa : s.firm_isa = "") (hm : s.target.machine = some m) (hcpu : m.cpu_type = "x86_64")
    (h32 : bitsize_override s.codegen_options = 32)
    (hbe1 : env.be_accepts s.be_log "isa=ia32" = true)
    (hbe2 : env.be_accepts (s.be_log ++ ["isa=ia32"]) "ia32-arch=i686" = true) :
    setup_firm_isa env s =
      .ret true
        { s with
          target.machine := some { m with cpu_type := "i686" }
          firm_isa := "ia32"
          be_log := s.be_log ++ ["isa=ia32", "ia32-arch=i686"] } := by
  obtain ⟨cpu, manufacturer, os⟩ := m
  simp only at hcpu
  subst hcpu
  have hfit : snprintf 64 "ia32-arch=i686" = "ia32-arch=i686" := by decide
  simp [setup_firm_isa, hisa, get_machine, hm, streq, get_bitsize_codegen_opt_eq, h32,
    set_cpu_type, setup_ia32, set_be_option, be_parse_arg, hbe1, hbe2, hfit]

/-- With no ISA selected, a cpu_type among i386, i486, i586, i686 and the
override 64, `setup_firm_isa` rewrites the cpu_type to x86_64 and selects
amd64. -/
theorem setup_firm_isa_ia32_to_x86_64 (env : Env) (s : State) (m : machine_triple_t)
    (hisa : s.firm_isa = "") (hm : s.target.machine = some m)
    (hcpu : m.cpu_type ∈ ["i386", "i486", "i586", "i686"])
    (h64 : bitsize_override s.codegen_options = 64)
    (hbe : env.be_accepts s.be_log "isa=amd64" = true) :
    setup_firm_isa env s =
      .ret true
        { s with
          target.machine := some { m with cpu_type := "x86_64" }
          experimental_backend :=
            some "the x86_64 backend is highly experimental and unfinished (consider the -m32 switch)"
          firm_isa := "amd64"
          be_log := s.be_log ++ ["isa=amd64"] } := by
  obtain ⟨cpu, manufacturer, os⟩ := m
  simp only [List.mem_cons, List.mem_singleton, List.not_mem_nil, or_false] at hcpu
  have hamd : snprintf 64 "isa=amd64" = "isa=amd64" := by decide
  rcases hcpu with rfl | rfl | rfl | rfl <;>
    simp [setup_firm_isa, hisa, get_machine, hm, streq, get_bitsize_codegen_opt_eq, h64,
      set_cpu_type, setup_x86_64, setup_isa, set_be_option, be_parse_arg, hbe, hamd]

/-- The CPU defines of i686, for classifiers that take i686 as an ia32 CPU. -/
theorem registered_cpu_defines_i686 (env : Env) (os manufacturer : String)
    (h686 : env.is_ia32_cpu "i686" = true) :
    registered_cpu_defines env os "i686" manufacturer =
      [conditional_define "i386" "1" .cond_not_strict, plain_define "__i386" "1",
       plain_define "__i386__" "1", plain_define "__pentiumpro" "1",
       plain_define "__pentiumpro__" "1", plain_define "__i686" "1",
       plain_define "__i686__" "1"] := by
  simp [registered_cpu_defines, h686, streq]

/-- The CPU defines of x86_64, for classifiers that do not take x86_64 as an
ia32 CPU. -/
theorem registered_cpu_defines_x86_64 (env : Env) (os manufacturer : String)
    (hx64 : env.is_ia32_cpu "x86_64" = false) :
    registered_cpu_defines env os "x86_64" manufacturer =
      [plain_define "__x86_64" "1", plain_define "__x86_64__" "1",
       plain_define "__amd64" "1", plain_define "__amd64__" "1"] := by
  simp [registered_cpu_defines, hx64, streq]

/-- C18: the rewritten CPU string drives the macro registration.  Run
`target_setup` with no ISA selected, a known operating system (ELF or any
other), a backend that takes the options it is sent, and CPU classifiers for
which i686 is an ia32 CPU and x86_64 is not.  With the cpu_type x86_64 and the
override 32, the defines registered by the call contain the conditional i386
and `__i386`, `__i386__`, `__pentiumpro`, `__pentiumpro__`, `__i686`,
`__i686__`, and none named `__x86_64`, `__x86_64__`, `__amd64`, `__amd64__`.
With a cpu_type among i386, i486, i586, i686 and the override 64, they contain
the four x86_64 and amd64 defines and none with a name of the i386 family. -/
theorem rewritten_cpu_drives_defines (env : Env) (s : State) (m : machine_triple_t)
    (hisa : s.firm_isa = "") (hm : s.target.machine = some m)
    (hos : env.supported_os m.operating_system) (hfix : env.takes_fixed_options)
    (h686 : env.is_ia32_cpu "i686" = true) (hx64 : env.is_ia32_cpu "x86_64" = false) :
    (m.cpu_type = "x86_64" → bitsize_override s.codegen_options = 32 →
      env.be_accepts s.be_log "isa=ia32" = true →
      env.be_accepts (s.be_log ++ ["isa=ia32"]) "ia32-arch=i686" = true →
      ∃ r s1 added, target_setup env s = .ret r s1 ∧
        s1.target.machine = some { m with cpu_type := "i686" } ∧
        s1.target.defines = added ++ s.target.defines ∧
        (∀ d ∈ [conditional_define "i386" "1" .cond_not_strict, plain_define "__i386" "1",
            plain_define "__i386__" "1", plain_define "__pentiumpro" "1",
            plain_define "__pentiumpro__" "1", plain_define "__i686" "1",
            plain_define "__i686__" "1"], d ∈ added) ∧
        (∀ d ∈ added, d.name ∉ ["__x86_64", "__x86_64__", "__amd64", "__amd64__"])) ∧
    (m.cpu_type ∈ ["i386", "i486", "i586", "i686"] →
      bitsize_override s.codegen_options = 64 →
      env.be_accepts s.be_log "isa=amd64" = true →
      ∃ r s1 added, target_setup env s = .ret r s1 ∧
        s1.target.machine = some { m with cpu_type := "x86_64" } ∧
        s1.target.defines = added ++ s.target.defines ∧
        (∀ d ∈ [plain_define "__x86_64" "1", plain_define "__x86_64__" "1",
            plain_define "__amd64" "1", plain_define "__amd64__" "1"], d ∈ added) ∧
        (∀ d ∈ added, d.name ∉ ["i386", "__i386", "__i386__", "__i486", "__i486__",
          "__i586", "__i586__", "__pentium", "__pentium__", "__pentiumpro",
          "__pentiumpro__", "__i686", "__i686__", "__pentium4", "__pentium4__"])) := by
  have hs : with_host_machine env s = s := by simp [with_host_machine, hm]
  constructor
  · intro hcpu h32 hbe1 hbe2
    have hA := setup_firm_isa_x86_64_to_ia32 env s m hisa hm hcpu h32 hbe1 hbe2
    obtain ⟨s2, s3, b, -, -, hT, -, -, hd, hmach⟩ := target_setup_after_isa env s _ true
      { m with cpu_type := "i686" } (by rw [hs]; exact hA) rfl hos hfix
    refine ⟨_, _, _, hT, hmach, hd, ?_, ?_⟩
    · simp [registered_defines, registered_cpu_defines_i686 env _ _ h686]
    · intro d hd
      simp only [registered_defines, List.mem_reverse, List.mem_append,
        registered_cpu_defines_i686 env _ _ h686] at hd
      rcases hd with hd | hd
      · have := x86_64_define_names_not_os env _ _ d hd
        simp only [List.mem_cons, List.mem_singleton, List.not_mem_nil, or_false, not_or] at this ⊢
        exact ⟨this.1, this.2.1, this.2.2.1, this.2.2.2.1⟩
      · simp only [List.mem_cons, List.mem_singleton, List.not_mem_nil, or_false] at hd
        rcases hd with rfl | rfl | rfl | rfl | rfl | rfl | rfl <;>
          simp [plain_define, conditional_define]
  · intro hcpu h64 hbe
    have hA := setup_firm_isa_ia32_to_x86_64 env s m hisa hm hcpu h64 hbe
    obtain ⟨s2, s3, b, -, -, hT, -, -, hd, hmach⟩ := target_setup_after_isa env s _ true
      { m with cpu_type := "x86_64" } (by rw [hs]; exact hA) rfl hos hfix
    refine ⟨_, _, _, hT, hmach, hd, ?_, ?_⟩
    · simp [registered_defines, registered_cpu_defines_x86_64 env _ _ hx64]
    · intro d hd
      simp only [registered_defines, List.mem_reverse, List.mem_append,
        registered_cpu_defines_x86_64 env _ _ hx64] at hd
      rcases hd with hd | hd
      · have := x86_64_define_names_not_os env _ _ d hd
        simp only [List.mem_cons, List.mem_singleton, List.not_mem_nil, or_false, not_or] at this ⊢
        exact ⟨this.2.2.2.2.1, this.2.2.2.2.2.1, this.2.2.2.2.2.2.1, this.2.2.2.2.2.2.2.1,
          this.2.2.2.2.2.2.2.2.1, this.2.2.2.2.2.2.2.2.2.1, this.2.2.2.2.2.2.2.2.2.2.1,
          this.2.2.2.2.2.2.2.2.2.2.2.1, this.2.2.2.2.2.2.2.2.2.2.2.2.1,
          this.2.2.2.2.2.2.2.2.2.2.2.2.2.1, this.2.2.2.2.2.2.2.2.2.2.2.2.2.2.1,
          this.2.2.2.2.2.2.2.2.2.2.2.2.2.2.2.1, this.2.2.2.2.2.2.2.2.2.2.2.2.2.2.2.2.1,
          this.2.2.2.2.2.2.2.2.2.2.2.2.2.2.2.2.2.1, this.2.2.2.2.2.2.2.2.2.2.2.2.2.2.2.2.2.2⟩
      · simp only [List.mem_cons, List.mem_singleton, List.not_mem_nil, or_false] at hd
        rcases hd with rfl | rfl | rfl | rfl <;> simp [plain_define]

/-- C18, at the triple x86_64-pc-linux-gnu with the options 64, 32 and at the
triple i386-pc-linux-gnu with the option 64. -/
theorem rewritten_cpu_drives_defines_witness :
    (∃ r s1, target_setup (sample_env sample_params32 [])
        (sample_state ⟨"x86_64", "pc", "linux-gnu"⟩ ["64", "32"]) = .ret r s1 ∧
      s1.target.machine = some ⟨"i686", "pc", "linux-gnu"⟩ ∧
      plain_define "__i686__" "1" ∈ s1.target.defines ∧
      conditional_define "i386" "1" .cond_not_strict ∈ s1.target.defines ∧
      ∀ d ∈ s1.target.defines, d.name ≠ "__x86_64__") ∧
    (∃ r s1, target_setup (sample_env sample_params32 [])
        (sample_state ⟨"i386", "pc", "linux-gnu"⟩ ["64"]) = .ret r s1 ∧
      s1.target.machine = some ⟨"x86_64", "pc", "linux-gnu"⟩ ∧
      plain_define "__x86_64__" "1" ∈ s1.target.defines ∧
      ∀ d ∈ s1.target.defines, d.name ≠ "__i386__") := by
  constructor
  · obtain ⟨r, s1, added, h1, hmach, hd, hin, hout⟩ :=
      (rewritten_cpu_drives_defines (sample_env sample_params32 [])
        (sample_state ⟨"x86_64", "pc", "linux-gnu"⟩ ["64", "32"]) ⟨"x86_64", "pc", "linux-gnu"⟩
        rfl rfl (by decide) (sample_env_takes_fixed_options sample_params32) (by decide)
        (by decide)).1 rfl (by decide) rfl rfl
    have hd' : s1.target.defines = added := by
      rw [hd]
      exact List.append_nil added
    refine ⟨r, s1, h1, hmach, ?_, ?_, ?_⟩
    · rw [hd']
      exact hin _ (by simp)
    · rw [hd']
      exact hin _ (by simp)
    · intro d hmem heq
      rw [hd'] at hmem
      exact hout d hmem (by simp [heq])
  · obtain ⟨r, s1, added, h1, hmach, hd, hin, hout⟩ :=
      (rewritten_cpu_drives_defines (sample_env sample_params32 [])
        (sample_state ⟨"i386", "pc", "linux-gnu"⟩ ["64"]) ⟨"i386", "pc", "linux-gnu"⟩
        rfl rfl (by decide) (sample_env_takes_fixed_options sample_params32) (by decide)
        (by decide)).2 (by decide) (by decide) rfl
    have hd' : s1.target.defines = added := by
      rw [hd]
      exact List.append_nil added
    refine ⟨r, s1, h1, hmach, ?_, ?_⟩
    · rw [hd']
      exact hin _ (by simp)
    · intro d hmem heq
      rw [hd'] at hmem
      exact hout d hmem (by simp [heq])


/-! ## Macro registration depends on the triple only -/

/-- Among the operating system defines, those with the name of an
option-dependent macro carry a condition. -/
theorem registered_os_defines_conditions (env : Env) (os cpu : String) :
    ∀ d ∈ registered_os_defines env os cpu,
      d.name ∈ option_dependent_macros → d.condition ≠ none := by
  unfold registered_os_defines option_dependent_macros
  by_cases helf : env.is_elf_os os = true
  · by_cases hgnu : strstr os "gnu" = true <;>
      simp [helf, hgnu, plain_define, conditional_define]
  · by_cases hdar : env.is_darwin_os os = true
    · simp [helf, hdar, plain_define, conditional_define]
    · by_cases hwin : env.is_windows_os os = true
      · by_cases hmingw : strstr os "mingw" = true <;> by_cases hcpu : streq cpu "x86_64" = true <;>
          simp [helf, hdar, hwin, hmingw, hcpu, plain_define, conditional_define]
      · simp [helf, hdar, hwin]

/-- Among the CPU defines, those with the name of an option-dependent macro
carry a condition. -/
theorem registered_cpu_defines_conditions (env : Env) (os cpu manufacturer : String) :
    ∀ d ∈ registered_cpu_defines env os cpu manufacturer,
      d.name ∈ option_dependent_macros → d.condition ≠ none := by
  unfold registered_cpu_defines option_dependent_macros
  by_cases hia : env.is_ia32_cpu cpu = true
  · by_cases h4 : streq cpu "i486" = true
    · simp [hia, h4, plain_define, conditional_define]
    · by_cases h5 : streq cpu "i586" = true
      · simp [hia, h4, h5, plain_define, conditional_define]
      · by_cases h6 : streq cpu "i686" = true
        · simp [hia, h4, h5, h6, plain_define, conditional_define]
        · by_cases h7 : streq cpu "i786" = true <;>
            simp [hia, h4, h5, h6, h7, plain_define, conditional_define]
  · by_cases hsparc : streq cpu "sparc" = true
    · by_cases hleon : strstr manufacturer "leon" = true <;>
        simp [hia, hsparc, hleon, plain_define, conditional_define]
    · by_cases harm : streq cpu "arm" = true
      · by_cases heabi : strstr os "eabi" = true <;>
          simp [hia, hsparc, harm, heabi, plain_define, conditional_define]
      · by_cases hx : streq cpu "x86_64" = true <;>
          simp [hia, hsparc, harm, hx, plain_define, conditional_define]

/-- C14: macro registration in `init_os_support` depends on the target triple
only.  Two initial states with the same triple and the same defines
registered before (and whatever dialect, byte order, PIC mode and codegen
options, which may differ) end with the same list of define records, names,
values and condition functions alike: the earlier list with the defines of
`registered_defines`, a function of the triple, in front.  No condition is
evaluated on the way, the result being the same whatever the conditions would
read; and every registered define named unix, linux, WINNT, WIN32, WIN64, i386,
sparc or `__LITTLE_ENDIAN__` carries a condition.  (For a triple whose operating
system is known and a backend that takes the literal options.) -/
theorem define_registration_by_triple (env : Env) (s s' : State) (m : machine_triple_t)
    (hm : s.target.machine = some m) (hm' : s'.target.machine = some m)
    (hdefines : s'.target.defines = s.target.defines)
    (hos : env.supported_os m.operating_system) (hfix : env.takes_fixed_options) :
    ∃ s1 s1', init_os_support env s = .ret () s1 ∧ init_os_support env s' = .ret () s1' ∧
      s1'.target.defines = s1.target.defines ∧
      s1.target.defines = (registered_defines env m).reverse ++ s.target.defines ∧
      (∀ d ∈ registered_defines env m,
        d.name ∈ option_dependent_macros → d.condition ≠ none) := by
  obtain ⟨s1, h1, d1, -⟩ := init_os_support_returns env s m hm hos hfix
  obtain ⟨s1', h1', d1', -⟩ := init_os_support_returns env s' m hm' hos hfix
  refine ⟨s1, s1', h1, h1', ?_, d1, ?_⟩
  · rw [d1', d1, hdefines]
  · intro d hd
    unfold registered_defines at hd
    rcases List.mem_append.mp hd with h | h
    · exact registered_os_defines_conditions env _ _ d h
    · exact registered_cpu_defines_conditions env _ _ _ d h

/-- C14, at the triple i686-pc-linux-gnu: a first state, and one with the GNU
dialect on, a signed char, a big-endian byte order, PIC mode 2 and other
codegen options. -/
theorem define_registration_by_triple_witness :
    ∃ s1 s1', init_os_support (sample_env sample_params32 [])
        (sample_state ⟨"i686", "pc", "linux-gnu"⟩ []) = .ret () s1 ∧
      init_os_support (sample_env sample_params32 [])
        { sample_state ⟨"i686", "pc", "linux-gnu"⟩ ["64", "soft-float"] with
          dialect.gnu := true
          dialect.char_is_signed := true
          target.byte_order_big_endian := true
          target.pic_mode := 2 } = .ret () s1' ∧
      s1'.target.defines = s1.target.defines := by
  obtain ⟨s1, s1', h1, h1', hd, -, -⟩ :=
    define_registration_by_triple (sample_env sample_params32 [])
      (sample_state ⟨"i686", "pc", "linux-gnu"⟩ [])
      { sample_state ⟨"i686", "pc", "linux-gnu"⟩ ["64", "soft-float"] with
        dialect.gnu := true
        dialect.char_is_signed := true
        target.byte_order_big_endian := true
        target.pic_mode := 2 }
      ⟨"i686", "pc", "linux-gnu"⟩ rfl rfl rfl (by decide)
      (sample_env_takes_fixed_options sample_params32)
  exact ⟨s1, s1', h1, h1', hd⟩


/-! ## The ia32 struct alignment exception and the pointer-sized kinds -/

/-- The property table after the backend types were applied (line 81), before
the operating system and ISA exceptions. -/
theorem props_at_end_plain_os (env : Env) (s : State) (m : machine_triple_t)
    (hdarwin : env.is_darwin_os m.operating_system = false)
    (hwindows : env.is_windows_os m.operating_system = false)
    (k : atomic_type_kind_t)
    (hk : k = ATOMIC_TYPE_DOUBLE ∨ k = ATOMIC_TYPE_LONGLONG ∨ k = ATOMIC_TYPE_ULONGLONG) :
    props_at_end env s m k =
      (if s.firm_isa = "ia32" then
        { adjust_backend_types (env.be_get_backend_param s.be_log) (props_after_init env s m) k
          with struct_alignment := 4 }
       else
        adjust_backend_types (env.be_get_backend_param s.be_log) (props_after_init env s m) k) := by
  cases hld : (env.be_get_backend_param s.be_log).type_long_double <;>
    cases hcs : s.dialect.char_is_signed <;>
    by_cases hia : s.firm_isa = "ia32" <;>
    rcases hk with rfl | rfl | rfl <;>
    simp [props_at_end, props_after_wchar, props_after_char, props_after_os_abi,
      adjust_long_double_fallback, adjust_wchar, adjust_char_signedness, adjust_os_abi_props,
      hld, hcs, hdarwin, hwindows, hia, streq]

/-- C15: on an operating system that is neither Darwin nor Windows, after
`target_adjust_types_and_dialect`: with the ISA ia32, double, long long and
unsigned long long have struct_alignment 4, and their size and alignment are
those the defaults and the backend types gave; with any other ISA the three
records are as the defaults and the backend types gave them, so long long and
unsigned long long with a backend type have struct_alignment equal to
alignment. -/
theorem ia32_struct_alignment (env : Env) (s : State) (m : machine_triple_t)
    (hm : s.target.machine = some m)
    (hms : (env.be_get_backend_param s.be_log).machine_size % 8 = 0)
    (hdarwin : env.is_darwin_os m.operating_system = false)
    (hwindows : env.is_windows_os m.operating_system = false) :
    ∃ s1, target_adjust_types_and_dialect env s = .ret () s1 ∧
      (∀ k, k = ATOMIC_TYPE_DOUBLE ∨ k = ATOMIC_TYPE_LONGLONG ∨ k = ATOMIC_TYPE_ULONGLONG →
        (s1.props k).size =
          (adjust_backend_types (env.be_get_backend_param s.be_log)
            (props_after_init env s m) k).size ∧
        (s1.props k).alignment =
          (adjust_backend_types (env.be_get_backend_param s.be_log)
            (props_after_init env s m) k).alignment ∧
        (s1.props k).struct_alignment =
          (if s.firm_isa = "ia32" then 4
           else (adjust_backend_types (env.be_get_backend_param s.be_log)
            (props_after_init env s m) k).struct_alignment)) ∧
      (match (env.be_get_backend_param s.be_log).type_long_long with
       | some type_ll =>
         (s1.props ATOMIC_TYPE_LONGLONG).size = type_ll.size_bytes ∧
         (s1.props ATOMIC_TYPE_LONGLONG).alignment = type_ll.alignment_bytes ∧
         (s1.props ATOMIC_TYPE_LONGLONG).struct_alignment =
           (if s.firm_isa = "ia32" then 4 else (s1.props ATOMIC_TYPE_LONGLONG).alignment)
       | none => True) ∧
      (match (env.be_get_backend_param s.be_log).type_unsigned_long_long with
       | some type_ull =>
         (s1.props ATOMIC_TYPE_ULONGLONG).size = type_ull.size_bytes ∧
         (s1.props ATOMIC_TYPE_ULONGLONG).alignment = type_ull.alignment_bytes ∧
         (s1.props ATOMIC_TYPE_ULONGLONG).struct_alignment =
           (if s.firm_isa = "ia32" then 4 else (s1.props ATOMIC_TYPE_ULONGLONG).alignment)
       | none => True) := by
  obtain ⟨s1, h1, hp, -⟩ := target_adjust_types_and_dialect_returns env s m hm hms
  refine ⟨s1, h1, ?_, ?_, ?_⟩
  · intro k hk
    rw [hp, props_at_end_plain_os env s m hdarwin hwindows k hk]
    by_cases hia : s.firm_isa = "ia32" <;> simp [hia]
  · rw [hp, props_at_end_plain_os env s m hdarwin hwindows _ (Or.inr (Or.inl rfl))]
    cases hll : (env.be_get_backend_param s.be_log).type_long_long <;>
      cases hull : (env.be_get_backend_param s.be_log).type_unsigned_long_long <;>
      cases hld : (env.be_get_backend_param s.be_log).type_long_double <;>
      by_cases hia : s.firm_isa = "ia32" <;>
      simp [adjust_backend_types, set_typeprops_type, hll, hull, hld, hia]
  · rw [hp, props_at_end_plain_os env s m hdarwin hwindows _ (Or.inr (Or.inr rfl))]
    cases hll : (env.be_get_backend_param s.be_log).type_long_long <;>
      cases hull : (env.be_get_backend_param s.be_log).type_unsigned_long_long <;>
      cases hld : (env.be_get_backend_param s.be_log).type_long_double <;>
      by_cases hia : s.firm_isa = "ia32" <;>
      simp [adjust_backend_types, set_typeprops_type, hll, hull, hld, hia]

/-- C15, at the triple i686-pc-linux-gnu with the ISA ia32 and with the ISA
sparc. -/
theorem ia32_struct_alignment_witness :
    (∃ s1, target_adjust_types_and_dialect (sample_env sample_params32 [])
        { sample_state ⟨"i686", "pc", "linux-gnu"⟩ [] with firm_isa := "ia32" } = .ret () s1 ∧
      (s1.props ATOMIC_TYPE_DOUBLE).struct_alignment = 4 ∧
      (s1.props ATOMIC_TYPE_DOUBLE).size = 8 ∧
      (s1.props ATOMIC_TYPE_LONGLONG).struct_alignment = 4 ∧
      (s1.props ATOMIC_TYPE_LONGLONG).alignment = 8) ∧
    (∃ s1, target_adjust_types_and_dialect (sample_env sample_params32 [])
        { sample_state ⟨"sparc", "leon", "elf"⟩ [] with firm_isa := "sparc" } = .ret () s1 ∧
      (s1.props ATOMIC_TYPE_LONGLONG).struct_alignment = 8 ∧
      (s1.props ATOMIC_TYPE_LONGLONG).alignment = 8) := by
  constructor
  · obtain ⟨s1, h1, hk, hll, -⟩ := ia32_struct_alignment (sample_env sample_params32 [])
      { sample_state ⟨"i686", "pc", "linux-gnu"⟩ [] with firm_isa := "ia32" }
      ⟨"i686", "pc", "linux-gnu"⟩ rfl (by decide) (by decide) (by decide)
    obtain ⟨hsize, -, hsa⟩ := hk ATOMIC_TYPE_DOUBLE (Or.inl rfl)
    refine ⟨s1, h1, ?_, ?_, ?_, hll.2.1⟩
    · rw [hsa]
      decide
    · rw [hsize]
      decide!
    · have h3 := hll.2.2
      simpa using h3
  · obtain ⟨s1, h1, -, hll, -⟩ := ia32_struct_alignment (sample_env sample_params32 [])
      { sample_state ⟨"sparc", "leon", "elf"⟩ [] with firm_isa := "sparc" }
      ⟨"sparc", "leon", "elf"⟩ rfl (by decide) (by decide) (by decide)
    have h3 := hll.2.2
    have h2 := hll.2.1
    refine ⟨s1, h1, ?_, h2⟩
    rw [h2] at h3
    simpa using h3

/-- C20 does not hold as stated: on a Windows triple with a machine size of 16
bits the pointer-sized kind is long long, of 8 bytes, while pointer_size is 2
(and `init_types` was handed 2 for int and long). -/
theorem windows16_pointer_sized_int_is_long_long :
    (sample_env { sample_params32 with machine_size := 16 } []).is_windows_os "mingw32" = true ∧
    (target_adjust_types_and_dialect (sample_env { sample_params32 with machine_size := 16 } [])
        (sample_state ⟨"i686", "pc", "mingw32"⟩ [])).state.dialect.pointer_sized_int =
      ATOMIC_TYPE_LONGLONG ∧
    (target_adjust_types_and_dialect (sample_env { sample_params32 with machine_size := 16 } [])
        (sample_state ⟨"i686", "pc", "mingw32"⟩ [])).state.init_types_calls = [(2, 2, 2)] ∧
    alias_size 2 2 ATOMIC_TYPE_LONGLONG = some 8 ∧
    alias_size 2 2 ATOMIC_TYPE_LONGLONG ≠ some (16 / 8) := by
  decide!

/-- C20, amended: the pointer-sized integer kinds chosen by
`target_adjust_types_and_dialect` are pointer-sized for every machine size in
16, 32, 64 on every operating system that is not Windows (long, with the long
size min(pointer_size, 8) handed to `init_types`) and for the machine sizes 32
(int, with the int size min(pointer_size, 4)) and 64 (long long, of 8 bytes) on
Windows; on Windows with the machine size 16 the kind is long long all the
same.  The signed and the unsigned kind always form a matching pair. -/
theorem pointer_sized_aliases (env : Env) (s : State) (m : machine_triple_t)
    (hm : s.target.machine = some m)
    (hms : (env.be_get_backend_param s.be_log).machine_size ∈ [16, 32, 64]) :
    ∃ s1, target_adjust_types_and_dialect env s = .ret () s1 ∧
      s1.init_types_calls = s.init_types_calls ++
        [init_types_arguments env m.operating_system
          (env.be_get_backend_param s.be_log).machine_size] ∧
      unsigned_counterpart s1.dialect.pointer_sized_int = some s1.dialect.pointer_sized_uint ∧
      ((env.is_windows_os m.operating_system = false ∨
          (env.is_darwin_os m.operating_system = false ∧
            env.is_windows_os m.operating_system = true ∧
            (env.be_get_backend_param s.be_log).machine_size ≠ 16)) →
        s1.dialect.pointer_sized_int =
          (if env.is_windows_os m.operating_system = false then ATOMIC_TYPE_LONG
           else if (env.be_get_backend_param s.be_log).machine_size = 32 then ATOMIC_TYPE_INT
           else ATOMIC_TYPE_LONGLONG) ∧
        alias_size
            (init_types_arguments env m.operating_system
              (env.be_get_backend_param s.be_log).machine_size).1
            (init_types_arguments env m.operating_system
              (env.be_get_backend_param s.be_log).machine_size).2.1
            s1.dialect.pointer_sized_int =
          some ((env.be_get_backend_param s.be_log).machine_size / 8) ∧
        alias_size
            (init_types_arguments env m.operating_system
              (env.be_get_backend_param s.be_log).machine_size).1
            (init_types_arguments env m.operating_system
              (env.be_get_backend_param s.be_log).machine_size).2.1
            s1.dialect.pointer_sized_uint =
          some ((env.be_get_backend_param s.be_log).machine_size / 8)) ∧
      (env.is_darwin_os m.operating_system = false →
        env.is_windows_os m.operating_system = true →
        (env.be_get_backend_param s.be_log).machine_size = 16 →
        s1.dialect.pointer_sized_int = ATOMIC_TYPE_LONGLONG) := by
  have hms8 : (env.be_get_backend_param s.be_log).machine_size % 8 = 0 := by
    simp only [List.mem_cons, List.mem_singleton, List.not_mem_nil, or_false] at hms
    rcases hms with h | h | h <;> rw [h]
  obtain ⟨s1, h1, -, hc, hd, -⟩ := target_adjust_types_and_dialect_returns env s m hm hms8
  refine ⟨s1, h1, hc, ?_, ?_, ?_⟩
  · rw [hd]
    cases hdar : env.is_darwin_os m.operating_system <;>
      cases hwin : env.is_windows_os m.operating_system <;>
      by_cases h32 : (env.be_get_backend_param s.be_log).machine_size = 32 <;>
      simp [adjust_pointer_sized, hdar, hwin, h32, unsigned_counterpart]
  · intro hos
    rw [hd]
    simp only [List.mem_cons, List.mem_singleton, List.not_mem_nil, or_false] at hms
    cases hdar : env.is_darwin_os m.operating_system <;>
      cases hwin : env.is_windows_os m.operating_system <;>
      rcases hms with h | h | h <;>
      simp [adjust_pointer_sized, init_types_arguments, adjusted_long_size, BITS_PER_BYTE,
        alias_size, hdar, hwin, h] at hos ⊢
  · intro hdar hwin h16
    rw [hd]
    simp [adjust_pointer_sized, hdar, hwin, h16]

/-- C20 amended, on Linux with 64 bits and on Windows with 32 bits. -/
theorem pointer_sized_aliases_witness :
    (∃ s1, target_adjust_types_and_dialect (sample_env sample_params64 [])
        (sample_state ⟨"x86_64", "pc", "linux-gnu"⟩ []) = .ret () s1 ∧
      s1.init_types_calls = [(4, 8, 8)] ∧
      s1.dialect.pointer_sized_int = ATOMIC_TYPE_LONG ∧
      s1.dialect.pointer_sized_uint = ATOMIC_TYPE_ULONG) ∧
    (∃ s1, target_adjust_types_and_dialect (sample_env sample_params32 [])
        (sample_state ⟨"i686", "pc", "mingw32"⟩ []) = .ret () s1 ∧
      s1.init_types_calls = [(4, 4, 4)] ∧
      s1.dialect.pointer_sized_int = ATOMIC_TYPE_INT ∧
      s1.dialect.pointer_sized_uint = ATOMIC_TYPE_UINT) := by
  constructor
  · obtain ⟨s1, h1, hc, hpair, hsize, -⟩ := pointer_sized_aliases
      (sample_env sample_params64 []) (sample_state ⟨"x86_64", "pc", "linux-gnu"⟩ [])
      ⟨"x86_64", "pc", "linux-gnu"⟩ rfl (by decide)
    obtain ⟨hint, -, -⟩ := hsize (Or.inl (by decide))
    have hint' : s1.dialect.pointer_sized_int = ATOMIC_TYPE_LONG := by
      rw [hint]
      decide
    refine ⟨s1, h1, ?_, hint', ?_⟩
    · rw [hc]
      decide
    · rw [hint'] at hpair
      exact (Option.some.inj hpair).symm
  · obtain ⟨s1, h1, hc, hpair, hsize, -⟩ := pointer_sized_aliases
      (sample_env sample_params32 []) (sample_state ⟨"i686", "pc", "mingw32"⟩ [])
      ⟨"i686", "pc", "mingw32"⟩ rfl (by decide)
    obtain ⟨hint, -, -⟩ := hsize (Or.inr (by decide))
    have hint' : s1.dialect.pointer_sized_int = ATOMIC_TYPE_INT := by
      rw [hint]
      decide
    refine ⟨s1, h1, ?_, hint', ?_⟩
    · rw [hc]
      decide
    · rw [hint'] at hpair
      exact (Option.some.inj hpair).symm


/-! ## The ISA selection is sticky -/

/-- An option handed to the backend leaves the selected ISA alone. -/
theorem set_be_option_firm_isa (env : Env) (arg : String) (s s1 : State)
    (h : set_be_option env arg s = .ret () s1) : s1.firm_isa = s.firm_isa := by
  by_cases hacc : env.be_accepts s.be_log arg = true
  · simp [set_be_option, be_parse_arg, hacc] at h
    rw [← h]
  · simp [set_be_option, be_parse_arg, hacc] at h

/-- When `setup_isa` returns, the ISA it was given is selected. -/
theorem setup_isa_firm_isa (env : Env) (isa : String) (s s1 : State)
    (h : setup_isa env isa s = .ret () s1) : s1.firm_isa = isa := by
  by_cases hacc : env.be_accepts s.be_log (snprintf 64 ("isa=" ++ isa)) = true
  · simp [setup_isa, set_be_option, be_parse_arg, hacc] at h
    rw [← h]
  · simp [setup_isa, set_be_option, be_parse_arg, hacc] at h

/-- When `setup_ia32` returns, ia32 is selected. -/
theorem setup_ia32_firm_isa (env : Env) (firm_arch : String) (s s1 : State)
    (h : setup_ia32 env firm_arch s = .ret () s1) : s1.firm_isa = "ia32" := by
  by_cases h1 : env.be_accepts s.be_log "isa=ia32" = true
  · by_cases h2 : env.be_accepts (s.be_log ++ ["isa=ia32"])
        (snprintf 64 ("ia32-arch=" ++ firm_arch)) = true
    · simp [setup_ia32, set_be_option, be_parse_arg, h1, h2] at h
      rw [← h]
    · simp [setup_ia32, set_be_option, be_parse_arg, h1, h2] at h
  · simp [setup_ia32, set_be_option, be_parse_arg, h1] at h

/-- When `setup_x86_64` returns, amd64 is selected. -/
theorem setup_x86_64_firm_isa (env : Env) (s s1 : State)
    (h : setup_x86_64 env s = .ret () s1) : s1.firm_isa = "amd64" := by
  simp only [setup_x86_64, Exec.bind_apply, modify_state_apply] at h
  exact setup_isa_firm_isa env "amd64" _ s1 h

/-- When `setup_arm` returns, arm is selected. -/
theorem setup_arm_firm_isa (env : Env) (s s1 : State)
    (h : setup_arm env s = .ret () s1) : s1.firm_isa = "arm" := by
  simp only [setup_arm, Exec.bind_apply, modify_state_apply] at h
  exact setup_isa_firm_isa env "arm" _ s1 h

/-- When `setup_firm_isa` returns true, an ISA is selected. -/
theorem setup_firm_isa_selects (env : Env) (s s1 : State)
    (h : setup_firm_isa env s = .ret true s1) : s1.firm_isa ≠ "" := by
  by_cases hisa : s.firm_isa = ""
  · cases hmach : s.target.machine with
    | none => simp [setup_firm_isa, hisa, get_machine, hmach] at h
    | some m =>
      obtain ⟨cpu, manufacturer, os⟩ := m
      simp only [setup_firm_isa, Exec.bind_apply, get_state_apply, hisa, ne_eq,
        not_true_eq_false, if_false, Exec.pure_apply, get_machine, hmach] at h
      split at h
      · simp only [Exec.bind_apply, get_bitsize_codegen_opt_eq] at h
        split at h
        · simp only [Exec.bind_apply, set_cpu_type, get_machine, hmach, modify_state_apply,
            Exec.pure_apply] at h
          split at h
          · rename_i u s2 heq
            injection h with _ hs
            rw [← hs, setup_x86_64_firm_isa env _ s2 heq]
            decide
          · simp at h
        · simp only [Exec.bind_apply, Exec.pure_apply] at h
          split at h
          · rename_i u s2 heq
            injection h with _ hs
            rw [← hs, setup_ia32_firm_isa env _ _ s2 heq]
            decide
          · simp at h
      · split at h
        · simp only [Exec.bind_apply, get_bitsize_codegen_opt_eq] at h
          split at h
          · simp only [Exec.bind_apply, set_cpu_type, get_machine, hmach, modify_state_apply,
              Exec.pure_apply] at h
            split at h
            · rename_i u s2 heq
              injection h with _ hs
              rw [← hs, setup_ia32_firm_isa env _ _ s2 heq]
              decide
            · simp at h
          · simp only [Exec.bind_apply, Exec.pure_apply] at h
            split at h
            · rename_i u s2 heq
              injection h with _ hs
              rw [← hs, setup_x86_64_firm_isa env _ s2 heq]
              decide
            · simp at h
        · split at h
          · simp only [Exec.bind_apply, Exec.pure_apply] at h
            split at h
            · rename_i u s2 heq
              have hs2 := setup_isa_firm_isa env _ _ s2 heq
              cases hm2 : s2.target.machine with
              | none => simp [get_machine, hm2] at h
              | some m2 =>
                simp only [get_machine, hm2] at h
                split at h
                · simp only [Exec.bind_apply, Exec.pure_apply] at h
                  split at h
                  · rename_i u3 s3 heq3
                    injection h with _ hs
                    rw [← hs, set_be_option_firm_isa env _ _ s3 heq3, hs2]
                    decide
                  · simp at h
                · simp only [Exec.bind_apply, Exec.pure_apply] at h
                  injection h with _ hs
                  rw [← hs, hs2]
                  decide
            · simp at h
          · split at h
            · simp only [Exec.bind_apply, Exec.pure_apply] at h
              split at h
              · rename_i u s2 heq
                injection h with _ hs
                rw [← hs, setup_arm_firm_isa env _ s2 heq]
                decide
              · simp at h
            · simp [errorf] at h
  · simp only [setup_firm_isa, Exec.bind_apply, get_state_apply, ne_eq, hisa,
      not_false_eq_true, if_true, Exec.pure_apply] at h
    split at h
    · rename_i u s2 heq
      injection h with _ hs
      rw [← hs, setup_isa_firm_isa env _ _ s2 heq]
      exact hisa
    · simp at h

/-- C19: the ISA selection is idempotent and sticky.  For every initial state
in which `setup_firm_isa` returns true, a second call, even after the codegen
options were replaced by any others, returns true as well and leaves firm_isa,
the stored cpu_type and the experimental-backend note (and everything but the
record of backend options) as the first call left them.  The backend is
assumed to take the option `isa=<firm_isa>` of the second call (a rejected
option ends the process). -/
theorem setup_firm_isa_idempotent (env : Env) (s s1 : State) (codegen_options : List String)
    (h : setup_firm_isa env s = .ret true s1)
    (hbe : env.be_accepts s1.be_log (snprintf 64 ("isa=" ++ s1.firm_isa)) = true) :
    setup_firm_isa env { s1 with codegen_options := codegen_options } =
      .ret true
        { s1 with
          codegen_options := codegen_options
          be_log := s1.be_log ++ [snprintf 64 ("isa=" ++ s1.firm_isa)] } := by
  have hisa := setup_firm_isa_selects env s s1 h
  simp [setup_firm_isa, hisa, setup_isa, set_be_option, be_parse_arg, hbe]

/-- C19, at the triple x86_64-pc-linux-gnu: the first call, with the option 32,
selects ia32 and rewrites the cpu_type to i686; the second call, with the
option 64, leaves both alone. -/
theorem setup_firm_isa_idempotent_witness :
    setup_firm_isa (sample_env sample_params32 [])
        { sample_state ⟨"i686", "pc", "linux-gnu"⟩ ["64"] with
          firm_isa := "ia32"
          be_log := ["isa=ia32", "ia32-arch=i686"] } =
      .ret true
        { sample_state ⟨"i686", "pc", "linux-gnu"⟩ ["64"] with
          firm_isa := "ia32"
          be_log := ["isa=ia32", "ia32-arch=i686", "isa=ia32"] } :=
  setup_firm_isa_idempotent (sample_env sample_params32 [])
    (sample_state ⟨"x86_64", "pc", "linux-gnu"⟩ ["32"])
    { sample_state ⟨"i686", "pc", "linux-gnu"⟩ ["32"] with
      firm_isa := "ia32"
      be_log := ["isa=ia32", "ia32-arch=i686"] }
    ["64"]
    (setup_firm_isa_x86_64_to_ia32 (sample_env sample_params32 [])
      (sample_state ⟨"x86_64", "pc", "linux-gnu"⟩ ["32"]) ⟨"x86_64", "pc", "linux-gnu"⟩
      rfl rfl rfl (by decide) rfl rfl)
    rfl

end CParser
